import Mathlib

/-! # server-healthcheck: ingestion, classification and dashboard read model

A shallow embedding of `src/backend/routes/metrics.js`, `src/backend/routes/storage.js`
and `src/backend/routes/dashboard.js`.

Modelling conventions

* A request body is what `express.json` / `express.urlencoded` hand to the route, an
  object: every field is a JSON-borne JavaScript value (`JSVal`); a missing field is
  `undefined`.
  `JSON.parse` never yields `NaN`, so a body number is a finite value or an infinity.
  A finite number is carried as the exact rational value of the double: comparisons with
  integer constants and `toFixed` are exact functions of that value; a division rounds
  its quotient to a double (`roundDouble`).
* What JavaScript computes by coercion (`ToNumber`) is a `JSNum`, which has `NaN`.
* Built-ins of the JavaScript runtime, of the `pg` driver and of the database that the
  routes only call (string to number conversion, `Number::toString` of large or fractional
  numbers, the serialisation of a non-string query parameter, the collation of addresses)
  are fields of `JSEnv`.
* The relational store is explicit state (`Store`); timestamps are integer milliseconds,
  the resolution at which the driver hands a timestamp to JavaScript as a `Date`. A data
  column holds the value bound to its parameter.
* A query may fail: the handler receives `fails`, which tells for the k-th query of the
  request (counted from 0) whether the store rejects it. A rejected query changes nothing.
  The handlers model the `try` block of a route, entered once `pool.connect()` has given
  a client; for the two ingestion routes `metricsRoute` and `storageRoute` add the
  `await pool.connect()` that stands before the `try`.
* A count (`bigint`) is carried as the natural number it is; `StatsRow.delivered` is the
  row as the driver hands it to the route, with each count as its decimal text.
* The fleet list compares timestamps with the application clock (`Date.now()`, `appNow`),
  the queries compare them with the clock of the store (`NOW()`, `dbNow`).
-/

namespace HealthCheck

/-! ## JavaScript values -/

/-- JSON-borne JavaScript value. An object or array is carried by its JSON text. -/
inductive JSVal where
  | undefined
  | null
  | bool (b : Bool)
  | num (q : ℚ)
  | inf (negative : Bool)
  | str (s : String)
  | obj (json : String)
  deriving DecidableEq, Repr

/-- Result of the abstract operation ToNumber. -/
inductive JSNum where
  | nan
  | fin (q : ℚ)
  | inf (negative : Bool)
  deriving DecidableEq, Repr

/-- Built-ins of the JavaScript runtime, the `pg` driver and the database that the routes
call but do not define. -/
structure JSEnv where
  /-- StringToNumber of ECMAScript. -/
  stringToNumber : String → JSNum
  /-- ToPrimitive of the object with this JSON text; `none` when it raises a TypeError. -/
  objectToPrimitive : String → Option String
  /-- Number::toString of a finite number. -/
  numberToString : ℚ → String
  /-- The call `JSON.stringify(v)`. -/
  jsonStringify : JSVal → String
  /-- Text the `pg` driver sends for a query parameter that is not a string. -/
  pgPrepare : JSVal → String
  /-- The order `ORDER BY` puts on addresses (the collation of the column). -/
  addressLe : String → String → Bool
  /-- The integer an integer column holds, or an integer parameter denotes, once the store
  has accepted the value bound to it. -/
  columnInt : JSVal → Int

/-- An exception raised while a route handler runs (caught by its `catch`). -/
inductive JSError where
  | typeError
  | queryError
  deriving DecidableEq, Repr

/-- ToBoolean. -/
def JSVal.truthy : JSVal → Bool
  | .undefined => false
  | .null => false
  | .bool b => b
  | .num q => decide (q ≠ 0)
  | .inf _ => true
  | .str s => decide (s ≠ "")
  | .obj _ => true

/-- The test `typeof v === 'number'`. -/
def JSVal.isNumber : JSVal → Bool
  | .num _ => true
  | .inf _ => true
  | _ => false

/-- The expression `a || b`. -/
def JSVal.or (a b : JSVal) : JSVal := if a.truthy then a else b

/-- ToNumber; an object goes through ToPrimitive first, which may raise. -/
def JSVal.toNumber (env : JSEnv) : JSVal → Except JSError JSNum
  | .undefined => .ok .nan
  | .null => .ok (.fin 0)
  | .bool b => .ok (.fin (if b then 1 else 0))
  | .num q => .ok (.fin q)
  | .inf n => .ok (.inf n)
  | .str s => .ok (env.stringToNumber s)
  | .obj j =>
    match env.objectToPrimitive j with
    | some s => .ok (env.stringToNumber s)
    | none => .error .typeError

/-- The comparison `x < k` of a number with a finite constant. -/
def JSNum.lt (x : JSNum) (k : ℚ) : Bool :=
  match x with
  | .nan => false
  | .fin q => decide (q < k)
  | .inf n => n

/-- The comparison `x > k` of a number with a finite constant. -/
def JSNum.gt (x : JSNum) (k : ℚ) : Bool :=
  match x with
  | .nan => false
  | .fin q => decide (k < q)
  | .inf n => !n

/-- The comparison `x >= k` of a number with a finite constant. -/
def JSNum.ge (x : JSNum) (k : ℚ) : Bool :=
  match x with
  | .nan => false
  | .fin q => decide (k ≤ q)
  | .inf n => !n

/-- The expression `v < k` for a value known to be a number (no coercion). -/
def JSVal.numLt (v : JSVal) (k : ℚ) : Bool :=
  match v with
  | .num q => decide (q < k)
  | .inf n => n
  | _ => false

/-- The expression `v > k` for a value known to be a number (no coercion). -/
def JSVal.numGt (v : JSVal) (k : ℚ) : Bool :=
  match v with
  | .num q => decide (k < q)
  | .inf n => !n
  | _ => false

/-- The expression `v >= k` with the coercion of `v` to a number. -/
def JSVal.ge (env : JSEnv) (v : JSVal) (k : ℚ) : Except JSError Bool :=
  match v.toNumber env with
  | .ok x => .ok (x.ge k)
  | .error e => .error e

/-! ## Request body of `POST /api/metrics` -/

/-- The fields the metrics route destructures from `req.body`, and the text that
`JSON.stringify(req.body)` yields for the whole body. -/
structure Payload where
  json : String
  server_ip : JSVal
  cpu_usage : JSVal
  memory_usage : JSVal
  memory_total : JSVal
  memory_used : JSVal
  disk_usage : JSVal
  disk_total : JSVal
  disk_used : JSVal
  load_average : JSVal
  uptime : JSVal
  network_rx : JSVal
  network_tx : JSVal
  processes_total : JSVal
  processes_running : JSVal
  error_message : JSVal
  deriving DecidableEq, Repr

/-- Body with every field missing, as for `{}`. -/
def Payload.empty : Payload :=
  { json := "\x7b\x7d",
    server_ip := .undefined, cpu_usage := .undefined, memory_usage := .undefined,
    memory_total := .undefined, memory_used := .undefined, disk_usage := .undefined,
    disk_total := .undefined, disk_used := .undefined, load_average := .undefined,
    uptime := .undefined, network_rx := .undefined, network_tx := .undefined,
    processes_total := .undefined, processes_running := .undefined,
    error_message := .undefined }

def msgIpRequired : String := "IP do servidor é obrigatório"
def msgCpuRange : String := "Uso de CPU deve ser um número entre 0 e 100"
def msgMemoryRange : String := "Uso de memória deve ser um número entre 0 e 100"
def msgDiskRange : String := "Uso de disco deve ser um número entre 0 e 100"

/-- The condition `typeof v !== 'number' || v < 0 || v > 100`. -/
def usageRejected (v : JSVal) : Bool :=
  !v.isNumber || v.numLt 0 || v.numGt 100

/-- Function `validateMetrics` of metrics.js: four independent checks, each pushing one message. -/
def validateMetrics (data : Payload) : List String := Id.run do
  let mut errors : List String := []
  if !data.server_ip.truthy then
    errors := errors ++ [msgIpRequired]
  if usageRejected data.cpu_usage then
    errors := errors ++ [msgCpuRange]
  if usageRejected data.memory_usage then
    errors := errors ++ [msgMemoryRange]
  if usageRejected data.disk_usage then
    errors := errors ++ [msgDiskRange]
  return errors

/-! ## `Number.prototype.toFixed` -/

/-- Decimal text of the integer `n` with `f` fraction digits (steps 10.b to 10.d of
`Number.prototype.toFixed`): zero-padded to at least `f + 1` digits, with a point before
the last `f` digits. -/
def fixedDigits (n f : Nat) : String :=
  let m := (Nat.repr n).data
  if f = 0 then String.mk m
  else
    let m := if m.length ≤ f then List.replicate (f + 1 - m.length) '0' ++ m else m
    let k := m.length
    String.mk (m.take (k - f) ++ '.' :: m.drop (k - f))

/-- The call `x.toFixed(f)` for a finite number: the integer `n` with `n / 10^f` closest to `x`
(the larger one on a tie), printed with `f` fraction digits; at or above `10^21` the
result is the default number text. -/
def toFixedFinite (env : JSEnv) (q : ℚ) (f : Nat) : String :=
  let s := if q < 0 then "-" else ""
  let x := if q < 0 then -q else q
  if (10 : ℚ) ^ 21 ≤ x then s ++ env.numberToString x
  else s ++ fixedDigits (Int.toNat ⌊x * (10 : ℚ) ^ f + 1 / 2⌋) f

/-- The method call `v.toFixed(f)`: only a number has the method. -/
def JSVal.toFixed (env : JSEnv) (v : JSVal) (f : Nat) : Except JSError String :=
  match v with
  | .num q => .ok (toFixedFinite env q f)
  | .inf n => .ok (if n then "-Infinity" else "Infinity")
  | _ => .error .typeError

/-! ## Threshold classification (metrics.js, lines 82 to 96) -/

/-- The `errors` array after the four threshold checks. -/
def thresholdErrors (env : JSEnv) (p : Payload) : Except JSError (List String) := do
  let mut errors : List String := []
  if (← p.cpu_usage.ge env 95) then
    errors := errors ++ ["CPU crítica: " ++ (← p.cpu_usage.toFixed env 1) ++ "%"]
  if (← p.memory_usage.ge env 95) then
    errors := errors ++ ["Memória crítica: " ++ (← p.memory_usage.toFixed env 1) ++ "%"]
  if (← p.disk_usage.ge env 95) then
    errors := errors ++ ["Disco crítico: " ++ (← p.disk_usage.toFixed env 1) ++ "%"]
  if p.load_average.truthy then
    if (← p.load_average.ge env 8) then
      errors := errors ++ ["Load alto: " ++ (← p.load_average.toFixed env 2)]
  return errors

/-- The value of `autoErrorMessage` for a given `errors` array. -/
def autoErrorMessage (errors : List String) : JSVal :=
  if errors.length > 0 then .str (" | ".intercalate errors) else .null

/-- The pair `(finalErrorMessage, isError)`. -/
def finalError (p : Payload) (auto : JSVal) : JSVal × Bool :=
  let finalErrorMessage := p.error_message.or auto
  (finalErrorMessage, finalErrorMessage.truthy)

/-! ## The store -/

/-- Row of table `servers`. -/
structure ServerRow where
  id : Nat
  ip_address : String
  hostname : String
  status : JSVal
  description : JSVal
  deriving DecidableEq, Repr

/-- Row of table `health_metrics`. -/
structure HealthMetricRow where
  id : Nat
  server_id : Nat
  timestamp : Int
  cpu_usage : JSVal
  memory_usage : JSVal
  memory_total : JSVal
  memory_used : JSVal
  disk_usage : JSVal
  disk_total : JSVal
  disk_used : JSVal
  load_average : JSVal
  uptime : JSVal
  network_rx : JSVal
  network_tx : JSVal
  processes_total : JSVal
  processes_running : JSVal
  is_error : Bool
  error_message : JSVal
  raw_data : String
  deriving DecidableEq, Repr

/-- Row of relation `current_metrics`, with the columns the dashboard reads. -/
structure CurrentMetricsRow where
  server_id : Nat
  timestamp : Int
  cpu_usage : JSVal
  memory_usage : JSVal
  disk_usage : JSVal
  load_average : JSVal
  uptime : JSVal
  deriving DecidableEq, Repr

/-- Row of table `storage_health`. -/
structure StorageHealthRow where
  id : Nat
  server_id : Nat
  timestamp : Int
  total_alerts : JSVal
  critical_alerts : JSVal
  warning_alerts : JSVal
  critical_disk_mount : JSVal
  critical_disk_usage : JSVal
  disks_over_threshold : JSVal
  top_folders : JSVal
  raid_status : Bool
  smart_status : Bool
  filesystem_status : Bool
  network_status : Bool
  iowait_percent : JSVal
  summary : JSVal
  full_report : JSVal
  deriving DecidableEq, Repr

/-- Row of relation `current_storage_health`, with the columns the dashboard reads. -/
structure CurrentStorageRow where
  server_id : Nat
  timestamp : Int
  total_alerts : JSVal
  critical_alerts : JSVal
  warning_alerts : JSVal
  critical_disk_mount : JSVal
  critical_disk_usage : JSVal
  disks_over_threshold : JSVal
  top_folders : JSVal
  raid_status : Bool
  smart_status : Bool
  filesystem_status : Bool
  summary : JSVal
  deriving DecidableEq, Repr

/-- State of the database. The two `next` counters are the sequences behind the `id`
columns that the routes read back with `RETURNING id`; `defaultStatus` and
`defaultDescription` are the column defaults of `servers`. -/
structure Store where
  servers : List ServerRow
  health_metrics : List HealthMetricRow
  current_metrics : List CurrentMetricsRow
  storage_health : List StorageHealthRow
  current_storage_health : List CurrentStorageRow
  nextServerId : Nat
  nextMetricId : Nat
  nextStorageId : Nat
  defaultStatus : JSVal
  defaultDescription : JSVal
  deriving DecidableEq, Repr

/-- The statement `INSERT INTO servers (ip_address, hostname) VALUES ($1, $2)`. -/
def Store.insertServer (db : Store) (ip hostname : String) : Store :=
  { db with
    servers := db.servers ++
      [{ id := db.nextServerId, ip_address := ip, hostname := hostname,
         status := db.defaultStatus, description := db.defaultDescription }]
    nextServerId := db.nextServerId + 1 }

/-- Modelled from the spec: the schema that keeps `current_metrics` is not part of the
sources; the relation holds one row per server, overwritten with the values of every
stored sample of that server. -/
def Store.refreshCurrentMetrics (db : Store) (row : HealthMetricRow) : Store :=
  { db with
    current_metrics := db.current_metrics.filter (fun c => c.server_id != row.server_id) ++
      [{ server_id := row.server_id, timestamp := row.timestamp, cpu_usage := row.cpu_usage,
         memory_usage := row.memory_usage, disk_usage := row.disk_usage,
         load_average := row.load_average, uptime := row.uptime }] }

/-- The statement `INSERT INTO health_metrics (...) VALUES (...)` followed by the refresh of
the snapshot relation. -/
def Store.insertHealthMetric (db : Store) (row : HealthMetricRow) : Store :=
  Store.refreshCurrentMetrics
    { db with health_metrics := db.health_metrics ++ [row], nextMetricId := db.nextMetricId + 1 }
    row

/-- Modelled from the spec: the schema that keeps `current_storage_health` is not part of
the sources; the relation holds one row per server, overwritten with the values of every
stored report of that server. -/
def Store.refreshCurrentStorage (db : Store) (row : StorageHealthRow) : Store :=
  { db with
    current_storage_health :=
      db.current_storage_health.filter (fun c => c.server_id != row.server_id) ++
      [{ server_id := row.server_id, timestamp := row.timestamp,
         total_alerts := row.total_alerts, critical_alerts := row.critical_alerts,
         warning_alerts := row.warning_alerts, critical_disk_mount := row.critical_disk_mount,
         critical_disk_usage := row.critical_disk_usage,
         disks_over_threshold := row.disks_over_threshold, top_folders := row.top_folders,
         raid_status := row.raid_status, smart_status := row.smart_status,
         filesystem_status := row.filesystem_status, summary := row.summary }] }

/-- The statement `INSERT INTO storage_health (...) VALUES (...)` followed by the refresh of
the snapshot relation. -/
def Store.insertStorageHealth (db : Store) (row : StorageHealthRow) : Store :=
  Store.refreshCurrentStorage
    { db with storage_health := db.storage_health ++ [row], nextStorageId := db.nextStorageId + 1 }
    row

/-! ## Responses -/

/-- What a route sends back: the status code and the fields of the JSON body. -/
inductive Response where
  | invalid (error : String) (details : List String)
  | created (message : String) (id : Nat) (timestamp : Int) (server_id : Nat)
  | failure (error : String) (message : String)
  deriving DecidableEq, Repr

/-- HTTP status of a response. -/
def Response.status : Response → Nat
  | .invalid _ _ => 400
  | .created _ _ _ _ => 201
  | .failure _ _ => 500

/-! ## Registry resolution (the same code in metrics.js and storage.js) -/

/-- The call `s.split(sep)` on the characters of a string. -/
def splitChars (sep : Char) : List Char → List (List Char)
  | [] => [[]]
  | c :: cs =>
    if c = sep then [] :: splitChars sep cs
    else
      match splitChars sep cs with
      | [] => [[c]]
      | seg :: segs => (c :: seg) :: segs

/-- The expression `server_ip.split('.').slice(-1)[0]` for a string. -/
def lastSegment (s : String) : String :=
  String.mk ((splitChars '.' s.data).getLastD [])

/-- The template literal that names a new server; `split` exists on strings only. -/
def defaultHostname (server_ip : JSVal) : Except JSError String :=
  match server_ip with
  | .str s => .ok ("server-" ++ lastSegment s)
  | _ => .error .typeError

/-- Text of a value bound as a query parameter. -/
def pgText (env : JSEnv) : JSVal → String
  | .str s => s
  | v => env.pgPrepare v

/-- Look the server up by address and create it when no row matches. Returns the server
id, the store after the queries, and the number of queries issued. -/
def resolveServer (env : JSEnv) (fails : Nat → Bool) (db : Store) (server_ip : JSVal) :
    Except JSError Nat × Store × Nat :=
  if fails 0 then (.error .queryError, db, 1)
  else
    match db.servers.filter (fun s => s.ip_address == pgText env server_ip) with
    | [] =>
      match defaultHostname server_ip with
      | .error e => (.error e, db, 1)
      | .ok hostname =>
        if fails 1 then (.error .queryError, db, 2)
        else (.ok db.nextServerId, db.insertServer (pgText env server_ip) hostname, 2)
    | row :: _ => (.ok row.id, db, 1)

/-! ## `POST /api/metrics` -/

def internalError (message : String) : Response :=
  .failure "Erro interno do servidor" message

/-- The row bound to the `INSERT INTO health_metrics` statement. -/
def metricRow (body : Payload) (id serverId : Nat) (now : Int)
    (finalErrorMessage : JSVal) (isError : Bool) : HealthMetricRow :=
  { id := id, server_id := serverId, timestamp := now,
    cpu_usage := body.cpu_usage,
    memory_usage := body.memory_usage,
    memory_total := body.memory_total.or .null,
    memory_used := body.memory_used.or .null,
    disk_usage := body.disk_usage,
    disk_total := body.disk_total.or .null,
    disk_used := body.disk_used.or .null,
    load_average := body.load_average.or .null,
    uptime := body.uptime.or .null,
    network_rx := body.network_rx.or .null,
    network_tx := body.network_tx.or .null,
    processes_total := body.processes_total.or .null,
    processes_running := body.processes_running.or .null,
    is_error := isError,
    error_message := finalErrorMessage,
    raw_data := body.json }

def msgInvalid : String := "Dados inválidos"
def msgMetricsSaved : String := "Métricas recebidas com sucesso"
def msgMetricsFailed : String := "Não foi possível salvar as métricas"

/-- The `try` block of the handler of `POST /api/metrics` with its `catch`, entered once
the pool has given a client: validation, registry resolution, threshold classification,
insert. Every exception raised after validation is answered with 500; what was written
before it stays written. -/
def postMetrics (env : JSEnv) (fails : Nat → Bool) (now : Int) (db : Store) (body : Payload) :
    Response × Store :=
  let validationErrors := validateMetrics body
  if validationErrors.length > 0 then (.invalid msgInvalid validationErrors, db)
  else
    match resolveServer env fails db body.server_ip with
    | (.error _, db1, _) => (internalError msgMetricsFailed, db1)
    | (.ok serverId, db1, k) =>
      match thresholdErrors env body with
      | .error _ => (internalError msgMetricsFailed, db1)
      | .ok errors =>
        let final := finalError body (autoErrorMessage errors)
        if fails k then (internalError msgMetricsFailed, db1)
        else
          let row := metricRow body db1.nextMetricId serverId now final.1 final.2
          (.created msgMetricsSaved row.id row.timestamp serverId, db1.insertHealthMetric row)

/-! ## `POST /api/storage` -/

/-- The fields the storage route destructures from `req.body`. -/
structure StoragePayload where
  server_ip : JSVal
  total_alerts : JSVal
  critical_alerts : JSVal
  warning_alerts : JSVal
  critical_disk_mount : JSVal
  critical_disk_usage : JSVal
  disks_over_threshold : JSVal
  top_folders : JSVal
  raid_status : JSVal
  smart_status : JSVal
  filesystem_status : JSVal
  network_status : JSVal
  iowait_percent : JSVal
  summary : JSVal
  full_report : JSVal
  deriving DecidableEq, Repr

/-- Storage body with every field missing, as for an empty object. -/
def StoragePayload.empty : StoragePayload :=
  { server_ip := .undefined, total_alerts := .undefined, critical_alerts := .undefined,
    warning_alerts := .undefined, critical_disk_mount := .undefined,
    critical_disk_usage := .undefined, disks_over_threshold := .undefined,
    top_folders := .undefined, raid_status := .undefined, smart_status := .undefined,
    filesystem_status := .undefined, network_status := .undefined,
    iowait_percent := .undefined, summary := .undefined, full_report := .undefined }

/-- The expression `v ? JSON.stringify(v) : null`. -/
def stringifyOrNull (env : JSEnv) (v : JSVal) : JSVal :=
  if v.truthy then .str (env.jsonStringify v) else .null

/-- The expression `v !== false`. -/
def JSVal.notFalse (v : JSVal) : Bool := decide (v ≠ .bool false)

/-- The row bound to the `INSERT INTO storage_health` statement. -/
def storageRow (env : JSEnv) (body : StoragePayload) (id serverId : Nat) (now : Int) :
    StorageHealthRow :=
  { id := id, server_id := serverId, timestamp := now,
    total_alerts := body.total_alerts.or (.num 0),
    critical_alerts := body.critical_alerts.or (.num 0),
    warning_alerts := body.warning_alerts.or (.num 0),
    critical_disk_mount := body.critical_disk_mount.or .null,
    critical_disk_usage := body.critical_disk_usage.or .null,
    disks_over_threshold := stringifyOrNull env body.disks_over_threshold,
    top_folders := stringifyOrNull env body.top_folders,
    raid_status := body.raid_status.notFalse,
    smart_status := body.smart_status.notFalse,
    filesystem_status := body.filesystem_status.notFalse,
    network_status := body.network_status.notFalse,
    iowait_percent := body.iowait_percent.or .null,
    summary := body.summary.or .null,
    full_report := stringifyOrNull env body.full_report }

def msgStorageSaved : String := "Dados de storage recebidos com sucesso"
def msgStorageFailed : String := "Não foi possível salvar os dados de storage"

/-- The `try` block of the handler of `POST /api/storage` with its `catch`, entered once
the pool has given a client. -/
def postStorage (env : JSEnv) (fails : Nat → Bool) (now : Int) (db : Store)
    (body : StoragePayload) : Response × Store :=
  if !body.server_ip.truthy then (.invalid msgInvalid [msgIpRequired], db)
  else
    match resolveServer env fails db body.server_ip with
    | (.error _, db1, _) => (internalError msgStorageFailed, db1)
    | (.ok serverId, db1, k) =>
      if fails k then (internalError msgStorageFailed, db1)
      else
        let row := storageRow env body db1.nextStorageId serverId now
        (.created msgStorageSaved row.id row.timestamp serverId, db1.insertStorageHealth row)

/-! ## The ingestion routes with their connection -/

/-- How a route handler ends: it sends a response, or an exception leaves it because no
`catch` of the handler stands around the statement that raised it. What the caller
receives in the second case is decided outside the handler. -/
inductive Outcome where
  | answered (r : Response)
  | escaped
  deriving DecidableEq, Repr

/-- The route `router.post('/')` of metrics.js. The statement `await pool.connect()` stands
before the `try`: when the pool gives no client (`connects = false`) the exception leaves
the handler, which has issued no query and sends no response. -/
def metricsRoute (env : JSEnv) (connects : Bool) (fails : Nat → Bool) (now : Int)
    (db : Store) (body : Payload) : Outcome × Store :=
  if connects then
    (.answered (postMetrics env fails now db body).1, (postMetrics env fails now db body).2)
  else (.escaped, db)

/-- The route `router.post('/')` of storage.js, with `await pool.connect()` before its
`try` as in metrics.js. -/
def storageRoute (env : JSEnv) (connects : Bool) (fails : Nat → Bool) (now : Int)
    (db : Store) (body : StoragePayload) : Outcome × Store :=
  if connects then
    (.answered (postStorage env fails now db body).1, (postStorage env fails now db body).2)
  else (.escaped, db)

/-! ## `GET /api/dashboard`: fleet list and recent errors -/

/-- The interval `25 hours` in milliseconds (`25 * 60 * 60 * 1000`). -/
def staleMs : Int := 25 * 60 * 60 * 1000

/-- The clause `a LEFT JOIN b ON cond`. -/
def leftJoin {α β : Type} (l : List α) (r : List β) (cond : α → β → Bool) :
    List (α × Option β) :=
  l.flatMap fun a =>
    match r.filter (cond a) with
    | [] => [(a, none)]
    | bs => bs.map fun b => (a, some b)

/-- The clause `a JOIN b ON cond`. -/
def innerJoin {α β : Type} (l : List α) (r : List β) (cond : α → β → Bool) : List (α × β) :=
  l.flatMap fun a => (r.filter (cond a)).map fun b => (a, b)

/-- Row of `serversQuery`. -/
structure ServersQueryRow where
  id : Nat
  ip_address : String
  hostname : String
  status : JSVal
  description : JSVal
  last_update : Option Int
  cpu_usage : JSVal
  memory_usage : JSVal
  disk_usage : JSVal
  load_average : JSVal
  uptime : JSVal
  is_error : Bool
  error_message : JSVal
  deriving DecidableEq, Repr

/-- The select list of `serversQuery` on one joined row. -/
def serversSelect : ServerRow × Option CurrentMetricsRow → ServersQueryRow
  | (s, none) =>
    { id := s.id, ip_address := s.ip_address, hostname := s.hostname, status := s.status,
      description := s.description, last_update := none, cpu_usage := .null,
      memory_usage := .null, disk_usage := .null, load_average := .null, uptime := .null,
      is_error := true, error_message := .str "Sem dados recentes" }
  | (s, some cm) =>
    { id := s.id, ip_address := s.ip_address, hostname := s.hostname, status := s.status,
      description := s.description, last_update := some cm.timestamp,
      cpu_usage := cm.cpu_usage, memory_usage := cm.memory_usage,
      disk_usage := cm.disk_usage, load_average := cm.load_average, uptime := cm.uptime,
      is_error := false, error_message := .null }

/-- The query `serversQuery`: servers left-joined with `current_metrics`, by address. -/
def serversQuery (env : JSEnv) (db : Store) : List ServersQueryRow :=
  ((leftJoin db.servers db.current_metrics fun s cm => s.id == cm.server_id).map
      serversSelect).insertionSort
    fun a b => env.addressLe a.ip_address b.ip_address = true

/-- Row of `errorsQuery`. -/
structure ErrorsQueryRow where
  id : Nat
  timestamp : Int
  error_message : JSVal
  cpu_usage : JSVal
  memory_usage : JSVal
  disk_usage : JSVal
  ip_address : String
  hostname : String
  deriving DecidableEq, Repr

/-- The select list of `errorsQuery` on one joined row. -/
def errorsSelect (r : HealthMetricRow × ServerRow) : ErrorsQueryRow :=
  { id := r.1.id, timestamp := r.1.timestamp, error_message := r.1.error_message,
    cpu_usage := r.1.cpu_usage, memory_usage := r.1.memory_usage,
    disk_usage := r.1.disk_usage, ip_address := r.2.ip_address, hostname := r.2.hostname }

/-- The condition `hm.is_error = true AND hm.timestamp > NOW() - INTERVAL '25 hours'`. -/
def recentError (dbNow : Int) (hm : HealthMetricRow) : Bool :=
  hm.is_error && decide (hm.timestamp > dbNow - staleMs)

/-- The query `errorsQuery` up to its `ORDER BY`: error samples of the last 25 hours joined
with their server, newest first. -/
def errorsSorted (dbNow : Int) (db : Store) : List ErrorsQueryRow :=
  (((innerJoin db.health_metrics db.servers fun hm s => hm.server_id == s.id).filter
      fun r => recentError dbNow r.1).map errorsSelect).insertionSort
    fun a b => a.timestamp ≥ b.timestamp

/-- The query `errorsQuery`: the first 50 rows (`LIMIT 50`). -/
def errorsQuery (dbNow : Int) (db : Store) : List ErrorsQueryRow :=
  (errorsSorted dbNow db).take 50

/-- The integer nearest to a rational, a tie going to the even one (the tie rule of IEEE 754
arithmetic). -/
def roundHalfEven (x : ℚ) : ℤ :=
  let f := ⌊x⌋
  if x - f < 1 / 2 then f
  else if 1 / 2 < x - f then f + 1
  else if f % 2 = 0 then f else f + 1

/-- The double nearest to a rational: 53 significant bits, round to nearest, ties to even.
Magnitudes outside the normal range of doubles (overflow, subnormals) are not modelled. -/
def roundDouble (q : ℚ) : ℚ :=
  if q = 0 then 0
  else roundHalfEven (q / (2 : ℚ) ^ (Int.log 2 |q| - 52)) * (2 : ℚ) ^ (Int.log 2 |q| - 52)

/-- The operation `x / k` for a positive constant `k`: the quotient, rounded to a double. -/
def JSNum.divConst (x : JSNum) (k : ℚ) : JSNum :=
  match x with
  | .nan => .nan
  | .fin q => .fin (roundDouble (q / k))
  | .inf n => .inf n

/-- The operation `x % k` for a positive constant `k`: the remainder has the sign of `x`; it
is exact (the remainder of two doubles is a double). -/
def JSNum.remConst (x : JSNum) (k : ℚ) : JSNum :=
  match x with
  | .nan => .nan
  | .fin q => .fin (if 0 ≤ q then q - k * ⌊q / k⌋ else q - k * ⌈q / k⌉)
  | .inf _ => .nan

/-- The call `Math.floor(x)`. -/
def JSNum.floor : JSNum → JSNum
  | .nan => .nan
  | .fin q => .fin ⌊q⌋
  | .inf n => .inf n

/-- The text of a number inside a template literal: the decimal digits of an integer below
`2^53` in absolute value (every such integer is a double and prints as itself), the
default number text otherwise. -/
def JSNum.toText (env : JSEnv) : JSNum → String
  | .nan => "NaN"
  | .inf n => if n then "-Infinity" else "Infinity"
  | .fin q =>
    if q.den = 1 ∧ q.num.natAbs < 2 ^ 53 then
      (if q.num < 0 then "-" else "") ++ Nat.repr q.num.natAbs
    else env.numberToString q

/-- Function `formatUptime` of dashboard.js. The argument is coerced to a number by the arithmetic
operators. -/
def formatUptime (env : JSEnv) (seconds : JSVal) : Except JSError String := do
  let n ← seconds.toNumber env
  let days := (n.divConst 86400).floor
  let hours := ((n.remConst 86400).divConst 3600).floor
  let minutes := ((n.remConst 3600).divConst 60).floor
  if days.gt 0 then
    return days.toText env ++ "d " ++ hours.toText env ++ "h " ++ minutes.toText env ++ "m"
  else if hours.gt 0 then
    return hours.toText env ++ "h " ++ minutes.toText env ++ "m"
  else
    return minutes.toText env ++ "m"

/-- The expression
`server.last_update && new Date(server.last_update) > new Date(Date.now() - 25 * 60 * 60 * 1000)`:
the left operand itself when it is `null`, the comparison otherwise (a `Date` is truthy). -/
def isOnline (appNow : Int) (last_update : Option Int) : JSVal :=
  match last_update with
  | none => .null
  | some t => .bool (decide (t > appNow - 25 * 60 * 60 * 1000))

/-- Element of `data.servers` in the dashboard response. -/
structure FleetRow extends ServersQueryRow where
  is_online : JSVal
  uptime_formatted : JSVal
  deriving DecidableEq, Repr

/-- The callback of `servers.rows.map` in the dashboard response. -/
def fleetRow (env : JSEnv) (appNow : Int) (server : ServersQueryRow) :
    Except JSError FleetRow :=
  let is_online := isOnline appNow server.last_update
  if server.uptime.truthy then
    match formatUptime env server.uptime with
    | .ok text =>
      .ok { toServersQueryRow := server, is_online := is_online, uptime_formatted := .str text }
    | .error e => .error e
  else
    .ok { toServersQueryRow := server, is_online := is_online, uptime_formatted := .null }

/-- The call `rows.map(f)` for a callback that may raise. -/
def mapRows {α β : Type} (f : α → Except JSError β) : List α → Except JSError (List β)
  | [] => .ok []
  | a :: rest =>
    match f a with
    | .error e => .error e
    | .ok b =>
      match mapRows f rest with
      | .error e => .error e
      | .ok bs => .ok (b :: bs)

/-- The list `data.servers` of the dashboard response, read at application time `appNow`. -/
def fleetServers (env : JSEnv) (appNow : Int) (db : Store) : Except JSError (List FleetRow) :=
  mapRows (fleetRow env appNow) (serversQuery env db)

/-! ## Words of the specification about validation -/

/-- A field counts as given (present and non-empty): it is none of the absent or empty
values (`undefined`, `null`, `""`) nor one of the two other falsy JSON values (`false`,
`0`). -/
def Given (v : JSVal) : Prop :=
  v ≠ .undefined ∧ v ≠ .null ∧ v ≠ .str "" ∧ v ≠ .bool false ∧ v ≠ .num 0

/-- A usage field is a number within the closed interval from 0 to 100. -/
def UsageInRange (v : JSVal) : Prop :=
  ∃ q : ℚ, v = .num q ∧ 0 ≤ q ∧ q ≤ 100

instance (v : JSVal) : Decidable (Given v) := by
  unfold Given; infer_instance

instance (v : JSVal) : Decidable (UsageInRange v) :=
  match v with
  | .num q =>
    if h : 0 ≤ q ∧ q ≤ 100 then isTrue ⟨q, rfl, h.1, h.2⟩
    else isFalse (by
      rintro ⟨r, hr, h0, h1⟩
      cases hr
      exact h ⟨h0, h1⟩)
  | .undefined => isFalse (by rintro ⟨_, h, _⟩; cases h)
  | .null => isFalse (by rintro ⟨_, h, _⟩; cases h)
  | .bool _ => isFalse (by rintro ⟨_, h, _⟩; cases h)
  | .inf _ => isFalse (by rintro ⟨_, h, _⟩; cases h)
  | .str _ => isFalse (by rintro ⟨_, h, _⟩; cases h)
  | .obj _ => isFalse (by rintro ⟨_, h, _⟩; cases h)

/-- The checked fields with their message, in the order of the checks: the address is
violated when it is not given, a usage when it is not a number within 0 and 100. -/
def fieldViolations (p : Payload) : List (Bool × String) :=
  [(decide (¬ Given p.server_ip), msgIpRequired),
   (decide (¬ UsageInRange p.cpu_usage), msgCpuRange),
   (decide (¬ UsageInRange p.memory_usage), msgMemoryRange),
   (decide (¬ UsageInRange p.disk_usage), msgDiskRange)]

/-! ## An environment for examples -/

/-- Value of a string of decimal digits, `none` for any other string. -/
def decimalValue : List Char → Option Nat
  | [] => none
  | cs => cs.foldl (fun acc c =>
      match acc with
      | some n => if c.isDigit then some (10 * n + (c.toNat - 48)) else none
      | none => none) (some 0)

/-- An environment on which the examples are evaluated. It agrees with JavaScript on the
conversion of a string of decimal digits to a number and on the primitive of a plain
object; the examples reach no other built-in. -/
def exampleEnv : JSEnv :=
  { stringToNumber := fun s =>
      match decimalValue s.data with
      | some n => .fin n
      | none => .nan
    objectToPrimitive := fun _ => some "[object Object]"
    numberToString := fun q => toString q.num
    jsonStringify := fun _ => "null"
    pgPrepare := fun _ => ""
    addressLe := fun a b => decide (a.data ≤ b.data)
    columnInt := fun v =>
      match v with
      | .num q => q.num / q.den
      | .str t => ((decimalValue t.data).getD 0 : Nat)
      | _ => 0 }

/-- The store before any request. -/
def Store.empty : Store :=
  { servers := [], health_metrics := [], current_metrics := [], storage_health := [],
    current_storage_health := [], nextServerId := 1, nextMetricId := 1, nextStorageId := 1,
    defaultStatus := .str "active", defaultDescription := .null }

/-- A body with the three usages in range, for the address `192.168.1.10`. -/
def sampleBody (cpu memory disk : ℚ) : Payload :=
  { Payload.empty with
    server_ip := .str "192.168.1.10", cpu_usage := .num cpu, memory_usage := .num memory,
    disk_usage := .num disk }

/-! ## Words of the specification about classification -/

/-- A usage is at or above the critical threshold of 95. -/
def UsageCritical (v : JSVal) : Prop :=
  ∃ q : ℚ, v = .num q ∧ 95 ≤ q

/-- A load average was supplied and is at least 8, as the route tests it
(`load_average && load_average >= 8`). -/
def LoadHigh (env : JSEnv) (v : JSVal) : Prop :=
  Given v ∧ v.ge env 8 = .ok true

/-- The fault string of a usage: its label, the value with one fraction digit, a percent
sign. -/
def usageFaultText (env : JSEnv) (label : String) (q : ℚ) : String :=
  label ++ toFixedFinite env q 1 ++ "%"

/-- A body that passes validation and carries its load average as the text `"9"`. -/
def textLoadBody : Payload :=
  { sampleBody 97 50 40 with load_average := .str "9" }

/-- The three usage checks of the classifier, each in isolation. -/
def usageFault (env : JSEnv) (label : String) (q : ℚ) : List String :=
  if 95 ≤ q then [usageFaultText env label q] else []

/-- The load check of the classifier in isolation. -/
def loadFault (env : JSEnv) (v : JSVal) : Except JSError (List String) :=
  if v.truthy then
    match v.ge env 8 with
    | .ok true => (v.toFixed env 2).map fun t => ["Load alto: " ++ t]
    | .ok false => .ok []
    | .error e => .error e
  else .ok []

/-! ## Words of the specification about the read model -/

/-- The server row a fleet row was built from. -/
def FleetRow.server (r : FleetRow) : ServerRow :=
  { id := r.id, ip_address := r.ip_address, hostname := r.hostname, status := r.status,
    description := r.description }

/-- The relation `current_metrics` holds at most one row per server. -/
def SnapshotPerServer (db : Store) : Prop :=
  ∀ s ∈ db.servers, (db.current_metrics.filter fun cm => s.id == cm.server_id).length ≤ 1

/-- Every sample references a registered server (the foreign key of `health_metrics`). -/
def SamplesReferenceServers (db : Store) : Prop :=
  ∀ hm ∈ db.health_metrics, ∃ s ∈ db.servers, s.id = hm.server_id

/-- A sample qualifies as a recent error at store time `dbNow`: it is flagged as an error
and its timestamp lies within the last 25 hours. -/
def QualifiesAsRecentError (dbNow : Int) (hm : HealthMetricRow) : Prop :=
  hm.is_error = true ∧ dbNow - hm.timestamp < 25 * 3600 * 1000

/-- A store with two servers: `10.0.0.1` with a snapshot taken at time 1000 and one error
sample, `10.0.0.2` without any snapshot. -/
def twoServerStore : Store :=
  { Store.empty with
    servers :=
      [{ id := 1, ip_address := "10.0.0.1", hostname := "server-1", status := .str "active",
         description := .null },
       { id := 2, ip_address := "10.0.0.2", hostname := "server-2", status := .str "active",
         description := .null }]
    health_metrics :=
      [{ id := 1, server_id := 1, timestamp := 1000, cpu_usage := .num 97,
         memory_usage := .num 50, disk_usage := .num 40, memory_total := .null,
         memory_used := .null, disk_total := .null, disk_used := .null,
         load_average := .null, uptime := .null, network_rx := .null, network_tx := .null,
         processes_total := .null, processes_running := .null, is_error := true,
         error_message := .str "CPU crítica: 97.0%", raw_data := "" }]
    current_metrics :=
      [{ server_id := 1, timestamp := 1000, cpu_usage := .num 97, memory_usage := .num 50,
         disk_usage := .num 40, load_average := .null, uptime := .null }]
    nextServerId := 3
    nextMetricId := 2 }

/-- The server columns of a row of `serversQuery`. -/
def ServersQueryRow.server (r : ServersQueryRow) : ServerRow :=
  { id := r.id, ip_address := r.ip_address, hostname := r.hostname, status := r.status,
    description := r.description }

/-! ## `GET /api/dashboard`: statistics, storage alerts and the response -/

/-- The condition `t > NOW() - INTERVAL '25 hours'` on a timestamp of a left-joined
relation; it is not true on the NULL of a row without match. -/
def freshAt (dbNow : Int) (t : Option Int) : Bool :=
  match t with
  | none => false
  | some ts => decide (ts > dbNow - staleMs)

/-- The `FROM` clause of `statsQuery`: servers left-joined with both snapshot relations. -/
def statsJoin (db : Store) :
    List ((ServerRow × Option CurrentMetricsRow) × Option CurrentStorageRow) :=
  leftJoin (leftJoin db.servers db.current_metrics fun s cm => s.id == cm.server_id)
    db.current_storage_health fun p csh => p.1.id == csh.server_id

/-- The expression `CASE WHEN (cm.timestamp > ... OR csh.timestamp > ...) THEN s.id END`:
`none` stands for NULL, which `COUNT` skips. -/
def onlineCase (dbNow : Int)
    (r : (ServerRow × Option CurrentMetricsRow) × Option CurrentStorageRow) : Option Nat :=
  if freshAt dbNow (r.1.2.map fun cm => cm.timestamp)
      || freshAt dbNow (r.2.map fun csh => csh.timestamp) then some r.1.1.id
  else none

/-- Row of `statsQuery`. A count is carried as the natural number it is; the form in which
the route receives and sends it is `StatsRow.delivered`. -/
structure StatsRow where
  total_servers : Nat
  servers_online : Nat
  errors_last_hour : Nat
  deriving DecidableEq, Repr

/-- The member `stats` of the response body: three JSON values. -/
structure StatsJson where
  total_servers : JSVal
  servers_online : JSVal
  errors_last_hour : JSVal
  deriving DecidableEq, Repr

/-- The row of `statsQuery` as the `pg` driver hands it to the route, which passes it on
unchanged: `COUNT` is a `bigint`, and the driver delivers a `bigint` as its decimal text. -/
def StatsRow.delivered (r : StatsRow) : StatsJson :=
  { total_servers := .str (Nat.repr r.total_servers)
    servers_online := .str (Nat.repr r.servers_online)
    errors_last_hour := .str (Nat.repr r.errors_last_hour) }

/-- The query `statsQuery`: an aggregate without `GROUP BY`, hence one row. -/
def statsQuery (dbNow : Int) (db : Store) : List StatsRow :=
  [{ total_servers := ((statsJoin db).map fun r => r.1.1.id).dedup.length
     servers_online := ((statsJoin db).filterMap (onlineCase dbNow)).dedup.length
     errors_last_hour := (db.health_metrics.filter (recentError dbNow)).length }]

/-- Row of `storageQuery`. -/
structure StorageQueryRow where
  id : Nat
  ip_address : String
  hostname : String
  total_alerts : JSVal
  critical_alerts : JSVal
  warning_alerts : JSVal
  critical_disk_mount : JSVal
  critical_disk_usage : JSVal
  disks_over_threshold : JSVal
  top_folders : JSVal
  raid_status : Bool
  smart_status : Bool
  filesystem_status : Bool
  summary : JSVal
  timestamp : Int
  deriving DecidableEq, Repr

/-- The select list of `storageQuery` on a joined row that passes
`WHERE csh.timestamp IS NOT NULL`; a row without match does not pass. -/
def storageSelect : ServerRow × Option CurrentStorageRow → Option StorageQueryRow
  | (_, none) => none
  | (s, some csh) =>
    some { id := s.id, ip_address := s.ip_address, hostname := s.hostname,
           total_alerts := csh.total_alerts, critical_alerts := csh.critical_alerts,
           warning_alerts := csh.warning_alerts,
           critical_disk_mount := csh.critical_disk_mount,
           critical_disk_usage := csh.critical_disk_usage,
           disks_over_threshold := csh.disks_over_threshold, top_folders := csh.top_folders,
           raid_status := csh.raid_status, smart_status := csh.smart_status,
           filesystem_status := csh.filesystem_status, summary := csh.summary,
           timestamp := csh.timestamp }

/-- The clause `ORDER BY csh.critical_alerts DESC, csh.total_alerts DESC, s.ip_address`:
row `a` may stand before row `b`. -/
def storageOrder (env : JSEnv) (a b : StorageQueryRow) : Prop :=
  env.columnInt a.critical_alerts > env.columnInt b.critical_alerts ∨
    (env.columnInt a.critical_alerts = env.columnInt b.critical_alerts ∧
      (env.columnInt a.total_alerts > env.columnInt b.total_alerts ∨
        (env.columnInt a.total_alerts = env.columnInt b.total_alerts ∧
          env.addressLe a.ip_address b.ip_address = true)))

instance (env : JSEnv) : DecidableRel (storageOrder env) := fun a b => by
  unfold storageOrder
  infer_instance

/-- The query `storageQuery`. -/
def storageQuery (env : JSEnv) (db : Store) : List StorageQueryRow :=
  ((leftJoin db.servers db.current_storage_health fun s csh => s.id == csh.server_id).filterMap
    storageSelect).insertionSort (storageOrder env)

/-- The object `data` of the dashboard response. -/
structure DashboardData where
  servers : List FleetRow
  recent_errors : List ErrorsQueryRow
  storage_alerts : List StorageQueryRow
  stats : StatsRow
  deriving DecidableEq, Repr

/-- The member `stats` of a 200 answer, `stats.rows[0]` as delivered. The query is an
aggregate without `GROUP BY` and returns one row, so the object after `||` in
`stats.rows[0] || { total_servers: 0, ... }` is never used. -/
def DashboardData.statsMember (data : DashboardData) : StatsJson :=
  data.stats.delivered

/-- What `GET /api/dashboard` sends back: 200 with `data`, or 500. -/
inductive DashboardResponse where
  | ok (data : DashboardData)
  | failure (error : String) (message : String)
  deriving DecidableEq, Repr

def msgDashboardFailed : String := "Não foi possível carregar os dados do dashboard"

/-- The handler of `GET /api/dashboard`: four queries in a row, then the response. The
fleet list is read at application time `appNow`, the queries at store time `dbNow`. -/
def getDashboard (env : JSEnv) (fails : Nat → Bool) (appNow dbNow : Int) (db : Store) :
    DashboardResponse :=
  if fails 0 then .failure "Erro interno do servidor" msgDashboardFailed
  else
    let servers := serversQuery env db
    if fails 1 then .failure "Erro interno do servidor" msgDashboardFailed
    else
      let errors := errorsQuery dbNow db
      if fails 2 then .failure "Erro interno do servidor" msgDashboardFailed
      else
        let stats := statsQuery dbNow db
        if fails 3 then .failure "Erro interno do servidor" msgDashboardFailed
        else
          let storage := storageQuery env db
          match mapRows (fleetRow env appNow) servers with
          | .error _ => .failure "Erro interno do servidor" msgDashboardFailed
          | .ok rows =>
            .ok { servers := rows, recent_errors := errors, storage_alerts := storage,
                  stats := stats.head?.getD
                    { total_servers := 0, servers_online := 0, errors_last_hour := 0 } }

/-! ## `GET /api/dashboard/history/:serverId` -/

/-- Row of the history query. -/
structure HistoryRow where
  timestamp : Int
  cpu_usage : JSVal
  memory_usage : JSVal
  disk_usage : JSVal
  load_average : JSVal
  network_rx : JSVal
  network_tx : JSVal
  is_error : Bool
  error_message : JSVal
  deriving DecidableEq, Repr

/-- The select list of the history query. -/
def historySelect (hm : HealthMetricRow) : HistoryRow :=
  { timestamp := hm.timestamp, cpu_usage := hm.cpu_usage, memory_usage := hm.memory_usage,
    disk_usage := hm.disk_usage, load_average := hm.load_average,
    network_rx := hm.network_rx, network_tx := hm.network_tx, is_error := hm.is_error,
    error_message := hm.error_message }

/-- What `GET /api/dashboard/history/:serverId` sends back: 200 with the rows, or 500. -/
inductive HistoryResponse where
  | ok (data : List HistoryRow)
  | failure (error : String) (message : String)
  deriving DecidableEq, Repr

/-- What the store answers to a statement the model does not interpret: `none` when it
rejects the statement. -/
structure SqlEngine where
  runHistory : String → String → Int → Store → Option (List HistoryRow)

/-- The text of a value inside a template literal (ToString). -/
def JSVal.toTemplateText (env : JSEnv) : JSVal → Except JSError String
  | .undefined => .ok "undefined"
  | .null => .ok "null"
  | .bool b => .ok (if b then "true" else "false")
  | .num q => .ok ((JSNum.fin q).toText env)
  | .inf n => .ok ((JSNum.inf n).toText env)
  | .str s => .ok s
  | .obj j =>
    match env.objectToPrimitive j with
    | some s => .ok s
    | none => .error .typeError

/-- The statement text of the history query (line breaks left out): `hours` is spliced into
it as it is. -/
def historySql (hours : String) : String :=
  "SELECT timestamp, cpu_usage, memory_usage, disk_usage, load_average, network_rx, " ++
  "network_tx, is_error, error_message FROM health_metrics WHERE server_id = $1 " ++
  "AND timestamp > NOW() - INTERVAL \x27" ++ hours ++ " hours\x27 ORDER BY timestamp ASC"

/-- The history query when the spliced text is a plain number of hours: the samples of the
server with a timestamp after `NOW()` minus that many hours, oldest first. -/
def historyRows (serverId : Int) (dbNow : Int) (hours : Nat) (db : Store) : List HistoryRow :=
  ((db.health_metrics.filter fun hm =>
      decide ((hm.server_id : Int) = serverId) &&
        decide (hm.timestamp > dbNow - (hours : Int) * 3600000)).map
    historySelect).insertionSort fun a b => a.timestamp ≤ b.timestamp

def msgHistoryFailed : String := "Não foi possível buscar o histórico"

/-- The handler of `GET /api/dashboard/history/:serverId`. `hours` is `req.query.hours`
(`undefined` when the caller gives none, then 24). When the spliced text is a string of
decimal digits the statement is the intended one; any other text makes a statement whose
meaning is left to the engine. -/
def getHistory (env : JSEnv) (engine : SqlEngine) (fails : Nat → Bool) (dbNow : Int)
    (db : Store) (serverId : String) (hours : JSVal) : HistoryResponse :=
  let hours := if hours = .undefined then .num 24 else hours
  match hours.toTemplateText env with
  | .error _ => .failure "Erro interno do servidor" msgHistoryFailed
  | .ok text =>
    if fails 0 then .failure "Erro interno do servidor" msgHistoryFailed
    else
      match decimalValue text.data with
      | some n => .ok (historyRows (env.columnInt (.str serverId)) dbNow n db)
      | none =>
        match engine.runHistory (historySql text) serverId dbNow db with
        | some rows => .ok rows
        | none => .failure "Erro interno do servidor" msgHistoryFailed

/-! ## Words of the specification about statistics -/

/-- No two rows of `servers` share an id (the primary key). -/
def ServerIdsUnique (db : Store) : Prop :=
  (db.servers.map fun s => s.id).Nodup

/-- The server has a metrics snapshot or a storage snapshot with a timestamp within the
last 25 hours of store time `dbNow`. -/
def FreshSnapshot (dbNow : Int) (db : Store) (s : ServerRow) : Prop :=
  (∃ cm ∈ db.current_metrics, cm.server_id = s.id ∧ dbNow - cm.timestamp < 25 * 3600 * 1000) ∨
  (∃ csh ∈ db.current_storage_health, csh.server_id = s.id ∧
    dbNow - csh.timestamp < 25 * 3600 * 1000)

instance (dbNow : Int) (db : Store) (s : ServerRow) : Decidable (FreshSnapshot dbNow db s) := by
  unfold FreshSnapshot
  infer_instance

/-- The store holds no row in any of its five relations. -/
def Store.isEmpty (db : Store) : Prop :=
  db.servers = [] ∧ db.health_metrics = [] ∧ db.current_metrics = [] ∧
    db.storage_health = [] ∧ db.current_storage_health = []

/-! ## Words of the specification about storage alerts -/

/-- The order on addresses is a total preorder, as a collation is. -/
def AddressOrderTotal (env : JSEnv) : Prop :=
  (∀ a b, env.addressLe a b = true ∨ env.addressLe b a = true) ∧
    ∀ a b c, env.addressLe a b = true → env.addressLe b c = true → env.addressLe a c = true

/-- The relation `current_storage_health` holds at most one row per server. -/
def StorageSnapshotPerServer (db : Store) : Prop :=
  ∀ s ∈ db.servers,
    (db.current_storage_health.filter fun csh => s.id == csh.server_id).length ≤ 1

/-- The pair (critical alerts, total alerts) of row `a` is lexicographically at least that
of row `b`. -/
def AlertsNotBelow (env : JSEnv) (a b : StorageQueryRow) : Prop :=
  env.columnInt a.critical_alerts > env.columnInt b.critical_alerts ∨
    (env.columnInt a.critical_alerts = env.columnInt b.critical_alerts ∧
      env.columnInt a.total_alerts ≥ env.columnInt b.total_alerts)

/-- The store with two servers after one storage report each: no alert for `10.0.0.1`, two
alerts, one of them critical, for `10.0.0.2`. -/
def twoReportStore : Store :=
  { twoServerStore with
    current_storage_health :=
      [{ server_id := 1, timestamp := 1500, total_alerts := .num 0, critical_alerts := .num 0,
         warning_alerts := .num 0, critical_disk_mount := .null, critical_disk_usage := .null,
         disks_over_threshold := .null, top_folders := .null, raid_status := true,
         smart_status := true, filesystem_status := true, summary := .null },
       { server_id := 2, timestamp := 1600, total_alerts := .num 2, critical_alerts := .num 1,
         warning_alerts := .num 1, critical_disk_mount := .str "/data",
         critical_disk_usage := .num 97, disks_over_threshold := .null, top_folders := .null,
         raid_status := true, smart_status := true, filesystem_status := true,
         summary := .null }] }

/-! ## Words of the specification about the history -/

/-- The sample belongs to the server and its timestamp lies within the last `hours` hours
of store time `dbNow`. -/
def InHistoryWindow (serverId dbNow : Int) (hours : Nat) (hm : HealthMetricRow) : Prop :=
  (hm.server_id : Int) = serverId ∧ dbNow - hm.timestamp < (hours : Int) * 3600 * 1000

instance (serverId dbNow : Int) (hours : Nat) (hm : HealthMetricRow) :
    Decidable (InHistoryWindow serverId dbNow hours hm) := by
  unfold InHistoryWindow
  infer_instance

/-- The look-back window the caller asks for: 24 hours when `hours` is missing, the number
a string of decimal digits denotes. -/
def RequestedHours (hours : JSVal) (n : Nat) : Prop :=
  (hours = .undefined ∧ n = 24) ∨ ∃ s, hours = .str s ∧ decimalValue s.data = some n

/-- An engine that rejects every statement the model does not interpret. -/
def rejectingEngine : SqlEngine :=
  { runHistory := fun _ _ _ _ => none }

/-- A body that passes validation and reports a load average and network rates of 0. -/
def zeroFieldBody : Payload :=
  { sampleBody 50 50 40 with
    load_average := .num 0, network_rx := .num 0, network_tx := .num 0 }

/-- A body that passes validation and carries its address as the number 5. -/
def numericAddressBody : Payload :=
  { sampleBody 50 50 40 with server_ip := .num 5 }

/-- The snapshot row that mirrors a sample. -/
def snapshotOf (row : HealthMetricRow) : CurrentMetricsRow :=
  { server_id := row.server_id, timestamp := row.timestamp, cpu_usage := row.cpu_usage,
    memory_usage := row.memory_usage, disk_usage := row.disk_usage,
    load_average := row.load_average, uptime := row.uptime }

/-- The row `INSERT INTO servers` creates for an address and a display name. -/
def newServerRow (db : Store) (ip hostname : String) : ServerRow :=
  { id := db.nextServerId, ip_address := ip, hostname := hostname,
    status := db.defaultStatus, description := db.defaultDescription }

/-- A storage body that carries only an address. -/
def storageBodyFor (ip : String) : StoragePayload :=
  { StoragePayload.empty with server_ip := .str ip }

/-- A field is absent: missing from the body or null. -/
def Absent (v : JSVal) : Prop := v = .undefined ∨ v = .null

/-- A storage body for `10.0.0.9` that reports no count and sets `raid_status` to false. -/
def raidFailedBody : StoragePayload :=
  { StoragePayload.empty with server_ip := .str "10.0.0.9", raid_status := .bool false }

/-! ## Words of the specification about the uptime text -/

/-- The text `Dd Hh Mm` of a number of seconds, leading zero units left out. -/
def uptimeText (s : Nat) : String :=
  let days := s / 86400
  let hours := s % 86400 / 3600
  let minutes := s % 3600 / 60
  if 0 < days then Nat.repr days ++ "d " ++ Nat.repr hours ++ "h " ++ Nat.repr minutes ++ "m"
  else if 0 < hours then Nat.repr hours ++ "h " ++ Nat.repr minutes ++ "m"
  else Nat.repr minutes ++ "m"

/-! ## Words of the specification about failures and invariants -/

/-- No sample, report or snapshot row differs between the two stores. -/
def SamplesUntouched (db db2 : Store) : Prop :=
  db2.health_metrics = db.health_metrics ∧ db2.current_metrics = db.current_metrics ∧
    db2.storage_health = db.storage_health ∧
    db2.current_storage_health = db.current_storage_health

/-- The table `servers` is as before, or holds one more row: the server created for an
address no row carried. -/
def AtMostServerAdded (db db2 : Store) : Prop :=
  db2.servers = db.servers ∨
    ∃ s, (∀ row ∈ db.servers, row.ip_address ≠ s) ∧
      db2.servers = db.servers ++ [newServerRow db s ("server-" ++ lastSegment s)]

/-- The failure pattern in which only the third query of a request is rejected. -/
def thirdQueryFails (k : Nat) : Bool := decide (k = 2)

/-- One ingestion request: the handler, the failure pattern of its queries, the store time
and the body. -/
inductive IngestCall where
  | metrics (fails : Nat → Bool) (now : Int) (body : Payload)
  | storage (fails : Nat → Bool) (now : Int) (body : StoragePayload)

/-- The address a request carries. -/
def IngestCall.address : IngestCall → JSVal
  | .metrics _ _ body => body.server_ip
  | .storage _ _ body => body.server_ip

/-- The answer to one request and the store after it. -/
def IngestCall.run (env : JSEnv) (db : Store) : IngestCall → Response × Store
  | .metrics fails now body => postMetrics env fails now db body
  | .storage fails now body => postStorage env fails now db body

/-- The store after a sequence of requests handled one after the other. -/
def runCalls (env : JSEnv) (db : Store) (calls : List IngestCall) : Store :=
  calls.foldl (fun d c => (c.run env d).2) db

/-- Every id in `servers` was handed out by the sequence of the `id` column. -/
def IdsFromSequence (db : Store) : Prop :=
  ∀ s ∈ db.servers, s.id < db.nextServerId

/-- Every sample and every storage report references exactly one row of `servers`. -/
def ReferencesOneServer (db : Store) : Prop :=
  (∀ hm ∈ db.health_metrics,
    (db.servers.filter fun s => s.id == hm.server_id).length = 1) ∧
  (∀ r ∈ db.storage_health,
    (db.servers.filter fun s => s.id == r.server_id).length = 1)

/-- No two rows of `servers` share an address. -/
def AddressesUnique (db : Store) : Prop :=
  (db.servers.map fun s => s.ip_address).Nodup

/-- The id a 201 answer returns for the server. -/
def Response.serverId : Response → Option Nat
  | .created _ _ _ server_id => some server_id
  | _ => none

/-- The invariant ingestion keeps: ids are unique and come from the sequence, and every
sample and every storage report references a row of `servers`. -/
def IngestInvariant (db : Store) : Prop :=
  ServerIdsUnique db ∧ IdsFromSequence db ∧
    (∀ hm ∈ db.health_metrics, ∃ s ∈ db.servers, s.id = hm.server_id) ∧
    (∀ r ∈ db.storage_health, ∃ s ∈ db.servers, s.id = r.server_id)

/-- Two requests for the address `10.0.0.7`, a sample and a storage report. -/
def twoCallsSameAddress : List IngestCall :=
  [.metrics (fun _ => false) 1000
      { sampleBody 50 50 40 with server_ip := .str "10.0.0.7" },
   .storage (fun _ => false) 2000 (storageBodyFor "10.0.0.7")]

/-- A value of `hours` that is no number: it closes the interval literal and adds a
condition of its own. -/
def injectedHours : String := "1 hour\x27 OR server_id > 0 --"

/-- What the handler of the history answers once the engine has answered. -/
def historyAnswer : Option (List HistoryRow) → HistoryResponse
  | some rows => .ok rows
  | none => .failure "Erro interno do servidor" msgHistoryFailed

/-- The rows of the fleet list over which the dashboard page averages CPU, memory and
disk (`servers.filter(s => s.is_online)` in the front end). -/
def performanceServers (servers : List FleetRow) : List FleetRow :=
  servers.filter fun s => s.is_online.truthy

/-- The three units of `formatUptime` (its locals `days`, `hours`, `minutes`) for a number of
seconds. -/
def uptimeUnits (n : JSNum) : JSNum × JSNum × JSNum :=
  ((n.divConst 86400).floor, ((n.remConst 86400).divConst 3600).floor,
    ((n.remConst 3600).divConst 60).floor)

/-- The text `formatUptime` builds from its three units. -/
def uptimeRender (env : JSEnv) (u : JSNum × JSNum × JSNum) : String :=
  if u.1.gt 0 then
    u.1.toText env ++ "d " ++ u.2.1.toText env ++ "h " ++ u.2.2.toText env ++ "m"
  else if u.2.1.gt 0 then u.2.1.toText env ++ "h " ++ u.2.2.toText env ++ "m"
  else u.2.2.toText env ++ "m"

/-! ## `GET /api/dashboard/servers` -/

/-- Row of the list of servers: the columns of `servers` (`s.*`) and three aggregates. A
count is carried as the natural number it denotes. -/
structure ServerListRow extends ServerRow where
  total_metrics : Nat
  total_errors : Nat
  last_metric : Option Int
  deriving DecidableEq, Repr

/-- The clause `GROUP BY key`: one group of joined rows per distinct key. -/
def groupByKey {α : Type} (key : α → Nat) (l : List α) : List (List α) :=
  (l.map key).dedup.map fun k => l.filter fun a => key a == k

/-- The aggregate `MAX` over the values of a group that are not NULL: NULL for none. -/
def maxOf : List Int → Option Int
  | [] => none
  | t :: ts => some (ts.foldl max t)

/-- The select list of the list of servers on one group: `s.*`, `COUNT(hm.id)`,
`COUNT(CASE WHEN hm.is_error = true THEN 1 END)` and `MAX(hm.timestamp)`. The aggregates
skip the NULLs of the row of a server without sample. -/
def serverListSelect : List (ServerRow × Option HealthMetricRow) → Option ServerListRow
  | [] => none
  | (s, o) :: rest =>
    let samples := ((s, o) :: rest).filterMap fun p => p.2
    some { toServerRow := s
           total_metrics := samples.length
           total_errors := (samples.filter fun hm => hm.is_error).length
           last_metric := maxOf (samples.map fun hm => hm.timestamp) }

/-- The query of `GET /api/dashboard/servers`: servers left-joined with their samples,
grouped by server id, by address. -/
def serverListQuery (env : JSEnv) (db : Store) : List ServerListRow :=
  ((groupByKey (fun p => p.1.id)
      (leftJoin db.servers db.health_metrics fun s hm => s.id == hm.server_id)).filterMap
    serverListSelect).insertionSort
    fun a b => env.addressLe a.ip_address b.ip_address = true

/-- What `GET /api/dashboard/servers` sends back: 200 with `data`, or 500. -/
inductive ServerListResponse where
  | ok (data : List ServerListRow)
  | failure (error : String) (message : String)
  deriving DecidableEq, Repr

def msgServersFailed : String := "Não foi possível buscar a lista de servidores"

/-- The handler of `GET /api/dashboard/servers`. -/
def getServers (env : JSEnv) (fails : Nat → Bool) (db : Store) : ServerListResponse :=
  if fails 0 then .failure "Erro interno do servidor" msgServersFailed
  else .ok (serverListQuery env db)

/-- The samples of a server. -/
def samplesOf (db : Store) (serverId : Nat) : List HealthMetricRow :=
  db.health_metrics.filter fun hm => decide (hm.server_id = serverId)

/-- A server with its aggregates over its samples. -/
def withCounts (db : Store) (s : ServerRow) : ServerListRow :=
  { toServerRow := s
    total_metrics := (samplesOf db s.id).length
    total_errors := ((samplesOf db s.id).filter fun hm => hm.is_error).length
    last_metric := maxOf ((samplesOf db s.id).map fun hm => hm.timestamp) }

/-! ## Two requests to `POST /api/metrics` in flight -/

/-- Where a request to `POST /api/metrics` stands: before one of its three awaited
queries (the lookup of the server, the insert of the server, the insert of the sample), or
answered. -/
inductive MetricsRun where
  | lookup (body : Payload)
  | create (body : Payload) (hostname : String)
  | store (body : Payload) (serverId : Nat) (final : JSVal × Bool)
  | answered (r : Response)
  deriving DecidableEq, Repr

/-- The code of the handler before its first query: validation. -/
def MetricsRun.start (body : Payload) : MetricsRun :=
  let validationErrors := validateMetrics body
  if validationErrors.length > 0 then .answered (.invalid msgInvalid validationErrors)
  else .lookup body

/-- The code of the handler between registry resolution and the insert of the sample. -/
def MetricsRun.classify (env : JSEnv) (body : Payload) (serverId : Nat) : MetricsRun :=
  match thresholdErrors env body with
  | .error _ => .answered (internalError msgMetricsFailed)
  | .ok errors => .store body serverId (finalError body (autoErrorMessage errors))

/-- One query of a request with the code that follows it up to the next `await`;
`rejected` tells whether the store rejects the query. -/
def MetricsRun.step (env : JSEnv) (now : Int) (rejected : Bool) (db : Store) :
    MetricsRun → MetricsRun × Store
  | .lookup body =>
    if rejected then (.answered (internalError msgMetricsFailed), db)
    else
      match db.servers.filter (fun s => s.ip_address == pgText env body.server_ip) with
      | [] =>
        match defaultHostname body.server_ip with
        | .error _ => (.answered (internalError msgMetricsFailed), db)
        | .ok hostname => (.create body hostname, db)
      | row :: _ => (MetricsRun.classify env body row.id, db)
  | .create body hostname =>
    if rejected then (.answered (internalError msgMetricsFailed), db)
    else
      (MetricsRun.classify env body db.nextServerId,
        db.insertServer (pgText env body.server_ip) hostname)
  | .store body serverId final =>
    if rejected then (.answered (internalError msgMetricsFailed), db)
    else
      let row := metricRow body db.nextMetricId serverId now final.1 final.2
      (.answered (.created msgMetricsSaved row.id row.timestamp serverId),
        db.insertHealthMetric row)
  | .answered r => (.answered r, db)

/-- A request handled with no other request in between: its queries one after the other,
the `k`-th of them rejected when `fails k`. -/
def MetricsRun.alone (env : JSEnv) (now : Int) (fails : Nat → Bool) :
    Nat → Nat → MetricsRun → Store → MetricsRun × Store
  | 0, _, run, db => (run, db)
  | _ + 1, _, .answered r, db => (.answered r, db)
  | n + 1, k, run, db =>
    MetricsRun.alone env now fails n (k + 1) (run.step env now (fails k) db).1
      (run.step env now (fails k) db).2

/-- The answer of a request, once it is answered. -/
def MetricsRun.response : MetricsRun → Option Response
  | .answered r => some r
  | _ => none

/-- A store that rejects no statement. -/
def noConstraint : Store → MetricsRun → Bool :=
  fun _ _ => false

/-- Modelled from the spec: the schema of `servers` is not part of the sources; under a
uniqueness constraint on `ip_address` the store rejects the insert of an address that a
row already carries. -/
def uniqueAddress (env : JSEnv) : Store → MetricsRun → Bool
  | db, .create body _ => db.servers.any fun s => s.ip_address == pgText env body.server_ip
  | _, _ => false

/-- Two requests in flight over one store. -/
structure InFlight where
  db : Store
  first : MetricsRun
  second : MetricsRun
  deriving DecidableEq, Repr

/-- The event loop resumes one of the two requests (`true` for the second) for one query. -/
def InFlight.step (env : JSEnv) (now : Int) (rejects : Store → MetricsRun → Bool)
    (st : InFlight) (second : Bool) : InFlight :=
  if second then
    { st with
      db := (st.second.step env now (rejects st.db st.second) st.db).2
      second := (st.second.step env now (rejects st.db st.second) st.db).1 }
  else
    { st with
      db := (st.first.step env now (rejects st.db st.first) st.db).2
      first := (st.first.step env now (rejects st.db st.first) st.db).1 }

/-- The two requests after the event loop resumed them in the order of `schedule`. -/
def runInFlight (env : JSEnv) (now : Int) (rejects : Store → MetricsRun → Bool)
    (schedule : List Bool) (st : InFlight) : InFlight :=
  schedule.foldl (InFlight.step env now rejects) st

/-- Both requests look the server up before either inserts it. -/
def bothLookupsFirst : List Bool := [false, true, false, true, false, true]

/-- A valid sample from the address `10.0.0.7`. -/
def newAddressBody : Payload :=
  { sampleBody 50 50 40 with server_ip := .str "10.0.0.7" }

/-- Two requests with the body `newAddressBody` arriving at an empty store. -/
def twoFirstWrites : InFlight :=
  { db := Store.empty, first := MetricsRun.start newAddressBody,
    second := MetricsRun.start newAddressBody }

/-- A store with three servers, registered in the order `10.0.0.2`, `10.0.0.1`, `10.0.0.3`,
after one storage report each: one critical alert everywhere, five alerts in total for
`10.0.0.3` and two for each of the others. -/
def tiedReportStore : Store :=
  { Store.empty with
    servers :=
      [{ id := 1, ip_address := "10.0.0.2", hostname := "server-2", status := .str "active",
         description := .null },
       { id := 2, ip_address := "10.0.0.1", hostname := "server-1", status := .str "active",
         description := .null },
       { id := 3, ip_address := "10.0.0.3", hostname := "server-3", status := .str "active",
         description := .null }]
    current_storage_health :=
      [{ server_id := 1, timestamp := 1500, total_alerts := .num 2, critical_alerts := .num 1,
         warning_alerts := .num 1, critical_disk_mount := .null, critical_disk_usage := .null,
         disks_over_threshold := .null, top_folders := .null, raid_status := true,
         smart_status := true, filesystem_status := true, summary := .null },
       { server_id := 2, timestamp := 1600, total_alerts := .num 2, critical_alerts := .num 1,
         warning_alerts := .num 1, critical_disk_mount := .null, critical_disk_usage := .null,
         disks_over_threshold := .null, top_folders := .null, raid_status := true,
         smart_status := true, filesystem_status := true, summary := .null },
       { server_id := 3, timestamp := 1700, total_alerts := .num 5, critical_alerts := .num 1,
         warning_alerts := .num 4, critical_disk_mount := .null, critical_disk_usage := .null,
         disks_over_threshold := .null, top_folders := .null, raid_status := true,
         smart_status := true, filesystem_status := true, summary := .null }]
    nextServerId := 4 }

/-! # Theorems -/

/-! ## Basic facts -/

theorem truthy_iff_given (v : JSVal) : v.truthy = true ↔ Given v := by
  cases v <;> simp [JSVal.truthy, Given]

theorem usageRejected_iff (v : JSVal) : usageRejected v = false ↔ UsageInRange v := by
  cases v <;> simp [usageRejected, JSVal.isNumber, JSVal.numLt, JSVal.numGt, UsageInRange]

theorem validateMetrics_eq (p : Payload) :
    validateMetrics p =
      (if p.server_ip.truthy then [] else [msgIpRequired]) ++
      (if usageRejected p.cpu_usage then [msgCpuRange] else []) ++
      (if usageRejected p.memory_usage then [msgMemoryRange] else []) ++
      (if usageRejected p.disk_usage then [msgDiskRange] else []) := by
  unfold validateMetrics
  cases p.server_ip.truthy <;> cases usageRejected p.cpu_usage <;>
    cases usageRejected p.memory_usage <;> cases usageRejected p.disk_usage <;> rfl

theorem validateMetrics_nil_iff (p : Payload) :
    validateMetrics p = [] ↔
      p.server_ip.truthy = true ∧ usageRejected p.cpu_usage = false ∧
        usageRejected p.memory_usage = false ∧ usageRejected p.disk_usage = false := by
  rw [validateMetrics_eq]
  cases p.server_ip.truthy <;> cases usageRejected p.cpu_usage <;>
    cases usageRejected p.memory_usage <;> cases usageRejected p.disk_usage <;> simp

/-! ## Validation (C1 to C3) -/

/-- C1: `validateMetrics` returns the empty list exactly when the address is given (present
and non-empty) and each of CPU, memory and disk usage is a number between 0 and 100, both
bounds included. -/
theorem validateMetrics_empty_iff (p : Payload) :
    validateMetrics p = [] ↔
      Given p.server_ip ∧ UsageInRange p.cpu_usage ∧
        UsageInRange p.memory_usage ∧ UsageInRange p.disk_usage := by
  rw [validateMetrics_nil_iff, truthy_iff_given, usageRejected_iff, usageRejected_iff,
    usageRejected_iff]

/-- C2: `validateMetrics` reports every violated field: its result is the list of the
messages of the violated fields among address, CPU, memory and disk, one per field and in
that order, so its length is the number of violated fields and at most 4. -/
theorem validateMetrics_reports_all (p : Payload) :
    validateMetrics p = ((fieldViolations p).filter (fun v => v.1)).map (fun v => v.2) ∧
      (validateMetrics p).length = (fieldViolations p).countP (fun v => v.1) ∧
      (validateMetrics p).length ≤ 4 := by
  have key : validateMetrics p =
      ((fieldViolations p).filter (fun v => v.1)).map (fun v => v.2) := by
    rw [validateMetrics_eq]
    have h1 := truthy_iff_given p.server_ip
    have h2 := usageRejected_iff p.cpu_usage
    have h3 := usageRejected_iff p.memory_usage
    have h4 := usageRejected_iff p.disk_usage
    unfold fieldViolations
    by_cases a1 : Given p.server_ip <;> by_cases a2 : UsageInRange p.cpu_usage <;>
      by_cases a3 : UsageInRange p.memory_usage <;> by_cases a4 : UsageInRange p.disk_usage <;>
      simp_all [List.filter]
  refine ⟨key, ?_, ?_⟩
  · rw [key, List.length_map, List.countP_eq_length_filter]
  · rw [key, List.length_map]
    exact le_trans (List.length_filter_le _ _) (by simp [fieldViolations])

/-- C3: a body that fails validation is answered with status 400 and the list of its
violations, and the store is left as it was: for `POST /api/metrics` whenever
`validateMetrics` finds a violation, for `POST /api/storage` whenever the address is
missing or empty. -/
theorem invalid_body_rejected_store_unchanged (env : JSEnv) (fails : Nat → Bool)
    (now : Int) (db : Store) (body : Payload) (sbody : StoragePayload)
    (hm : validateMetrics body ≠ []) (hs : ¬ Given sbody.server_ip) :
    postMetrics env fails now db body = (.invalid msgInvalid (validateMetrics body), db) ∧
      (postMetrics env fails now db body).1.status = 400 ∧
      postStorage env fails now db sbody = (.invalid msgInvalid [msgIpRequired], db) ∧
      (postStorage env fails now db sbody).1.status = 400 := by
  have hlen : (validateMetrics body).length > 0 := List.length_pos.mpr hm
  have h1 : postMetrics env fails now db body =
      (.invalid msgInvalid (validateMetrics body), db) := by
    unfold postMetrics
    simp only [hlen, if_true]
  have ht : sbody.server_ip.truthy = false := by
    cases hb : sbody.server_ip.truthy
    · rfl
    · exact absurd ((truthy_iff_given _).mp hb) hs
  have h2 : postStorage env fails now db sbody = (.invalid msgInvalid [msgIpRequired], db) := by
    unfold postStorage
    simp [ht]
  rw [h1, h2]
  exact ⟨rfl, rfl, rfl, rfl⟩

/-- C3 at a body with CPU = 150 and at a storage body without address. -/
theorem invalid_body_rejected_witness :
    validateMetrics (sampleBody 150 50 40) = [msgCpuRange] ∧
      postMetrics exampleEnv (fun _ => false) 0 Store.empty (sampleBody 150 50 40) =
        (.invalid msgInvalid [msgCpuRange], Store.empty) ∧
      postStorage exampleEnv (fun _ => false) 0 Store.empty StoragePayload.empty =
        (.invalid msgInvalid [msgIpRequired], Store.empty) := by
  have hv : validateMetrics (sampleBody 150 50 40) = [msgCpuRange] := by decide
  have h := invalid_body_rejected_store_unchanged exampleEnv (fun _ => false) 0 Store.empty
    (sampleBody 150 50 40) StoragePayload.empty (by rw [hv]; simp) (by decide)
  exact ⟨hv, hv ▸ h.1, h.2.2.1⟩

/-! ## Threshold classification (C4, C5) -/

theorem JSVal.ge_num (env : JSEnv) (q k : ℚ) :
    (JSVal.num q).ge env k = .ok (decide (k ≤ q)) := rfl

theorem JSVal.toFixed_num (env : JSEnv) (q : ℚ) (f : Nat) :
    (JSVal.num q).toFixed env f = .ok (toFixedFinite env q f) := rfl

/-- On a body whose three usages are numbers, the classifier is the concatenation of the
three usage checks and the load check. -/
theorem thresholdErrors_num (env : JSEnv) (p : Payload) (c m d : ℚ)
    (hc : p.cpu_usage = .num c) (hm : p.memory_usage = .num m) (hd : p.disk_usage = .num d) :
    thresholdErrors env p =
      (loadFault env p.load_average).map fun l =>
        usageFault env "CPU crítica: " c ++ usageFault env "Memória crítica: " m
          ++ usageFault env "Disco crítico: " d ++ l := by
  unfold thresholdErrors loadFault usageFault usageFaultText
  rw [hc, hm, hd]
  simp only [JSVal.ge_num, JSVal.toFixed_num]
  generalize p.load_average = v
  by_cases h4 : v.truthy = true
  · cases hg : v.ge env 8 with
    | error e =>
      by_cases h1 : 95 ≤ c <;> by_cases h2 : 95 ≤ m <;> by_cases h3 : 95 ≤ d <;>
        simp [h1, h2, h3, h4, hg, bind, Except.bind, pure, Except.pure, Except.map]
    | ok b =>
      cases b <;> cases ht : v.toFixed env 2 <;>
      by_cases h1 : 95 ≤ c <;> by_cases h2 : 95 ≤ m <;> by_cases h3 : 95 ≤ d <;>
        simp [h1, h2, h3, h4, hg, ht, bind, Except.bind, pure, Except.pure, Except.map]
  · by_cases h1 : 95 ≤ c <;> by_cases h2 : 95 ≤ m <;> by_cases h3 : 95 ≤ d <;>
      simp [h1, h2, h3, h4, bind, Except.bind, pure, Except.pure, Except.map]

theorem usages_of_valid (p : Payload) (hv : validateMetrics p = []) :
    ∃ c m d : ℚ, p.cpu_usage = .num c ∧ p.memory_usage = .num m ∧ p.disk_usage = .num d := by
  obtain ⟨_, h1, h2, h3⟩ := (validateMetrics_nil_iff p).mp hv
  obtain ⟨c, hc, _⟩ := (usageRejected_iff _).mp h1
  obtain ⟨m, hm, _⟩ := (usageRejected_iff _).mp h2
  obtain ⟨d, hd, _⟩ := (usageRejected_iff _).mp h3
  exact ⟨c, m, d, hc, hm, hd⟩

/-- The load check completes exactly as the words say: a fault when a load average is
given and at least 8 (then `toFixed` must exist on it), none otherwise. -/
theorem loadFault_ok_iff (env : JSEnv) (v : JSVal) (l : List String) :
    loadFault env v = .ok l ↔
      (LoadHigh env v ∧ ∃ t, v.toFixed env 2 = .ok t ∧ l = ["Load alto: " ++ t]) ∨
      (¬ LoadHigh env v ∧ (Given v → v.ge env 8 = .ok false) ∧ l = []) := by
  unfold loadFault LoadHigh
  rw [← truthy_iff_given]
  by_cases h4 : v.truthy = true
  · cases hg : v.ge env 8 with
    | error e => simp [h4]
    | ok b =>
      cases b
      · simp [h4, eq_comm]
      · cases ht : v.toFixed env 2 <;> simp [h4, Except.map, eq_comm]
  · simp [h4, eq_comm]

/-- With a load average that is absent or a finite number, the classifier completes: the
load check yields a fault exactly when the number is at least 8. -/
theorem loadFault_numeric (env : JSEnv) (v : JSVal)
    (h : v = .undefined ∨ v = .null ∨ ∃ q : ℚ, v = .num q) :
    ∃ l, loadFault env v = .ok l ∧ (l ≠ [] ↔ ∃ q : ℚ, v = .num q ∧ 8 ≤ q) := by
  rcases h with h | h | ⟨q, h⟩
  · subst h; exact ⟨[], rfl, by simp⟩
  · subst h; exact ⟨[], rfl, by simp⟩
  · subst h
    unfold loadFault
    by_cases h0 : q = 0
    · subst h0
      refine ⟨[], by simp [JSVal.truthy], ?_⟩
      simp
    · by_cases h8 : 8 ≤ q
      · exact ⟨["Load alto: " ++ toFixedFinite env q 2],
          by simp [JSVal.truthy, h0, JSVal.ge_num, h8, JSVal.toFixed_num, Except.map],
          by simp [h8]⟩
      · exact ⟨[], by simp [JSVal.truthy, h0, JSVal.ge_num, h8], by simp [h8]⟩

/-- With usages that are numbers and a load average that is absent or a finite number,
the classifier completes and holds a CPU, memory or disk fault exactly when that usage is
at least 95, and a load fault exactly when the load average is at least 8. -/
theorem thresholdErrors_numeric_load (env : JSEnv) (p : Payload) (c m d : ℚ)
    (hc : p.cpu_usage = .num c) (hm : p.memory_usage = .num m) (hd : p.disk_usage = .num d)
    (hl : p.load_average = .undefined ∨ p.load_average = .null ∨
      ∃ q : ℚ, p.load_average = .num q) :
    ∃ l, thresholdErrors env p =
        .ok (usageFault env "CPU crítica: " c ++ usageFault env "Memória crítica: " m
          ++ usageFault env "Disco crítico: " d ++ l) ∧
      (usageFault env "CPU crítica: " c ≠ [] ↔ 95 ≤ c) ∧
      (usageFault env "Memória crítica: " m ≠ [] ↔ 95 ≤ m) ∧
      (usageFault env "Disco crítico: " d ≠ [] ↔ 95 ≤ d) ∧
      (l ≠ [] ↔ ∃ q : ℚ, p.load_average = .num q ∧ 8 ≤ q) := by
  obtain ⟨l, hlf, hiff⟩ := loadFault_numeric env p.load_average hl
  refine ⟨l, ?_, ?_, ?_, ?_, hiff⟩
  · rw [thresholdErrors_num env p c m d hc hm hd, hlf]
    rfl
  all_goals
    unfold usageFault
    split <;> simp_all

theorem floor_949 : ⌊(949 / 10 : ℚ) * 10 ^ 1 + 1 / 2⌋ = 949 := by
  rw [Int.floor_eq_iff]; norm_num

theorem floor_950 : ⌊(95 : ℚ) * 10 ^ 1 + 1 / 2⌋ = 950 := by
  rw [Int.floor_eq_iff]; norm_num

theorem floor_970 : ⌊(97 : ℚ) * 10 ^ 1 + 1 / 2⌋ = 970 := by
  rw [Int.floor_eq_iff]; norm_num

theorem toFixedFinite_95 (env : JSEnv) : toFixedFinite env 95 1 = "95.0" := by
  unfold toFixedFinite
  rw [if_neg (by norm_num), if_neg (by norm_num), if_neg (by norm_num), floor_950]
  decide

theorem toFixedFinite_97 (env : JSEnv) : toFixedFinite env 97 1 = "97.0" := by
  unfold toFixedFinite
  rw [if_neg (by norm_num), if_neg (by norm_num), if_neg (by norm_num), floor_970]
  decide

/-- The boundary of the CPU threshold: 94.9 gives no fault, 95.0 gives the fault
`CPU crítica: 95.0%`. -/
theorem usageFault_boundary (env : JSEnv) :
    usageFault env "CPU crítica: " (949 / 10) = [] ∧
      usageFault env "CPU crítica: " 95 = ["CPU crítica: 95.0%"] := by
  constructor
  · unfold usageFault
    rw [if_neg (by norm_num)]
  · unfold usageFault usageFaultText
    rw [if_pos (by norm_num), toFixedFinite_95]
    decide

/-- C4, at the body with CPU = 97 and the load average `"9"`: the body passes validation,
its CPU usage is critical and its load average is given and at least 8, yet the
classifier raises a TypeError instead of producing a fault, and the handler answers 500. -/
theorem classifier_raises_on_text_load (env : JSEnv) (fails : Nat → Bool) (now : Int)
    (db : Store) (h9 : env.stringToNumber "9" = .fin 9) :
    validateMetrics textLoadBody = [] ∧
      UsageCritical textLoadBody.cpu_usage ∧
      LoadHigh env textLoadBody.load_average ∧
      thresholdErrors env textLoadBody = .error .typeError ∧
      (postMetrics env fails now db textLoadBody).1.status = 500 := by
  have hv : validateMetrics textLoadBody = [] := by decide
  have hge : (JSVal.str "9").ge env 8 = .ok true := by
    simp [JSVal.ge, JSVal.toNumber, h9, JSNum.ge]
    norm_num
  have hthr : thresholdErrors env textLoadBody = .error .typeError := by
    rw [thresholdErrors_num env textLoadBody 97 50 40 rfl rfl rfl]
    have : loadFault env textLoadBody.load_average = .error .typeError := by
      show loadFault env (JSVal.str "9") = _
      unfold loadFault
      simp [JSVal.truthy, hge, JSVal.toFixed, Except.map]
    rw [this]
    rfl
  refine ⟨hv, ⟨97, rfl, by norm_num⟩, ⟨by decide, hge⟩, hthr, ?_⟩
  unfold postMetrics
  simp only [hv, hthr]
  rcases resolveServer env fails db textLoadBody.server_ip with ⟨r, db1, k⟩
  cases r <;> simp [internalError, Response.status]

/-- C4 on the example environment, an empty store and no failing query. -/
theorem classifier_raises_on_text_load_witness :
    exampleEnv.stringToNumber "9" = .fin 9 ∧
      thresholdErrors exampleEnv textLoadBody = .error .typeError ∧
      (postMetrics exampleEnv (fun _ => false) 0 Store.empty textLoadBody).1.status = 500 :=
  ⟨by decide,
    (classifier_raises_on_text_load exampleEnv (fun _ => false) 0 Store.empty
      (by decide)).2.2.2.1,
    (classifier_raises_on_text_load exampleEnv (fun _ => false) 0 Store.empty
      (by decide)).2.2.2.2⟩

theorem usageCritical_num (q : ℚ) : UsageCritical (.num q) ↔ 95 ≤ q := by
  unfold UsageCritical
  constructor
  · rintro ⟨r, hr, h⟩
    cases hr
    exact h
  · intro h
    exact ⟨q, rfl, h⟩

/-- On a validated body on which the classifier completes, its result is the
concatenation of the three usage checks and of the result of the load check. -/
theorem thresholdErrors_ok (env : JSEnv) (p : Payload) (errs : List String)
    (hv : validateMetrics p = []) (hok : thresholdErrors env p = .ok errs) :
    ∃ (c m d : ℚ) (load : List String),
      p.cpu_usage = .num c ∧ p.memory_usage = .num m ∧ p.disk_usage = .num d ∧
      loadFault env p.load_average = .ok load ∧
      errs = usageFault env "CPU crítica: " c ++ usageFault env "Memória crítica: " m
        ++ usageFault env "Disco crítico: " d ++ load := by
  obtain ⟨c, m, d, hc, hm, hd⟩ := usages_of_valid p hv
  rw [thresholdErrors_num env p c m d hc hm hd] at hok
  cases hl : loadFault env p.load_average with
  | error e => rw [hl] at hok; cases hok
  | ok load =>
    rw [hl] at hok
    refine ⟨c, m, d, load, hc, hm, hd, rfl, ?_⟩
    cases hok
    rfl

theorem loadFault_high (env : JSEnv) (v : JSVal) (load : List String)
    (hl : loadFault env v = .ok load) (h : LoadHigh env v) :
    ∃ t, v.toFixed env 2 = .ok t ∧ load = ["Load alto: " ++ t] := by
  rcases (loadFault_ok_iff env v load).mp hl with ⟨_, h2⟩ | ⟨h1, _⟩
  · exact h2
  · exact absurd h h1

theorem loadFault_low (env : JSEnv) (v : JSVal) (load : List String)
    (hl : loadFault env v = .ok load) (h : ¬ LoadHigh env v) : load = [] := by
  rcases (loadFault_ok_iff env v load).mp hl with ⟨h1, _⟩ | ⟨_, _, h2⟩
  · exact absurd h1 h
  · exact h2

/-- No fault string is returned exactly when no threshold fired. -/
theorem faults_nil_iff (env : JSEnv) (v : JSVal) (c m d : ℚ) (load : List String)
    (hl : loadFault env v = .ok load) :
    usageFault env "CPU crítica: " c ++ usageFault env "Memória crítica: " m
        ++ usageFault env "Disco crítico: " d ++ load = [] ↔
      c < 95 ∧ m < 95 ∧ d < 95 ∧ ¬ LoadHigh env v := by
  simp only [usageFault]
  by_cases hL : LoadHigh env v
  · obtain ⟨t, _, ht⟩ := loadFault_high env v load hl hL
    simp [hL, ht]
  · rw [loadFault_low env v load hl hL]
    by_cases h1 : 95 ≤ c <;> by_cases h2 : 95 ≤ m <;> by_cases h3 : 95 ≤ d <;>
      simp [h1, h2, h3, hL, not_le.mp, not_lt.mpr]

/-- C5: on a validated body the fault strings the classifier returns are the CPU, memory,
disk and load faults in that order, each one present exactly when its own threshold
fired, and the automatic error message is these strings joined with `" | "`, or null
when no threshold fired. -/
theorem classifier_faults_ordered_and_joined (env : JSEnv) (p : Payload) (errs : List String)
    (hv : validateMetrics p = []) (hok : thresholdErrors env p = .ok errs) :
    ∃ (c m d : ℚ) (load : List String),
      p.cpu_usage = .num c ∧ p.memory_usage = .num m ∧ p.disk_usage = .num d ∧
      errs = (if 95 ≤ c then [usageFaultText env "CPU crítica: " c] else [])
        ++ (if 95 ≤ m then [usageFaultText env "Memória crítica: " m] else [])
        ++ (if 95 ≤ d then [usageFaultText env "Disco crítico: " d] else [])
        ++ load ∧
      (LoadHigh env p.load_average →
        ∃ t, p.load_average.toFixed env 2 = .ok t ∧ load = ["Load alto: " ++ t]) ∧
      (¬ LoadHigh env p.load_average → load = []) ∧
      (errs = [] ↔ c < 95 ∧ m < 95 ∧ d < 95 ∧ ¬ LoadHigh env p.load_average) ∧
      autoErrorMessage errs = (if errs = [] then .null else .str (" | ".intercalate errs)) := by
  obtain ⟨c, m, d, load, hc, hm, hd, hl, herrs⟩ := thresholdErrors_ok env p errs hv hok
  refine ⟨c, m, d, load, hc, hm, hd, ?_, loadFault_high env _ load hl,
    loadFault_low env _ load hl, ?_, ?_⟩
  · rw [herrs]
    simp only [usageFault]
  · rw [herrs]
    exact faults_nil_iff env _ c m d load hl
  · unfold autoErrorMessage
    cases errs <;> simp

theorem thresholdErrors_sample97 (env : JSEnv) :
    thresholdErrors env (sampleBody 97 50 40) = .ok ["CPU crítica: 97.0%"] := by
  rw [thresholdErrors_num env (sampleBody 97 50 40) 97 50 40 rfl rfl rfl]
  have h1 : usageFault env "CPU crítica: " 97 = ["CPU crítica: 97.0%"] := by
    unfold usageFault usageFaultText
    rw [if_pos (by norm_num), toFixedFinite_97]
    decide
  have h2 : usageFault env "Memória crítica: " 50 = [] := by
    unfold usageFault
    rw [if_neg (by norm_num)]
  have h3 : usageFault env "Disco crítico: " 40 = [] := by
    unfold usageFault
    rw [if_neg (by norm_num)]
  rw [h1, h2, h3]
  rfl

/-- C5 at the body with CPU = 97, memory = 50, disk = 40 and no load average. -/
theorem classifier_faults_witness :
    thresholdErrors exampleEnv (sampleBody 97 50 40) = .ok ["CPU crítica: 97.0%"] ∧
      autoErrorMessage ["CPU crítica: 97.0%"] = .str "CPU crítica: 97.0%" := by
  have hok := thresholdErrors_sample97 exampleEnv
  obtain ⟨_, _, _, _, _, _, _, _, _, _, _, hauto⟩ :=
    classifier_faults_ordered_and_joined exampleEnv (sampleBody 97 50 40) _ (by decide) hok
  exact ⟨hok, by rw [hauto]; decide⟩

/-! ## Stored error flag and message (C6, C7) -/

theorem resolveServer_health_metrics (env : JSEnv) (fails : Nat → Bool) (db : Store)
    (ip : JSVal) : (resolveServer env fails db ip).2.1.health_metrics = db.health_metrics := by
  unfold resolveServer
  split
  · rfl
  · split
    · split
      · rfl
      · split <;> rfl
    · rfl

/-- What a 201 answer of `POST /api/metrics` means: validation passed, the server was
resolved, the classifier completed, and the row built from the body was inserted. -/
theorem postMetrics_created (env : JSEnv) (fails : Nat → Bool) (now : Int) (db db2 : Store)
    (body : Payload) (resp : Response)
    (h : postMetrics env fails now db body = (resp, db2)) (hs : resp.status = 201) :
    ∃ (serverId : Nat) (db1 : Store) (k : Nat) (errs : List String),
      validateMetrics body = [] ∧
      resolveServer env fails db body.server_ip = (.ok serverId, db1, k) ∧
      thresholdErrors env body = .ok errs ∧
      db2 = db1.insertHealthMetric
        (metricRow body db1.nextMetricId serverId now
          (finalError body (autoErrorMessage errs)).1
          (finalError body (autoErrorMessage errs)).2) := by
  unfold postMetrics at h
  by_cases hv : (validateMetrics body).length > 0
  · simp only [hv, if_true] at h
    cases h
    cases hs
  · simp only [hv, if_false] at h
    have hnil : validateMetrics body = [] := by
      cases hval : validateMetrics body with
      | nil => rfl
      | cons a l => rw [hval] at hv; simp at hv
    rcases hr : resolveServer env fails db body.server_ip with ⟨r, db1, k⟩
    rw [hr] at h
    cases r with
    | error e =>
      simp only at h
      cases h
      cases hs
    | ok serverId =>
      simp only at h
      cases ht : thresholdErrors env body with
      | error e =>
        rw [ht] at h
        simp only at h
        cases h
        cases hs
      | ok errs =>
        rw [ht] at h
        simp only at h
        by_cases hf : fails k = true
        · simp only [hf, if_true] at h
          cases h
          cases hs
        · simp only [hf] at h
          cases h
          exact ⟨serverId, db1, k, errs, hnil, rfl, rfl, rfl⟩

theorem insertHealthMetric_health_metrics (db : Store) (row : HealthMetricRow) :
    (db.insertHealthMetric row).health_metrics = db.health_metrics ++ [row] := rfl

/-- An accepted sample appends exactly one row to `health_metrics`. -/
theorem postMetrics_created_row (env : JSEnv) (fails : Nat → Bool) (now : Int)
    (db db2 : Store) (body : Payload) (resp : Response)
    (h : postMetrics env fails now db body = (resp, db2)) (hs : resp.status = 201) :
    ∃ (row : HealthMetricRow) (errs : List String),
      validateMetrics body = [] ∧ thresholdErrors env body = .ok errs ∧
      db2.health_metrics = db.health_metrics ++ [row] ∧
      row.error_message = body.error_message.or (autoErrorMessage errs) ∧
      row.is_error = (body.error_message.or (autoErrorMessage errs)).truthy := by
  obtain ⟨serverId, db1, k, errs, hv, hr, ht, hdb⟩ :=
    postMetrics_created env fails now db db2 body resp h hs
  have h1 := resolveServer_health_metrics env fails db body.server_ip
  rw [hr] at h1
  refine ⟨metricRow body db1.nextMetricId serverId now
      (finalError body (autoErrorMessage errs)).1
      (finalError body (autoErrorMessage errs)).2, errs, hv, ht, ?_, rfl, rfl⟩
  rw [hdb, insertHealthMetric_health_metrics]
  exact congrArg (· ++ _) h1

theorem intercalate_go_length (s : String) :
    ∀ (l : List String) (acc : String), acc.length ≤ (String.intercalate.go acc s l).length
  | [], acc => by simp [String.intercalate.go]
  | a :: l, acc => by
    unfold String.intercalate.go
    refine le_trans ?_ (intercalate_go_length s l (acc ++ s ++ a))
    simp only [String.length_append]
    omega

theorem intercalate_ne_empty (s a : String) (l : List String) (ha : 0 < a.length) :
    s.intercalate (a :: l) ≠ "" := by
  intro h
  have h1 := intercalate_go_length s l a
  have h2 : (String.intercalate.go a s l).length = 0 := by
    have h3 : s.intercalate (a :: l) = String.intercalate.go a s l := rfl
    rw [← h3, h]
    rfl
  omega

theorem usageFaultText_length (env : JSEnv) (label : String) (q : ℚ) :
    0 < (usageFaultText env label q).length := by
  unfold usageFaultText
  simp only [String.length_append]
  have : "%".length = 1 := rfl
  omega

theorem usageFault_length (env : JSEnv) (label : String) (q : ℚ) (a : String)
    (h : a ∈ usageFault env label q) : 0 < a.length := by
  unfold usageFault at h
  split at h
  · rw [List.mem_singleton.mp h]; exact usageFaultText_length _ _ _
  · cases h

/-- The joined classifier output of a validated body is truthy exactly when a threshold
fired. -/
theorem autoErrorMessage_truthy (env : JSEnv) (p : Payload) (errs : List String)
    (hv : validateMetrics p = []) (hok : thresholdErrors env p = .ok errs) :
    (autoErrorMessage errs).truthy = true ↔ errs ≠ [] := by
  obtain ⟨c, m, d, load, hc, hm, hd, hl, herrs⟩ := thresholdErrors_ok env p errs hv hok
  unfold autoErrorMessage
  cases errs with
  | nil => simp [JSVal.truthy]
  | cons a l =>
    have ha : 0 < a.length := by
      have hmem : a ∈ usageFault env "CPU crítica: " c ++ usageFault env "Memória crítica: " m
          ++ usageFault env "Disco crítico: " d ++ load := by
        rw [← herrs]; exact List.mem_cons_self _ _
      simp only [List.mem_append] at hmem
      rcases hmem with ((h | h) | h) | h
      · exact usageFault_length _ _ _ _ h
      · exact usageFault_length _ _ _ _ h
      · exact usageFault_length _ _ _ _ h
      · by_cases hL : LoadHigh env p.load_average
        · obtain ⟨t, _, ht⟩ := loadFault_high env _ load hl hL
          rw [ht] at h
          rw [List.mem_singleton.mp h]
          simp only [String.length_append]
          have : "Load alto: ".length = 11 := by decide
          omega
        · rw [loadFault_low env _ load hl hL] at h; cases h
    simp [JSVal.truthy, intercalate_ne_empty " | " a l ha]

theorem or_truthy (a b : JSVal) : (a.or b).truthy = (a.truthy || b.truthy) := by
  unfold JSVal.or
  cases h : a.truthy <;> simp [h]

/-- C6: for every accepted sample (the handler answered 201) the stored row has
`is_error = true` exactly when an explicit error message was given or at least one of the
CPU, memory, disk and load thresholds fired. -/
theorem stored_is_error_iff (env : JSEnv) (fails : Nat → Bool) (now : Int) (db db2 : Store)
    (body : Payload) (resp : Response)
    (h : postMetrics env fails now db body = (resp, db2)) (hs : resp.status = 201) :
    ∃ row : HealthMetricRow,
      db2.health_metrics = db.health_metrics ++ [row] ∧
      (row.is_error = true ↔
        Given body.error_message ∨ UsageCritical body.cpu_usage ∨
          UsageCritical body.memory_usage ∨ UsageCritical body.disk_usage ∨
          LoadHigh env body.load_average) := by
  obtain ⟨row, errs, hv, hok, hrows, _, hflag⟩ :=
    postMetrics_created_row env fails now db db2 body resp h hs
  refine ⟨row, hrows, ?_⟩
  obtain ⟨c, m, d, load, hc, hm, hd, hl, herrs⟩ := thresholdErrors_ok env body errs hv hok
  have hnil := faults_nil_iff env body.load_average c m d load hl
  rw [← herrs] at hnil
  rw [hflag, or_truthy, Bool.or_eq_true, truthy_iff_given,
    autoErrorMessage_truthy env body errs hv hok, Ne, hnil, hc, hm, hd]
  simp only [usageCritical_num]
  constructor
  · rintro (h1 | h1)
    · exact Or.inl h1
    · right
      by_contra hcon
      push_neg at hcon
      exact h1 ⟨hcon.1, hcon.2.1, hcon.2.2.1, hcon.2.2.2⟩
  · rintro (h1 | h1 | h1 | h1 | h1)
    · exact Or.inl h1
    · exact Or.inr fun hcon => absurd h1 (not_le.mpr hcon.1)
    · exact Or.inr fun hcon => absurd h1 (not_le.mpr hcon.2.1)
    · exact Or.inr fun hcon => absurd h1 (not_le.mpr hcon.2.2.1)
    · exact Or.inr fun hcon => hcon.2.2.2 h1

/-- C7: for every accepted sample (the handler answered 201) the stored error message is
the message of the caller when one was given, else the classifier output joined with
`" | "`, else null, and `is_error` tells whether the stored message is non-empty. -/
theorem stored_error_message (env : JSEnv) (fails : Nat → Bool) (now : Int) (db db2 : Store)
    (body : Payload) (resp : Response)
    (h : postMetrics env fails now db body = (resp, db2)) (hs : resp.status = 201) :
    ∃ (row : HealthMetricRow) (errs : List String),
      db2.health_metrics = db.health_metrics ++ [row] ∧
      thresholdErrors env body = .ok errs ∧
      row.error_message =
        (if Given body.error_message then body.error_message
         else if errs = [] then .null else .str (" | ".intercalate errs)) ∧
      (row.is_error = true ↔ Given row.error_message) := by
  obtain ⟨row, errs, hv, hok, hrows, hmsg, hflag⟩ :=
    postMetrics_created_row env fails now db db2 body resp h hs
  refine ⟨row, errs, hrows, hok, ?_, ?_⟩
  · rw [hmsg]
    unfold JSVal.or autoErrorMessage
    by_cases hg : Given body.error_message
    · rw [if_pos ((truthy_iff_given _).mpr hg), if_pos hg]
    · have : ¬ body.error_message.truthy = true := fun ht => hg ((truthy_iff_given _).mp ht)
      rw [if_neg this, if_neg hg]
      cases errs <;> simp
  · rw [hflag, ← hmsg, truthy_iff_given]

theorem sample97_accepted (env : JSEnv) (now : Int) :
    (postMetrics env (fun _ => false) now Store.empty (sampleBody 97 50 40)).1.status = 201 := by
  have hv : validateMetrics (sampleBody 97 50 40) = [] := by decide
  unfold postMetrics
  simp only [hv, thresholdErrors_sample97]
  rfl

/-- C6 at the body with CPU = 97, memory = 50, disk = 40 and no explicit message, stored
into the empty store: one row, flagged as an error. -/
theorem stored_is_error_witness :
    ∃ row : HealthMetricRow,
      (postMetrics exampleEnv (fun _ => false) 0 Store.empty
        (sampleBody 97 50 40)).2.health_metrics = [row] ∧ row.is_error = true := by
  obtain ⟨row, hrows, hiff⟩ :=
    stored_is_error_iff exampleEnv (fun _ => false) 0 Store.empty _ (sampleBody 97 50 40) _
      rfl (sample97_accepted exampleEnv 0)
  exact ⟨row, hrows, hiff.mpr (Or.inr (Or.inl ⟨97, rfl, by norm_num⟩))⟩

/-- C7 at the body with CPU = 97, memory = 50, disk = 40 and no explicit message, stored
into the empty store: the row has `is_error = true` and the message `CPU crítica: 97.0%`. -/
theorem stored_error_message_witness :
    ∃ row : HealthMetricRow,
      (postMetrics exampleEnv (fun _ => false) 0 Store.empty
        (sampleBody 97 50 40)).2.health_metrics = [row] ∧
      row.is_error = true ∧ row.error_message = .str "CPU crítica: 97.0%" := by
  obtain ⟨row, errs, hrows, hok, hmsg, hflag⟩ :=
    stored_error_message exampleEnv (fun _ => false) 0 Store.empty _ (sampleBody 97 50 40) _
      rfl (sample97_accepted exampleEnv 0)
  rw [thresholdErrors_sample97] at hok
  cases hok
  have hm : row.error_message = .str "CPU crítica: 97.0%" := by
    rw [hmsg]
    decide
  refine ⟨row, hrows, hflag.mpr ?_, hm⟩
  rw [hm]
  decide

/-! ## Fleet list (C8, C9) -/

theorem mapRows_ok {α β : Type} (f : α → Except JSError β) :
    ∀ (l : List α) (out : List β), mapRows f l = .ok out →
      List.Forall₂ (fun a b => f a = .ok b) l out
  | [], out, h => by
    cases h
    exact List.Forall₂.nil
  | a :: rest, out, h => by
    unfold mapRows at h
    cases hf : f a with
    | error e => rw [hf] at h; cases h
    | ok b =>
      rw [hf] at h
      cases hr : mapRows f rest with
      | error e => rw [hr] at h; cases h
      | ok bs =>
        rw [hr] at h
        cases h
        exact List.Forall₂.cons hf (mapRows_ok f rest bs hr)

theorem fleetRow_ok (env : JSEnv) (appNow : Int) (a : ServersQueryRow) (r : FleetRow)
    (h : fleetRow env appNow a = .ok r) :
    r.toServersQueryRow = a ∧ r.is_online = isOnline appNow a.last_update := by
  unfold fleetRow at h
  split at h
  · split at h
    · cases h; exact ⟨rfl, rfl⟩
    · cases h
  · cases h; exact ⟨rfl, rfl⟩

theorem forall₂_map_eq {α β : Type} (g : β → α) :
    ∀ (l : List α) (out : List β), List.Forall₂ (fun a b => g b = a) l out → out.map g = l
  | _, _, List.Forall₂.nil => rfl
  | _, _, List.Forall₂.cons h t => by
    rw [List.map_cons, h, forall₂_map_eq g _ _ t]

theorem forall₂_mem_right {α β : Type} (R : α → β → Prop) :
    ∀ (l : List α) (out : List β), List.Forall₂ R l out → ∀ b ∈ out, ∃ a ∈ l, R a b
  | _, _, List.Forall₂.nil, b, hb => by cases hb
  | _, _, List.Forall₂.cons h t, b, hb => by
    rcases List.mem_cons.mp hb with hb | hb
    · subst hb
      exact ⟨_, List.mem_cons_self _ _, h⟩
    · obtain ⟨a, ha, hab⟩ := forall₂_mem_right R _ _ t b hb
      exact ⟨a, List.mem_cons_of_mem _ ha, hab⟩

/-- The fleet list, once built, is the result of `serversQuery` row by row. -/
theorem fleetServers_rows (env : JSEnv) (appNow : Int) (db : Store) (fl : List FleetRow)
    (h : fleetServers env appNow db = .ok fl) :
    fl.map (fun r => r.toServersQueryRow) = serversQuery env db ∧
      ∀ r ∈ fl, r.is_online = isOnline appNow r.last_update := by
  have hall := mapRows_ok _ _ _ h
  constructor
  · apply forall₂_map_eq
    exact hall.imp fun {a b} hab => (fleetRow_ok env appNow a b hab).1
  · intro r hr
    obtain ⟨a, _, hab⟩ := forall₂_mem_right _ _ _ hall r hr
    have := fleetRow_ok env appNow a r hab
    rw [this.2, ← this.1]

theorem mem_leftJoin {α β : Type} (l : List α) (r : List β) (cond : α → β → Bool)
    (a : α) (o : Option β) :
    (a, o) ∈ leftJoin l r cond ↔
      a ∈ l ∧ ((o = none ∧ ∀ b ∈ r, cond a b = false) ∨
        ∃ b, o = some b ∧ b ∈ r ∧ cond a b = true) := by
  unfold leftJoin
  simp only [List.mem_flatMap]
  constructor
  · rintro ⟨x, hx, hmem⟩
    cases hf : r.filter (cond x) with
    | nil =>
      rw [hf] at hmem
      simp only [List.mem_singleton, Prod.mk.injEq] at hmem
      obtain ⟨rfl, rfl⟩ := hmem
      refine ⟨hx, Or.inl ⟨rfl, fun b hb => ?_⟩⟩
      by_contra hc
      have : b ∈ r.filter (cond a) := List.mem_filter.mpr ⟨hb, by simpa using hc⟩
      rw [hf] at this
      cases this
    | cons b bs =>
      rw [hf] at hmem
      simp only [List.mem_map, Prod.mk.injEq] at hmem
      obtain ⟨y, hy, rfl, rfl⟩ := hmem
      rw [← hf] at hy
      obtain ⟨hy1, hy2⟩ := List.mem_filter.mp hy
      exact ⟨hx, Or.inr ⟨y, rfl, hy1, hy2⟩⟩
  · rintro ⟨ha, h⟩
    refine ⟨a, ha, ?_⟩
    rcases h with ⟨rfl, hnone⟩ | ⟨b, rfl, hb, hc⟩
    · have : r.filter (cond a) = [] := by
        rw [List.filter_eq_nil_iff]
        intro b hb
        simp [hnone b hb]
      rw [this]
      exact List.mem_singleton.mpr rfl
    · have hmem : b ∈ r.filter (cond a) := List.mem_filter.mpr ⟨hb, hc⟩
      cases hf : r.filter (cond a) with
      | nil => rw [hf] at hmem; cases hmem
      | cons c cs =>
        rw [hf] at hmem
        exact List.mem_map.mpr ⟨b, hmem, rfl⟩

theorem leftJoin_map_fst {α β : Type} (r : List β) (cond : α → β → Bool) :
    ∀ l : List α, (∀ a ∈ l, (r.filter (cond a)).length ≤ 1) →
      (leftJoin l r cond).map Prod.fst = l
  | [], _ => rfl
  | a :: l, h => by
    have ih := leftJoin_map_fst r cond l fun x hx => h x (List.mem_cons_of_mem _ hx)
    have ha := h a (List.mem_cons_self _ _)
    unfold leftJoin at ih ⊢
    rw [List.flatMap_cons, List.map_append, ih]
    cases hf : r.filter (cond a) with
    | nil => rfl
    | cons b bs =>
      cases bs with
      | nil => rfl
      | cons c cs => rw [hf] at ha; simp at ha

theorem server_serversSelect (p : ServerRow × Option CurrentMetricsRow) :
    (serversSelect p).server = p.1 := by
  rcases p with ⟨s, _ | cm⟩ <;> rfl

theorem mem_serversQuery (env : JSEnv) (db : Store) (r : ServersQueryRow) :
    r ∈ serversQuery env db ↔
      ∃ p ∈ leftJoin db.servers db.current_metrics (fun s cm => s.id == cm.server_id),
        serversSelect p = r := by
  unfold serversQuery
  rw [(List.perm_insertionSort _ _).mem_iff, List.mem_map]

theorem serversQuery_servers (env : JSEnv) (db : Store) (h : SnapshotPerServer db) :
    ((serversQuery env db).map ServersQueryRow.server).Perm db.servers := by
  unfold serversQuery
  refine ((List.perm_insertionSort _ _).map _).trans ?_
  rw [List.map_map]
  have : (ServersQueryRow.server ∘ serversSelect) = Prod.fst := by
    funext p
    exact server_serversSelect p
  rw [this, leftJoin_map_fst _ _ _ h]

/-- What `serversQuery` returns for a row: no snapshot columns when the server has no row in
`current_metrics`, the timestamp of one of its snapshot rows otherwise. -/
theorem serversQuery_last_update (env : JSEnv) (db : Store) (r : ServersQueryRow)
    (hr : r ∈ serversQuery env db) :
    (r.last_update = none ∧ ∀ cm ∈ db.current_metrics, cm.server_id ≠ r.id) ∨
      ∃ cm ∈ db.current_metrics, cm.server_id = r.id ∧ r.last_update = some cm.timestamp := by
  obtain ⟨⟨s, o⟩, hp, rfl⟩ := (mem_serversQuery env db r).mp hr
  rcases (mem_leftJoin _ _ _ s o).mp hp with ⟨_, ⟨rfl, hnone⟩ | ⟨cm, rfl, hcm, hc⟩⟩
  · left
    refine ⟨rfl, fun cm hcm heq => ?_⟩
    have := hnone cm hcm
    simp only [serversSelect] at heq
    simp [heq] at this
  · right
    refine ⟨cm, hcm, ?_, rfl⟩
    simp only [serversSelect]
    exact (beq_iff_eq.mp hc).symm

theorem isOnline_truthy (appNow : Int) (u : Option Int) :
    (isOnline appNow u).truthy = true ↔ ∃ t, u = some t ∧ appNow - t < 25 * 3600 * 1000 := by
  cases u with
  | none => simp [isOnline, JSVal.truthy]
  | some t =>
    simp only [isOnline, JSVal.truthy, decide_eq_true_eq, Option.some.injEq, exists_eq_left']
    constructor <;> intro h <;> omega

theorem eq_of_mem_length_le_one {α : Type} (l : List α) (h : l.length ≤ 1) (a b : α)
    (ha : a ∈ l) (hb : b ∈ l) : a = b := by
  match l, h, ha, hb with
  | [x], _, ha, hb => rw [List.mem_singleton.mp ha, List.mem_singleton.mp hb]
  | _ :: _ :: _, h, _, _ => simp at h

/-- With one snapshot row per server, the row of `serversQuery` for a server that has a
snapshot row carries the timestamp of that row. -/
theorem serversQuery_snapshot (env : JSEnv) (db : Store) (hsnap : SnapshotPerServer db)
    (r : ServersQueryRow) (hr : r ∈ serversQuery env db) (cm : CurrentMetricsRow)
    (hcm : cm ∈ db.current_metrics) (hid : cm.server_id = r.id) :
    r.last_update = some cm.timestamp := by
  obtain ⟨⟨s, o⟩, hp, rfl⟩ := (mem_serversQuery env db r).mp hr
  rcases (mem_leftJoin _ _ _ s o).mp hp with ⟨hs, ⟨rfl, hnone⟩ | ⟨cm2, rfl, hcm2, hc⟩⟩
  · have h1 := hnone cm hcm
    simp only [serversSelect] at hid
    simp [hid] at h1
  · simp only [serversSelect] at hid ⊢
    have h1 : cm ∈ db.current_metrics.filter fun c => s.id == c.server_id :=
      List.mem_filter.mpr ⟨hcm, beq_iff_eq.mpr hid.symm⟩
    have h2 : cm2 ∈ db.current_metrics.filter fun c => s.id == c.server_id :=
      List.mem_filter.mpr ⟨hcm2, hc⟩
    rw [eq_of_mem_length_le_one _ (hsnap s hs) cm cm2 h1 h2]

/-- C8: a server of the fleet list is online exactly when it has a snapshot row and the
read instant is less than 25 hours after the snapshot timestamp (the snapshot being the
row of `current_metrics` the fleet row was joined with, which is the only one of the server
when the relation holds one row per server); a snapshot exactly 25 hours old, or 25
hours and 1 second old, is offline, one 24 hours 59 minutes old is online. -/
theorem is_online_iff_fresh_snapshot (env : JSEnv) (appNow : Int) (db : Store)
    (fl : List FleetRow) (r : FleetRow)
    (h : fleetServers env appNow db = .ok fl) (hr : r ∈ fl) :
    (r.is_online.truthy = true ↔
      ∃ cm ∈ db.current_metrics, cm.server_id = r.id ∧ r.last_update = some cm.timestamp ∧
        appNow - cm.timestamp < 25 * 3600 * 1000) ∧
    (SnapshotPerServer db →
      (r.is_online.truthy = true ↔
        ∃ cm ∈ db.current_metrics, cm.server_id = r.id ∧
          appNow - cm.timestamp < 25 * 3600 * 1000)) ∧
    isOnline appNow (some (appNow - 25 * 3600 * 1000)) = .bool false ∧
    isOnline appNow (some (appNow - (25 * 3600 + 1) * 1000)) = .bool false ∧
    isOnline appNow (some (appNow - (24 * 60 + 59) * 60 * 1000)) = .bool true := by
  obtain ⟨hrows, honline⟩ := fleetServers_rows env appNow db fl h
  have hq : r.toServersQueryRow ∈ serversQuery env db := by
    rw [← hrows]
    exact List.mem_map_of_mem _ hr
  have hmain : r.is_online.truthy = true ↔
      ∃ cm ∈ db.current_metrics, cm.server_id = r.id ∧ r.last_update = some cm.timestamp ∧
        appNow - cm.timestamp < 25 * 3600 * 1000 := by
    rw [honline r hr, isOnline_truthy]
    constructor
    · rintro ⟨t, ht, hfresh⟩
      rcases serversQuery_last_update env db _ hq with ⟨hnone, _⟩ | ⟨cm, hcm, hid, hts⟩
      · rw [hnone] at ht; cases ht
      · rw [hts] at ht
        cases ht
        exact ⟨cm, hcm, hid, hts, hfresh⟩
    · rintro ⟨cm, _, _, hts, hfresh⟩
      exact ⟨cm.timestamp, hts, hfresh⟩
  refine ⟨hmain, ?_, ?_, ?_, ?_⟩
  · intro hsnap
    rw [hmain]
    constructor
    · rintro ⟨cm, hcm, hid, _, hfresh⟩
      exact ⟨cm, hcm, hid, hfresh⟩
    · rintro ⟨cm, hcm, hid, hfresh⟩
      exact ⟨cm, hcm, hid, serversQuery_snapshot env db hsnap _ hq cm hcm hid, hfresh⟩
  · simp only [isOnline]
    congr 1
    simp
  · simp only [isOnline]
    congr 1
    simp
  · simp only [isOnline]
    congr 1
    simp

/-- C8 on the store with two servers, read at time 2000: the server whose snapshot was
taken at time 1000 is online. -/
theorem is_online_witness :
    ∃ (fl : List FleetRow) (r : FleetRow),
      fleetServers exampleEnv 2000 twoServerStore = .ok fl ∧ r ∈ fl ∧ r.id = 1 ∧
        r.is_online.truthy = true := by
  obtain ⟨fl, hfl⟩ : ∃ fl, fleetServers exampleEnv 2000 twoServerStore = .ok fl := ⟨_, rfl⟩
  have hmem : ∃ r ∈ fl, r.id = 1 ∧ r.last_update = some 1000 := by
    cases hfl
    decide
  obtain ⟨r, hr, hid, hts⟩ := hmem
  refine ⟨fl, r, hfl, hr, hid, ?_⟩
  refine (is_online_iff_fresh_snapshot exampleEnv 2000 twoServerStore fl r hfl hr).1.mpr ?_
  exact ⟨⟨1, 1000, .num 97, .num 50, .num 40, .null, .null⟩, by decide, by rw [hid],
    by rw [hts], by decide⟩

theorem mapRows_total {α β : Type} (f : α → Except JSError β) :
    ∀ l : List α, (∀ a ∈ l, ∃ b, f a = .ok b) → ∃ out, mapRows f l = .ok out
  | [], _ => ⟨[], rfl⟩
  | a :: rest, h => by
    obtain ⟨b, hb⟩ := h a (List.mem_cons_self _ _)
    obtain ⟨bs, hbs⟩ := mapRows_total f rest fun x hx => h x (List.mem_cons_of_mem _ hx)
    refine ⟨b :: bs, ?_⟩
    unfold mapRows
    rw [hb, hbs]

theorem formatUptime_ok (env : JSEnv) (v : JSVal) (h : ∀ j, v ≠ .obj j) :
    ∃ t, formatUptime env v = .ok t := by
  have hn : ∃ n, v.toNumber env = .ok n := by
    cases v with
    | obj j => exact absurd rfl (h j)
    | _ => exact ⟨_, rfl⟩
  obtain ⟨n, hn⟩ := hn
  unfold formatUptime
  rw [hn]
  simp only [bind, Except.bind, pure, Except.pure]
  split
  · exact ⟨_, rfl⟩
  · split
    · exact ⟨_, rfl⟩
    · exact ⟨_, rfl⟩

theorem fleetRow_total (env : JSEnv) (appNow : Int) (a : ServersQueryRow)
    (h : ∀ j, a.uptime ≠ .obj j) : ∃ r, fleetRow env appNow a = .ok r := by
  unfold fleetRow
  split
  · obtain ⟨t, ht⟩ := formatUptime_ok env a.uptime h
    rw [ht]
    exact ⟨_, rfl⟩
  · exact ⟨_, rfl⟩

theorem serversQuery_uptime (env : JSEnv) (db : Store) (r : ServersQueryRow)
    (hr : r ∈ serversQuery env db) :
    r.uptime = .null ∨ ∃ cm ∈ db.current_metrics, r.uptime = cm.uptime := by
  obtain ⟨⟨s, o⟩, hp, rfl⟩ := (mem_serversQuery env db r).mp hr
  rcases (mem_leftJoin _ _ _ s o).mp hp with ⟨_, ⟨rfl, _⟩ | ⟨cm, rfl, hcm, _⟩⟩
  · exact Or.inl rfl
  · exact Or.inr ⟨cm, hcm, rfl⟩

/-- C9: when `current_metrics` holds at most one row per server, the fleet list holds every
registered server exactly once (its server columns are a permutation of table
`servers`), and a server without a snapshot row is in it with `is_online` null, that is,
not online. The list is built whenever no `uptime` read from the store is a JavaScript
object. -/
theorem fleet_lists_every_server_once (env : JSEnv) (appNow : Int) (db : Store)
    (hsnap : SnapshotPerServer db) :
    (∀ fl, fleetServers env appNow db = .ok fl →
      (fl.map FleetRow.server).Perm db.servers ∧
      ∀ r ∈ fl, (∀ cm ∈ db.current_metrics, cm.server_id ≠ r.id) →
        r.last_update = none ∧ r.is_online = .null ∧ r.is_online.truthy = false) ∧
    ((∀ cm ∈ db.current_metrics, ∀ j, cm.uptime ≠ .obj j) →
      ∃ fl, fleetServers env appNow db = .ok fl) := by
  constructor
  · intro fl h
    obtain ⟨hrows, honline⟩ := fleetServers_rows env appNow db fl h
    constructor
    · have : fl.map FleetRow.server =
          (fl.map fun r => r.toServersQueryRow).map ServersQueryRow.server := by
        rw [List.map_map]
        rfl
      rw [this, hrows]
      exact serversQuery_servers env db hsnap
    · intro r hr hno
      have hq : r.toServersQueryRow ∈ serversQuery env db := by
        rw [← hrows]
        exact List.mem_map_of_mem _ hr
      rcases serversQuery_last_update env db _ hq with ⟨hnone, _⟩ | ⟨cm, hcm, hid, _⟩
      · have := honline r hr
        rw [hnone] at this
        exact ⟨hnone, this, by rw [this]; rfl⟩
      · exact absurd hid (hno cm hcm)
  · intro hplain
    apply mapRows_total
    intro a ha
    apply fleetRow_total
    intro j
    rcases serversQuery_uptime env db a ha with h | ⟨cm, hcm, h⟩
    · rw [h]; exact fun hc => by cases hc
    · rw [h]; exact hplain cm hcm j

/-- C9 on the store with two servers: both are listed, and `10.0.0.2`, which has no
snapshot, is listed with `is_online` null. -/
theorem fleet_lists_every_server_witness :
    ∃ fl, fleetServers exampleEnv 2000 twoServerStore = .ok fl ∧
      (fl.map FleetRow.server).Perm twoServerStore.servers ∧
      ∃ r ∈ fl, r.ip_address = "10.0.0.2" ∧ r.is_online = .null := by
  have hsnap : SnapshotPerServer twoServerStore := by
    intro s hs
    simp only [twoServerStore, Store.empty, List.mem_cons, List.mem_singleton,
      List.not_mem_nil, or_false] at hs
    rcases hs with rfl | rfl <;> decide
  have hC := fleet_lists_every_server_once exampleEnv 2000 twoServerStore hsnap
  obtain ⟨fl, hfl⟩ := hC.2 (by
    intro cm hcm j
    simp only [twoServerStore, Store.empty, List.mem_singleton] at hcm
    subst hcm
    exact fun hc => by cases hc)
  obtain ⟨hperm, hnull⟩ := hC.1 fl hfl
  have hmem : ∃ r ∈ fl, r.ip_address = "10.0.0.2" ∧ r.id = 2 := by
    have h2 : fleetServers exampleEnv 2000 twoServerStore = .ok _ := rfl
    rw [h2] at hfl
    cases hfl
    decide
  obtain ⟨r, hr, hip, hid⟩ := hmem
  refine ⟨fl, hfl, hperm, r, hr, hip, (hnull r hr ?_).2.1⟩
  rw [hid]
  decide

/-! ## Recent errors (C10) -/

theorem mem_innerJoin {α β : Type} (l : List α) (r : List β) (cond : α → β → Bool)
    (a : α) (b : β) : (a, b) ∈ innerJoin l r cond ↔ a ∈ l ∧ b ∈ r ∧ cond a b = true := by
  unfold innerJoin
  simp only [List.mem_flatMap, List.mem_map, List.mem_filter, Prod.mk.injEq]
  constructor
  · rintro ⟨x, hx, y, ⟨hy, hc⟩, rfl, rfl⟩
    exact ⟨hx, hy, hc⟩
  · rintro ⟨ha, hb, hc⟩
    exact ⟨a, ha, b, ⟨hb, hc⟩, rfl, rfl⟩

theorem recentError_iff (dbNow : Int) (hm : HealthMetricRow) :
    recentError dbNow hm = true ↔ QualifiesAsRecentError dbNow hm := by
  unfold recentError QualifiesAsRecentError staleMs
  rw [Bool.and_eq_true, decide_eq_true_eq]
  constructor <;> rintro ⟨h1, h2⟩ <;> exact ⟨h1, by omega⟩

theorem errorsQuery_eq (dbNow : Int) (db : Store) :
    errorsQuery dbNow db = (errorsSorted dbNow db).take 50 := rfl

theorem mem_errorsSorted (dbNow : Int) (db : Store) (r : ErrorsQueryRow) :
    r ∈ errorsSorted dbNow db ↔
      ∃ hm ∈ db.health_metrics, ∃ s ∈ db.servers,
        s.id = hm.server_id ∧ QualifiesAsRecentError dbNow hm ∧ r = errorsSelect (hm, s) := by
  unfold errorsSorted
  rw [(List.perm_insertionSort _ _).mem_iff, List.mem_map]
  constructor
  · rintro ⟨⟨hm, s⟩, hp, rfl⟩
    obtain ⟨hj, hrec⟩ := List.mem_filter.mp hp
    obtain ⟨h1, h2, h3⟩ := (mem_innerJoin _ _ _ hm s).mp hj
    exact ⟨hm, h1, s, h2, (beq_iff_eq.mp h3).symm, (recentError_iff dbNow hm).mp hrec, rfl⟩
  · rintro ⟨hm, h1, s, h2, h3, h4, rfl⟩
    refine ⟨(hm, s), List.mem_filter.mpr ⟨?_, (recentError_iff dbNow hm).mpr h4⟩, rfl⟩
    exact (mem_innerJoin _ _ _ hm s).mpr ⟨h1, h2, beq_iff_eq.mpr h3.symm⟩

theorem errorsSorted_sorted (dbNow : Int) (db : Store) :
    (errorsSorted dbNow db).Pairwise fun a b => a.timestamp ≥ b.timestamp := by
  unfold errorsSorted
  haveI : IsTotal ErrorsQueryRow (fun a b => a.timestamp ≥ b.timestamp) :=
    ⟨fun a b => le_total b.timestamp a.timestamp⟩
  haveI : IsTrans ErrorsQueryRow (fun a b => a.timestamp ≥ b.timestamp) :=
    ⟨fun a b c hab hbc => le_trans hbc hab⟩
  exact List.sorted_insertionSort _ _

/-- C10: `recent_errors` holds only error samples of the last 25 hours, newest first, at
most 50 of them, and a qualifying sample (of a registered server) is left out only when
50 rows at least as new as it are returned. -/
theorem recent_errors_window_order_cap (dbNow : Int) (db : Store)
    (href : SamplesReferenceServers db) :
    (∀ r ∈ errorsQuery dbNow db,
      ∃ hm ∈ db.health_metrics, ∃ s ∈ db.servers,
        s.id = hm.server_id ∧ QualifiesAsRecentError dbNow hm ∧ r = errorsSelect (hm, s)) ∧
    (errorsQuery dbNow db).Pairwise (fun a b => a.timestamp ≥ b.timestamp) ∧
    (errorsQuery dbNow db).length ≤ 50 ∧
    ∀ hm ∈ db.health_metrics, QualifiesAsRecentError dbNow hm →
      (∃ s ∈ db.servers, s.id = hm.server_id ∧ errorsSelect (hm, s) ∈ errorsQuery dbNow db) ∨
      ((errorsQuery dbNow db).length = 50 ∧
        ∀ r ∈ errorsQuery dbNow db, r.timestamp ≥ hm.timestamp) := by
  rw [errorsQuery_eq]
  refine ⟨?_, ?_, ?_, ?_⟩
  · intro r hr
    exact (mem_errorsSorted dbNow db r).mp (List.mem_of_mem_take hr)
  · exact (errorsSorted_sorted dbNow db).sublist (List.take_sublist _ _)
  · exact List.length_take_le _ _
  · intro hm hmem hq
    obtain ⟨s, hs, hid⟩ := href hm hmem
    have hin : errorsSelect (hm, s) ∈ errorsSorted dbNow db :=
      (mem_errorsSorted dbNow db _).mpr ⟨hm, hmem, s, hs, hid, hq, rfl⟩
    by_cases htake : errorsSelect (hm, s) ∈ (errorsSorted dbNow db).take 50
    · exact Or.inl ⟨s, hs, hid, htake⟩
    · right
      have hsplit := List.take_append_drop 50 (errorsSorted dbNow db)
      have hdrop : errorsSelect (hm, s) ∈ (errorsSorted dbNow db).drop 50 := by
        rw [← hsplit] at hin
        rcases List.mem_append.mp hin with h | h
        · exact absurd h htake
        · exact h
      constructor
      · have hlen : 50 < (errorsSorted dbNow db).length := by
          by_contra hle
          rw [List.drop_eq_nil_of_le (not_lt.mp hle)] at hdrop
          cases hdrop
        rw [List.length_take]
        omega
      · intro r hr
        have hsorted := errorsSorted_sorted dbNow db
        rw [← hsplit] at hsorted
        exact (List.pairwise_append.mp hsorted).2.2 r hr _ hdrop

/-- C10 on the store with two servers, read at store time 2000: the one error sample is
returned. -/
theorem recent_errors_witness :
    SamplesReferenceServers twoServerStore ∧
      (errorsQuery 2000 twoServerStore).map (fun r => (r.id, r.ip_address)) =
        [(1, "10.0.0.1")] ∧
      (errorsQuery 2000 twoServerStore).length ≤ 50 := by
  have href : SamplesReferenceServers twoServerStore := by
    intro hm hmem
    simp only [twoServerStore, Store.empty, List.mem_singleton] at hmem
    subst hmem
    exact ⟨⟨1, "10.0.0.1", "server-1", .str "active", .null⟩, by decide, rfl⟩
  exact ⟨href, by decide, (recent_errors_window_order_cap 2000 twoServerStore href).2.2.1⟩

/-! ## Fleet statistics (C11, C12) -/

theorem leftJoin_fst_mem {α β : Type} (l : List α) (r : List β) (cond : α → β → Bool)
    (p : α × Option β) (h : p ∈ leftJoin l r cond) : p.1 ∈ l := by
  rcases p with ⟨a, o⟩
  exact ((mem_leftJoin l r cond a o).mp h).1

theorem leftJoin_exists {α β : Type} (l : List α) (r : List β) (cond : α → β → Bool)
    (a : α) (h : a ∈ l) : ∃ o, (a, o) ∈ leftJoin l r cond := by
  by_cases hex : ∃ b ∈ r, cond a b = true
  · obtain ⟨b, hb, hc⟩ := hex
    exact ⟨some b, (mem_leftJoin l r cond a _).mpr ⟨h, Or.inr ⟨b, rfl, hb, hc⟩⟩⟩
  · refine ⟨none, (mem_leftJoin l r cond a _).mpr ⟨h, Or.inl ⟨rfl, fun b hb => ?_⟩⟩⟩
    cases hc : cond a b
    · rfl
    · exact absurd ⟨b, hb, hc⟩ hex

theorem mem_statsJoin_ids (db : Store) (i : Nat) :
    i ∈ (statsJoin db).map (fun r => r.1.1.id) ↔ i ∈ db.servers.map fun s => s.id := by
  simp only [List.mem_map]
  constructor
  · rintro ⟨⟨⟨s, ocm⟩, ocsh⟩, hr, rfl⟩
    have h1 := leftJoin_fst_mem _ _ _ _ hr
    have h2 := leftJoin_fst_mem _ _ _ _ h1
    exact ⟨s, h2, rfl⟩
  · rintro ⟨s, hs, rfl⟩
    obtain ⟨ocm, h1⟩ := leftJoin_exists db.servers db.current_metrics
      (fun s cm => s.id == cm.server_id) s hs
    obtain ⟨ocsh, h2⟩ := leftJoin_exists _ db.current_storage_health
      (fun p csh => p.1.id == csh.server_id) (s, ocm) h1
    exact ⟨((s, ocm), ocsh), h2, rfl⟩

theorem freshAt_some (dbNow t : Int) :
    freshAt dbNow (some t) = true ↔ dbNow - t < 25 * 3600 * 1000 := by
  unfold freshAt staleMs
  rw [decide_eq_true_eq]
  constructor <;> intro h <;> omega

theorem mem_online_ids (dbNow : Int) (db : Store) (i : Nat) :
    i ∈ (statsJoin db).filterMap (onlineCase dbNow) ↔
      ∃ s ∈ db.servers, FreshSnapshot dbNow db s ∧ s.id = i := by
  simp only [List.mem_filterMap]
  constructor
  · rintro ⟨⟨⟨s, ocm⟩, ocsh⟩, hr, hcase⟩
    have h1 := leftJoin_fst_mem _ _ _ _ hr
    have hs := leftJoin_fst_mem _ _ _ _ h1
    unfold onlineCase at hcase
    split at hcase
    · rename_i hfresh
      simp only [Option.some.injEq] at hcase
      refine ⟨s, hs, ?_, hcase⟩
      rw [Bool.or_eq_true] at hfresh
      rcases hfresh with hf | hf
      · left
        cases ocm with
        | none => simp [freshAt] at hf
        | some cm =>
          rcases (mem_leftJoin _ _ _ s (some cm)).mp h1 with ⟨_, ⟨hn, _⟩ | ⟨b, hb, hbm, hc⟩⟩
          · cases hn
          · cases hb
            exact ⟨cm, hbm, (beq_iff_eq.mp hc).symm, (freshAt_some _ _).mp hf⟩
      · right
        cases ocsh with
        | none => simp [freshAt] at hf
        | some csh =>
          rcases (mem_leftJoin _ _ _ (s, ocm) (some csh)).mp hr with
            ⟨_, ⟨hn, _⟩ | ⟨b, hb, hbm, hc⟩⟩
          · cases hn
          · cases hb
            exact ⟨csh, hbm, (beq_iff_eq.mp hc).symm, (freshAt_some _ _).mp hf⟩
    · cases hcase
  · rintro ⟨s, hs, hfresh, rfl⟩
    rcases hfresh with ⟨cm, hcm, hid, hf⟩ | ⟨csh, hcsh, hid, hf⟩
    · have h1 : (s, some cm) ∈ leftJoin db.servers db.current_metrics
          (fun s cm => s.id == cm.server_id) :=
        (mem_leftJoin _ _ _ s _).mpr ⟨hs, Or.inr ⟨cm, rfl, hcm, beq_iff_eq.mpr hid.symm⟩⟩
      obtain ⟨ocsh, h2⟩ := leftJoin_exists _ db.current_storage_health
        (fun p csh => p.1.id == csh.server_id) (s, some cm) h1
      refine ⟨((s, some cm), ocsh), h2, ?_⟩
      unfold onlineCase
      simp [(freshAt_some dbNow cm.timestamp).mpr hf]
    · obtain ⟨ocm, h1⟩ := leftJoin_exists db.servers db.current_metrics
        (fun s cm => s.id == cm.server_id) s hs
      have h2 : ((s, ocm), some csh) ∈ statsJoin db :=
        (mem_leftJoin _ _ _ (s, ocm) _).mpr
          ⟨h1, Or.inr ⟨csh, rfl, hcsh, beq_iff_eq.mpr hid.symm⟩⟩
      refine ⟨((s, ocm), some csh), h2, ?_⟩
      unfold onlineCase
      simp [(freshAt_some dbNow csh.timestamp).mpr hf]

theorem dedup_length_eq {l m : List Nat} (hm : m.Nodup) (h : ∀ i, i ∈ l ↔ i ∈ m) :
    l.dedup.length = m.length := by
  apply List.Perm.length_eq
  rw [List.perm_ext_iff_of_nodup (List.nodup_dedup l) hm]
  intro i
  rw [List.mem_dedup]
  exact h i

theorem statsQuery_counts (dbNow : Int) (db : Store) (hpk : ServerIdsUnique db) :
    statsQuery dbNow db =
      [{ total_servers := db.servers.length
         servers_online := (db.servers.filter fun s => FreshSnapshot dbNow db s).length
         errors_last_hour := (db.health_metrics.filter (recentError dbNow)).length }] := by
  have h1 : ((statsJoin db).map fun r => r.1.1.id).dedup.length = db.servers.length := by
    rw [dedup_length_eq hpk (mem_statsJoin_ids db), List.length_map]
  have h2 : ((statsJoin db).filterMap (onlineCase dbNow)).dedup.length =
      (db.servers.filter fun s => FreshSnapshot dbNow db s).length := by
    have hsub : ((db.servers.filter fun s => FreshSnapshot dbNow db s).map fun s => s.id).Nodup :=
      (hpk.sublist ((List.filter_sublist _).map _))
    rw [dedup_length_eq hsub, List.length_map]
    intro i
    rw [mem_online_ids, List.mem_map]
    constructor
    · rintro ⟨s, hs, hf, rfl⟩
      exact ⟨s, List.mem_filter.mpr ⟨hs, by simpa using hf⟩, rfl⟩
    · rintro ⟨s, hs, rfl⟩
      obtain ⟨hs1, hs2⟩ := List.mem_filter.mp hs
      exact ⟨s, hs1, by simpa using hs2, rfl⟩
  unfold statsQuery
  rw [h1, h2]

/-- What a 200 answer of `GET /api/dashboard` holds: the fleet list and the results of the
three other queries. -/
theorem getDashboard_ok (env : JSEnv) (fails : Nat → Bool) (appNow dbNow : Int) (db : Store)
    (data : DashboardData) (h : getDashboard env fails appNow dbNow db = .ok data) :
    fleetServers env appNow db = .ok data.servers ∧
      data.recent_errors = errorsQuery dbNow db ∧
      data.storage_alerts = storageQuery env db ∧
      statsQuery dbNow db = [data.stats] := by
  unfold getDashboard at h
  split at h
  · cases h
  · split at h
    · cases h
    · split at h
      · cases h
      · split at h
        · cases h
        · simp only at h
          split at h
          · cases h
          · rename_i rows hrows
            cases h
            exact ⟨hrows, rfl, rfl, rfl⟩

/-- The handler answers 200 when no query fails and the fleet list can be built. -/
theorem getDashboard_succeeds (env : JSEnv) (fails : Nat → Bool) (appNow dbNow : Int)
    (db : Store) (rows : List FleetRow) (hf : ∀ k, fails k = false)
    (hrows : fleetServers env appNow db = .ok rows) :
    ∃ data, getDashboard env fails appNow dbNow db = .ok data := by
  unfold fleetServers at hrows
  unfold getDashboard
  simp only [hf, hrows]
  exact ⟨_, rfl⟩

/-- C11: when no two servers share an id, `stats.total_servers` of the dashboard response
is the number of rows of `servers`, and `stats.servers_online` is the number of servers
whose metrics snapshot or storage snapshot is within the last 25 hours, each server
counted once. -/
theorem stats_count_servers (env : JSEnv) (fails : Nat → Bool) (appNow dbNow : Int)
    (db : Store) (data : DashboardData) (hpk : ServerIdsUnique db)
    (h : getDashboard env fails appNow dbNow db = .ok data) :
    data.stats.total_servers = db.servers.length ∧
      data.stats.servers_online =
        (db.servers.filter fun s => FreshSnapshot dbNow db s).length ∧
      data.stats.servers_online ≤ data.stats.total_servers := by
  obtain ⟨_, _, _, hstats⟩ := getDashboard_ok env fails appNow dbNow db data h
  rw [statsQuery_counts dbNow db hpk] at hstats
  have hrow := (List.cons.inj hstats).1
  rw [← hrow]
  exact ⟨rfl, rfl, List.length_filter_le _ _⟩

/-- C11 on the store with two servers, read at store time 2000: two servers, one of them
with a fresh snapshot. -/
theorem stats_count_servers_witness :
    ∃ data, getDashboard exampleEnv (fun _ => false) 2000 2000 twoServerStore = .ok data ∧
      data.stats.total_servers = 2 ∧ data.stats.servers_online = 1 := by
  obtain ⟨data, hdata⟩ : ∃ data,
      getDashboard exampleEnv (fun _ => false) 2000 2000 twoServerStore = .ok data := ⟨_, rfl⟩
  have h := stats_count_servers exampleEnv (fun _ => false) 2000 2000 twoServerStore data
    (by unfold ServerIdsUnique; decide) hdata
  refine ⟨data, hdata, ?_, ?_⟩
  · rw [h.1]; rfl
  · rw [h.2.1]; decide

theorem getDashboard_empty (env : JSEnv) (fails : Nat → Bool) (appNow dbNow : Int)
    (db : Store) (hempty : db.isEmpty) (hf : ∀ k, fails k = false) :
    getDashboard env fails appNow dbNow db =
      .ok { servers := [], recent_errors := [], storage_alerts := [],
            stats := { total_servers := 0, servers_online := 0, errors_last_hour := 0 } } := by
  obtain ⟨h1, h2, h3, _, h5⟩ := hempty
  have hs : serversQuery env db = [] := by
    unfold serversQuery leftJoin
    rw [h1]
    rfl
  have he : errorsQuery dbNow db = [] := by
    unfold errorsQuery errorsSorted innerJoin
    rw [h2]
    rfl
  have hst : statsQuery dbNow db =
      [{ total_servers := 0, servers_online := 0, errors_last_hour := 0 }] := by
    unfold statsQuery statsJoin leftJoin
    rw [h1, h2]
    rfl
  have hsq : storageQuery env db = [] := by
    unfold storageQuery leftJoin
    rw [h1]
    rfl
  unfold getDashboard
  simp only [hf, hs, he, hst, hsq]
  rfl

/-- C12, as amended: on a store without rows, when no query fails, `GET /api/dashboard`
answers 200 with empty `servers`, `recent_errors` and `storage_alerts`; the three counts
of `stats` are zero and reach the response as the text `"0"`, the form in which the driver
delivers a count. -/
theorem empty_store_snapshot (env : JSEnv) (fails : Nat → Bool) (appNow dbNow : Int)
    (db : Store) (hempty : db.isEmpty) (hf : ∀ k, fails k = false) :
    ∃ data, getDashboard env fails appNow dbNow db = .ok data ∧
      data.servers = [] ∧ data.recent_errors = [] ∧ data.storage_alerts = [] ∧
      statsQuery dbNow db = [data.stats] ∧
      data.stats = { total_servers := 0, servers_online := 0, errors_last_hour := 0 } ∧
      data.statsMember =
        { total_servers := .str "0", servers_online := .str "0",
          errors_last_hour := .str "0" } := by
  have h := getDashboard_empty env fails appNow dbNow db hempty hf
  refine ⟨_, h, rfl, rfl, rfl, ?_, rfl, rfl⟩
  exact (getDashboard_ok env fails appNow dbNow db _ h).2.2.2

/-- C12 as amended, on the store before any request. -/
theorem empty_store_snapshot_witness :
    Store.empty.isEmpty ∧
      ∃ data, getDashboard exampleEnv (fun _ => false) 0 0 Store.empty = .ok data ∧
        data.servers = [] ∧ data.recent_errors = [] ∧ data.storage_alerts = [] ∧
        data.statsMember =
          { total_servers := .str "0", servers_online := .str "0",
            errors_last_hour := .str "0" } := by
  obtain ⟨data, h1, h2, h3, h4, _, _, h7⟩ :=
    empty_store_snapshot exampleEnv (fun _ => false) 0 0 Store.empty
      ⟨rfl, rfl, rfl, rfl, rfl⟩ (fun _ => rfl)
  exact ⟨⟨rfl, rfl, rfl, rfl, rfl⟩, data, h1, h2, h3, h4, h7⟩

/-- C12 on the store before any request: the member `stats` of the 200 answer holds the
text `"0"` three times, not the number 0. -/
theorem empty_store_stats_are_text :
    ∃ data, getDashboard exampleEnv (fun _ => false) 0 0 Store.empty = .ok data ∧
      data.statsMember =
        { total_servers := .str "0", servers_online := .str "0",
          errors_last_hour := .str "0" } ∧
      data.statsMember ≠
        { total_servers := .num 0, servers_online := .num 0, errors_last_hour := .num 0 } :=
  ⟨_, rfl, rfl, by decide⟩

/-! ## Storage alerts (C13) -/

theorem mem_storageQuery (env : JSEnv) (db : Store) (r : StorageQueryRow) :
    r ∈ storageQuery env db ↔
      ∃ s ∈ db.servers, ∃ csh ∈ db.current_storage_health,
        csh.server_id = s.id ∧ storageSelect (s, some csh) = some r := by
  unfold storageQuery
  rw [(List.perm_insertionSort _ _).mem_iff, List.mem_filterMap]
  constructor
  · rintro ⟨⟨s, o⟩, hp, hsel⟩
    rcases (mem_leftJoin _ _ _ s o).mp hp with ⟨hs, ⟨rfl, _⟩ | ⟨csh, rfl, hcsh, hc⟩⟩
    · cases hsel
    · exact ⟨s, hs, csh, hcsh, (beq_iff_eq.mp hc).symm, hsel⟩
  · rintro ⟨s, hs, csh, hcsh, hid, hsel⟩
    exact ⟨(s, some csh),
      (mem_leftJoin _ _ _ s _).mpr ⟨hs, Or.inr ⟨csh, rfl, hcsh, beq_iff_eq.mpr hid.symm⟩⟩, hsel⟩

theorem storageOrder_total (env : JSEnv) (h : AddressOrderTotal env) (a b : StorageQueryRow) :
    storageOrder env a b ∨ storageOrder env b a := by
  unfold storageOrder
  rcases lt_trichotomy (env.columnInt a.critical_alerts) (env.columnInt b.critical_alerts)
    with hc | hc | hc
  · exact Or.inr (Or.inl hc)
  · rcases lt_trichotomy (env.columnInt a.total_alerts) (env.columnInt b.total_alerts)
      with ht | ht | ht
    · exact Or.inr (Or.inr ⟨hc.symm, Or.inl ht⟩)
    · rcases h.1 a.ip_address b.ip_address with ha | ha
      · exact Or.inl (Or.inr ⟨hc, Or.inr ⟨ht, ha⟩⟩)
      · exact Or.inr (Or.inr ⟨hc.symm, Or.inr ⟨ht.symm, ha⟩⟩)
    · exact Or.inl (Or.inr ⟨hc, Or.inl ht⟩)
  · exact Or.inl (Or.inl hc)

theorem storageOrder_trans (env : JSEnv) (h : AddressOrderTotal env) (a b c : StorageQueryRow)
    (hab : storageOrder env a b) (hbc : storageOrder env b c) : storageOrder env a c := by
  unfold storageOrder at *
  rcases hab with hab | ⟨hab, hab2⟩
  · rcases hbc with hbc | ⟨hbc, _⟩
    · exact Or.inl (by omega)
    · exact Or.inl (by omega)
  · rcases hbc with hbc | ⟨hbc, hbc2⟩
    · exact Or.inl (by omega)
    · refine Or.inr ⟨by omega, ?_⟩
      rcases hab2 with hab2 | ⟨hab2, hab3⟩
      · rcases hbc2 with hbc2 | ⟨hbc2, _⟩
        · exact Or.inl (by omega)
        · exact Or.inl (by omega)
      · rcases hbc2 with hbc2 | ⟨hbc2, hbc3⟩
        · exact Or.inl (by omega)
        · exact Or.inr ⟨by omega, h.2 _ _ _ hab3 hbc3⟩

theorem storageQuery_sorted (env : JSEnv) (db : Store) (h : AddressOrderTotal env) :
    (storageQuery env db).Pairwise (storageOrder env) := by
  unfold storageQuery
  haveI : IsTotal StorageQueryRow (storageOrder env) := ⟨storageOrder_total env h⟩
  haveI : IsTrans StorageQueryRow (storageOrder env) := ⟨storageOrder_trans env h⟩
  exact List.sorted_insertionSort _ _

theorem alertsNotBelow_of_storageOrder (env : JSEnv) (a b : StorageQueryRow)
    (h : storageOrder env a b) : AlertsNotBelow env a b := by
  unfold storageOrder at h
  unfold AlertsNotBelow
  rcases h with h | ⟨h1, h2 | ⟨h2, _⟩⟩
  · exact Or.inl h
  · exact Or.inr ⟨h1, le_of_lt h2⟩
  · exact Or.inr ⟨h1, le_of_eq h2.symm⟩

theorem storageJoin_ids (r : List CurrentStorageRow) (cond : ServerRow → CurrentStorageRow → Bool) :
    ∀ l : List ServerRow, (∀ a ∈ l, (r.filter (cond a)).length ≤ 1) →
      ((leftJoin l r cond).filterMap storageSelect).map (fun x => x.id) =
        (l.filter fun a => (r.filter (cond a)).length = 1).map fun a => a.id
  | [], _ => rfl
  | a :: l, h => by
    have ih := storageJoin_ids r cond l fun x hx => h x (List.mem_cons_of_mem _ hx)
    have ha := h a (List.mem_cons_self _ _)
    unfold leftJoin at ih ⊢
    rw [List.flatMap_cons, List.filterMap_append, List.map_append, ih]
    cases hf : r.filter (cond a) with
    | nil => simp [List.filter_cons, hf, storageSelect]
    | cons b bs =>
      cases bs with
      | nil => simp [List.filter_cons, hf, storageSelect]
      | cons c cs => rw [hf] at ha; simp at ha

/-- C13: `storage_alerts` of the dashboard response lists exactly the servers that have a
row in `current_storage_health` (each once when the relation holds one row per server).
Of two rows of the list, the earlier has at least as many critical alerts as the later;
if as many, it has at least as many alerts in total; if as many again, its address is not
after the address of the later. Hence the pair (critical alerts, total alerts) never
increases along the list. -/
theorem storage_alerts_listed_and_ordered (env : JSEnv) (fails : Nat → Bool)
    (appNow dbNow : Int) (db : Store) (data : DashboardData) (hord : AddressOrderTotal env)
    (h : getDashboard env fails appNow dbNow db = .ok data) :
    (∀ r, r ∈ data.storage_alerts ↔
      ∃ s ∈ db.servers, ∃ csh ∈ db.current_storage_health,
        csh.server_id = s.id ∧ storageSelect (s, some csh) = some r) ∧
    (StorageSnapshotPerServer db →
      (data.storage_alerts.map fun r => r.id).Perm
        ((db.servers.filter fun s =>
          (db.current_storage_health.filter fun csh => s.id == csh.server_id).length = 1).map
          fun s => s.id)) ∧
    data.storage_alerts.Pairwise (fun a b =>
      env.columnInt b.critical_alerts ≤ env.columnInt a.critical_alerts ∧
        (env.columnInt a.critical_alerts = env.columnInt b.critical_alerts →
          env.columnInt b.total_alerts ≤ env.columnInt a.total_alerts ∧
            (env.columnInt a.total_alerts = env.columnInt b.total_alerts →
              env.addressLe a.ip_address b.ip_address = true))) ∧
    data.storage_alerts.Pairwise (AlertsNotBelow env) := by
  obtain ⟨_, _, hst, _⟩ := getDashboard_ok env fails appNow dbNow db data h
  rw [hst]
  refine ⟨mem_storageQuery env db, ?_, ?_, ?_⟩
  · intro hsnap
    unfold storageQuery
    refine ((List.perm_insertionSort _ _).map _).trans ?_
    rw [storageJoin_ids _ _ _ hsnap]
  · refine (storageQuery_sorted env db hord).imp fun {a b} hab => ?_
    unfold storageOrder at hab
    rcases hab with hc | ⟨hc, ht | ⟨ht, ha⟩⟩
    · exact ⟨le_of_lt hc, fun heq => absurd heq (ne_of_gt hc)⟩
    · exact ⟨le_of_eq hc.symm, fun _ => ⟨le_of_lt ht, fun heq => absurd heq (ne_of_gt ht)⟩⟩
    · exact ⟨le_of_eq hc.symm, fun _ => ⟨le_of_eq ht.symm, fun _ => ha⟩⟩
  · exact (storageQuery_sorted env db hord).imp fun {a b} hab =>
      alertsNotBelow_of_storageOrder env a b hab

theorem exampleEnv_order : AddressOrderTotal exampleEnv := by
  constructor
  · intro a b
    show decide (a.data ≤ b.data) = true ∨ decide (b.data ≤ a.data) = true
    simp only [decide_eq_true_eq]
    exact le_total a.data b.data
  · intro a b c hab hbc
    have h1 : a.data ≤ b.data := of_decide_eq_true hab
    have h2 : b.data ≤ c.data := of_decide_eq_true hbc
    exact decide_eq_true (le_trans h1 h2)

/-- C13 on the store with three storage reports, all with one critical alert: the server
with five alerts comes first, the two servers with two alerts follow by address, against
the order in which they were registered. -/
theorem storage_alerts_witness :
    ∃ data, getDashboard exampleEnv (fun _ => false) 2000 2000 tiedReportStore = .ok data ∧
      data.storage_alerts.map (fun r => r.ip_address) = ["10.0.0.3", "10.0.0.1", "10.0.0.2"] ∧
      data.storage_alerts.Pairwise (fun a b =>
        exampleEnv.columnInt b.critical_alerts ≤ exampleEnv.columnInt a.critical_alerts ∧
          (exampleEnv.columnInt a.critical_alerts = exampleEnv.columnInt b.critical_alerts →
            exampleEnv.columnInt b.total_alerts ≤ exampleEnv.columnInt a.total_alerts ∧
              (exampleEnv.columnInt a.total_alerts = exampleEnv.columnInt b.total_alerts →
                exampleEnv.addressLe a.ip_address b.ip_address = true))) := by
  obtain ⟨data, hdata⟩ : ∃ data,
      getDashboard exampleEnv (fun _ => false) 2000 2000 tiedReportStore = .ok data := ⟨_, rfl⟩
  have h := storage_alerts_listed_and_ordered exampleEnv (fun _ => false) 2000 2000
    tiedReportStore data exampleEnv_order hdata
  refine ⟨data, hdata, ?_, h.2.2.1⟩
  have h2 : getDashboard exampleEnv (fun _ => false) 2000 2000 tiedReportStore = .ok _ := rfl
  rw [h2] at hdata
  cases hdata
  decide

/-! ## Per-server history (C14) -/

theorem toText_24 (env : JSEnv) : (JSNum.fin 24).toText env = "24" := by
  unfold JSNum.toText
  have h1 : (24 : ℚ).den = 1 := rfl
  have h2 : (24 : ℚ).num = 24 := rfl
  simp only [h1, h2]
  rw [if_pos (by decide)]
  decide

theorem historyRows_perm (key dbNow : Int) (n : Nat) (db : Store) :
    (historyRows key dbNow n db).Perm
      ((db.health_metrics.filter fun hm => decide (InHistoryWindow key dbNow n hm)).map
        historySelect) := by
  unfold historyRows
  refine (List.perm_insertionSort _ _).trans ?_
  have : (fun hm : HealthMetricRow => decide ((hm.server_id : Int) = key) &&
        decide (hm.timestamp > dbNow - (n : Int) * 3600000)) =
      fun hm => decide (InHistoryWindow key dbNow n hm) := by
    funext hm
    unfold InHistoryWindow
    rw [Bool.decide_and]
    congr 1
    rw [decide_eq_decide]
    constructor <;> intro h <;> omega
  rw [this]

theorem historyRows_sorted (key dbNow : Int) (n : Nat) (db : Store) :
    (historyRows key dbNow n db).Pairwise fun a b => a.timestamp ≤ b.timestamp := by
  unfold historyRows
  haveI : IsTotal HistoryRow (fun a b => a.timestamp ≤ b.timestamp) :=
    ⟨fun a b => le_total a.timestamp b.timestamp⟩
  haveI : IsTrans HistoryRow (fun a b => a.timestamp ≤ b.timestamp) :=
    ⟨fun a b c hab hbc => le_trans hab hbc⟩
  exact List.sorted_insertionSort _ _

/-- The history handler answers 200 with the intended query whenever the caller asks for a
plain number of hours and the store accepts the query. -/
theorem getHistory_requested (env : JSEnv) (engine : SqlEngine) (fails : Nat → Bool)
    (dbNow : Int) (db : Store) (serverId : String) (hours : JSVal) (n : Nat)
    (hf : fails 0 = false) (hh : RequestedHours hours n) :
    getHistory env engine fails dbNow db serverId hours =
      .ok (historyRows (env.columnInt (.str serverId)) dbNow n db) := by
  unfold getHistory
  rcases hh with ⟨rfl, rfl⟩ | ⟨s, rfl, hs⟩
  · have h24 : decimalValue ("24" : String).data = some 24 := by decide
    simp [JSVal.toTemplateText, toText_24, hf, h24]
  · simp [JSVal.toTemplateText, hf, hs]

/-- C14: for a look-back window of `n` hours (24 when the caller gives none) the history
handler returns exactly the samples of the requested server whose timestamp lies within
the last `n` hours, each once, ordered by timestamp oldest first, and no sample of another
server. -/
theorem history_window_and_order (env : JSEnv) (engine : SqlEngine) (fails : Nat → Bool)
    (dbNow : Int) (db : Store) (serverId : String) (hours : JSVal) (n : Nat)
    (hf : fails 0 = false) (hh : RequestedHours hours n) :
    ∃ rows, getHistory env engine fails dbNow db serverId hours = .ok rows ∧
      rows.Perm
        ((db.health_metrics.filter fun hm =>
            decide (InHistoryWindow (env.columnInt (.str serverId)) dbNow n hm)).map
          historySelect) ∧
      rows.Pairwise (fun a b => a.timestamp ≤ b.timestamp) ∧
      ∀ r ∈ rows, ∃ hm ∈ db.health_metrics,
        (hm.server_id : Int) = env.columnInt (.str serverId) ∧
          dbNow - hm.timestamp < (n : Int) * 3600 * 1000 ∧ r = historySelect hm := by
  refine ⟨_, getHistory_requested env engine fails dbNow db serverId hours n hf hh,
    historyRows_perm _ dbNow n db, historyRows_sorted _ dbNow n db, ?_⟩
  intro r hr
  have hmem := (historyRows_perm (env.columnInt (.str serverId)) dbNow n db).mem_iff.mp hr
  obtain ⟨hm, hfilt, rfl⟩ := List.mem_map.mp hmem
  obtain ⟨hin, hwin⟩ := List.mem_filter.mp hfilt
  have hw : InHistoryWindow (env.columnInt (.str serverId)) dbNow n hm := of_decide_eq_true hwin
  exact ⟨hm, hin, hw.1, hw.2, rfl⟩

/-- C14 on the store with two servers, read at store time 2000 without `hours`: the one
sample of server 1 is returned, none for server 2. -/
theorem history_window_witness :
    RequestedHours .undefined 24 ∧
      (∃ rows, getHistory exampleEnv rejectingEngine (fun _ => false) 2000 twoServerStore "1"
          .undefined = .ok rows ∧ rows.map (fun r => r.timestamp) = [1000]) ∧
      getHistory exampleEnv rejectingEngine (fun _ => false) 2000 twoServerStore "2"
        .undefined = .ok [] := by
  have hh : RequestedHours .undefined 24 := Or.inl ⟨rfl, rfl⟩
  obtain ⟨rows, hrows, hperm, _, _⟩ := history_window_and_order exampleEnv rejectingEngine
    (fun _ => false) 2000 twoServerStore "1" .undefined 24 rfl hh
  obtain ⟨rows2, hrows2, hperm2, _, _⟩ := history_window_and_order exampleEnv rejectingEngine
    (fun _ => false) 2000 twoServerStore "2" .undefined 24 rfl hh
  refine ⟨hh, ⟨rows, hrows, ?_⟩, ?_⟩
  · have hl : ((twoServerStore.health_metrics.filter fun hm =>
          decide (InHistoryWindow (exampleEnv.columnInt (.str "1")) 2000 24 hm)).map
        historySelect).map (fun r => r.timestamp) = [1000] := by decide
    have := (hperm.map fun r => r.timestamp)
    rw [hl] at this
    exact List.perm_singleton.mp this
  · have hl : ((twoServerStore.health_metrics.filter fun hm =>
          decide (InHistoryWindow (exampleEnv.columnInt (.str "2")) 2000 24 hm)).map
        historySelect) = [] := by decide
    rw [hl] at hperm2
    rw [hrows2, List.perm_nil.mp hperm2]

/-! ## Round trip and accepted bodies (C15, C16) -/

/-- What a 201 answer of `POST /api/metrics` holds: the id of the new row, the store time
and the id of the resolved server; the store after it is the store after registry
resolution with the new row inserted. -/
theorem postMetrics_created_full (env : JSEnv) (fails : Nat → Bool) (now : Int)
    (db db2 : Store) (body : Payload) (m : String) (i : Nat) (t : Int) (sid : Nat)
    (h : postMetrics env fails now db body = (.created m i t sid, db2)) :
    ∃ (db1 : Store) (k : Nat) (errs : List String),
      validateMetrics body = [] ∧
      resolveServer env fails db body.server_ip = (.ok sid, db1, k) ∧
      thresholdErrors env body = .ok errs ∧
      i = db1.nextMetricId ∧ t = now ∧
      db2 = db1.insertHealthMetric
        (metricRow body db1.nextMetricId sid now
          (finalError body (autoErrorMessage errs)).1
          (finalError body (autoErrorMessage errs)).2) := by
  obtain ⟨serverId, db1, k, errs, hv, hr, ht, hdb⟩ :=
    postMetrics_created env fails now db db2 body _ h rfl
  have hlen : ¬ (validateMetrics body).length > 0 := by rw [hv]; simp
  unfold postMetrics at h
  simp only [hlen, if_false, hr, ht] at h
  by_cases hf : fails k = true
  · simp only [hf, if_true] at h
    cases h
  · simp only [hf] at h
    simp only [Bool.false_eq_true, if_false, Prod.mk.injEq, Response.created.injEq] at h
    obtain ⟨⟨_, hi, ht2, hsid⟩, _⟩ := h
    subst hsid
    exact ⟨db1, k, errs, hv, hr, ht, hi.symm, ht2.symm, hdb⟩

/-- After a sample was accepted, the history of the returned server over a window that
reaches back to the insert holds a row with the stored values: the three usages as
submitted, every optional field as submitted when it is truthy and null otherwise. -/
theorem history_after_record (env : JSEnv) (engine : SqlEngine) (fails readFails : Nat → Bool)
    (now dbNow : Int) (db db2 : Store) (body : Payload) (m : String) (i : Nat) (t : Int)
    (sid : Nat) (serverId : String) (hours : JSVal) (n : Nat)
    (h : postMetrics env fails now db body = (.created m i t sid, db2))
    (hid : env.columnInt (.str serverId) = sid) (hf : readFails 0 = false)
    (hh : RequestedHours hours n) (hwin : dbNow - now < (n : Int) * 3600 * 1000) :
    ∃ rows errs, getHistory env engine readFails dbNow db2 serverId hours = .ok rows ∧
      thresholdErrors env body = .ok errs ∧
      ({ timestamp := now, cpu_usage := body.cpu_usage, memory_usage := body.memory_usage,
         disk_usage := body.disk_usage, load_average := body.load_average.or .null,
         network_rx := body.network_rx.or .null, network_tx := body.network_tx.or .null,
         is_error := (body.error_message.or (autoErrorMessage errs)).truthy,
         error_message := body.error_message.or (autoErrorMessage errs) } : HistoryRow)
        ∈ rows := by
  obtain ⟨db1, k, errs, _, _, ht, _, _, hdb⟩ :=
    postMetrics_created_full env fails now db db2 body m i t sid h
  refine ⟨_, errs, getHistory_requested env engine readFails dbNow db2 serverId hours n hf hh,
    ht, ?_⟩
  rw [(historyRows_perm _ dbNow n db2).mem_iff, List.mem_map]
  refine ⟨metricRow body db1.nextMetricId sid now
      (finalError body (autoErrorMessage errs)).1
      (finalError body (autoErrorMessage errs)).2, ?_, rfl⟩
  rw [List.mem_filter]
  constructor
  · rw [hdb, insertHealthMetric_health_metrics]
    exact List.mem_append_right _ (List.mem_singleton.mpr rfl)
  · apply decide_eq_true
    exact ⟨by rw [hid]; rfl, hwin⟩

/-- C15, at the body with load average and network rates 0, stored into the empty store
and read back at once: the sample is accepted and its history row holds null, not 0, for
`load_average`, `network_rx` and `network_tx`. -/
theorem zero_field_changes_in_round_trip :
    validateMetrics zeroFieldBody = [] ∧
      zeroFieldBody.load_average = .num 0 ∧ zeroFieldBody.network_rx = .num 0 ∧
      zeroFieldBody.network_tx = .num 0 ∧
      ∃ db2, postMetrics exampleEnv (fun _ => false) 1000 Store.empty zeroFieldBody =
          (.created msgMetricsSaved 1 1000 1, db2) ∧
        getHistory exampleEnv rejectingEngine (fun _ => false) 1000 db2 "1" .undefined =
          .ok [{ timestamp := 1000, cpu_usage := .num 50, memory_usage := .num 50,
                 disk_usage := .num 40, load_average := .null, network_rx := .null,
                 network_tx := .null, is_error := false, error_message := .null }] := by
  refine ⟨by decide, rfl, rfl, rfl, _, rfl, ?_⟩
  rw [getHistory_requested exampleEnv rejectingEngine (fun _ => false) 1000 _ "1" .undefined 24
    rfl (Or.inl ⟨rfl, rfl⟩)]
  rfl

theorem thresholdErrors_textLoad (env : JSEnv) (h9 : env.stringToNumber "9" = .fin 9) :
    thresholdErrors env textLoadBody = .error .typeError := by
  have hge : (JSVal.str "9").ge env 8 = .ok true := by
    simp [JSVal.ge, JSVal.toNumber, h9, JSNum.ge]
    norm_num
  rw [thresholdErrors_num env textLoadBody 97 50 40 rfl rfl rfl]
  have : loadFault env textLoadBody.load_average = .error .typeError := by
    show loadFault env (JSVal.str "9") = _
    unfold loadFault
    simp [JSVal.truthy, hge, JSVal.toFixed, Except.map]
  rw [this]
  rfl

/-- C16, at two bodies that pass validation, with a store that accepts every query: the
body with the load average `"9"` raises in the classifier (`toFixed` on a string), the
body with the address 5 raises in registry resolution (`split` on a number); both are
answered with the internal error. -/
theorem valid_body_ends_in_internal_error (env : JSEnv) (now : Int) (db : Store)
    (h9 : env.stringToNumber "9" = .fin 9) :
    validateMetrics textLoadBody = [] ∧
      (postMetrics env (fun _ => false) now db textLoadBody).1 =
        internalError msgMetricsFailed ∧
      validateMetrics numericAddressBody = [] ∧
      postMetrics env (fun _ => false) now Store.empty numericAddressBody =
        (internalError msgMetricsFailed, Store.empty) := by
  have hv : validateMetrics textLoadBody = [] := by decide
  have hv2 : validateMetrics numericAddressBody = [] := by decide
  refine ⟨hv, ?_, hv2, ?_⟩
  · unfold postMetrics
    simp only [hv, thresholdErrors_textLoad env h9]
    rcases resolveServer env (fun _ => false) db textLoadBody.server_ip with ⟨r, db1, k⟩
    cases r <;> rfl
  · unfold postMetrics
    simp only [hv2]
    rfl

/-- C16 on the example environment and the empty store. -/
theorem valid_body_internal_error_witness :
    exampleEnv.stringToNumber "9" = .fin 9 ∧
      (postMetrics exampleEnv (fun _ => false) 0 Store.empty textLoadBody).1.status = 500 ∧
      (postMetrics exampleEnv (fun _ => false) 0 Store.empty numericAddressBody).1.status
        = 500 := by
  have h := valid_body_ends_in_internal_error exampleEnv 0 Store.empty (by decide)
  refine ⟨by decide, ?_, ?_⟩
  · rw [h.2.1]; rfl
  · rw [h.2.2.2]; rfl

/-! ## Snapshot after a stored sample (C17) -/

theorem resolveServer_ok_mem (env : JSEnv) (fails : Nat → Bool) (db db1 : Store) (ip : JSVal)
    (sid k : Nat) (h : resolveServer env fails db ip = (.ok sid, db1, k)) :
    ∃ s ∈ db1.servers, s.id = sid := by
  unfold resolveServer at h
  split at h
  · cases h
  · split at h
    · split at h
      · cases h
      · split at h
        · cases h
        · simp only [Prod.mk.injEq, Except.ok.injEq] at h
          obtain ⟨hsid, hdb, _⟩ := h
          subst hdb
          refine ⟨_, List.mem_append_right _ (List.mem_singleton.mpr rfl), hsid⟩
    · rename_i row rest hfilter
      simp only [Prod.mk.injEq, Except.ok.injEq] at h
      obtain ⟨hsid, hdb, _⟩ := h
      subst hdb
      have hmem : row ∈ db.servers.filter (fun s => s.ip_address == pgText env ip) := by
        rw [hfilter]; exact List.mem_cons_self _ _
      exact ⟨row, (List.mem_filter.mp hmem).1, hsid⟩

theorem insertHealthMetric_current (db : Store) (row : HealthMetricRow) :
    (db.insertHealthMetric row).current_metrics =
      db.current_metrics.filter (fun c => c.server_id != row.server_id) ++ [snapshotOf row] :=
  rfl

theorem insertHealthMetric_servers (db : Store) (row : HealthMetricRow) :
    (db.insertHealthMetric row).servers = db.servers := rfl

theorem current_after_insert (db : Store) (row : HealthMetricRow) :
    (db.insertHealthMetric row).current_metrics.filter
      (fun cm => cm.server_id == row.server_id) = [snapshotOf row] := by
  rw [insertHealthMetric_current, List.filter_append, List.filter_filter]
  have h1 : (db.current_metrics.filter fun a =>
      (a.server_id == row.server_id && a.server_id != row.server_id)) = [] := by
    rw [List.filter_eq_nil_iff]
    intro a _
    cases h : a.server_id == row.server_id <;> simp [bne, h]
  rw [h1]
  simp [snapshotOf]

theorem mem_serversQuery_of_server (env : JSEnv) (db : Store) (s : ServerRow)
    (hs : s ∈ db.servers) : ∃ r ∈ serversQuery env db, r.id = s.id := by
  obtain ⟨o, ho⟩ := leftJoin_exists db.servers db.current_metrics
    (fun s cm => s.id == cm.server_id) s hs
  refine ⟨serversSelect (s, o), (mem_serversQuery env db _).mpr ⟨(s, o), ho, rfl⟩, ?_⟩
  cases o <;> rfl

/-- C17: after a sample was accepted for a server, `current_metrics` holds for that server
exactly one row, with the values and the timestamp of the sample just stored, and a fleet
list read less than 25 hours of application time after the insert shows the server, with
`is_online` true. -/
theorem snapshot_reflects_stored_sample (env : JSEnv) (fails : Nat → Bool) (now : Int)
    (db db2 : Store) (body : Payload) (m : String) (i : Nat) (t : Int) (sid : Nat)
    (h : postMetrics env fails now db body = (.created m i t sid, db2)) :
    (∃ row ∈ db2.health_metrics, row.id = i ∧ row.server_id = sid ∧ row.timestamp = now ∧
      row.timestamp = t ∧
      db2.current_metrics.filter (fun cm => cm.server_id == sid) = [snapshotOf row]) ∧
    ∀ (appNow : Int) (fl : List FleetRow), appNow - now < 25 * 3600 * 1000 →
      fleetServers env appNow db2 = .ok fl →
        (∃ r ∈ fl, r.id = sid) ∧
        ∀ r ∈ fl, r.id = sid → r.last_update = some now ∧ r.is_online = .bool true := by
  obtain ⟨db1, k, errs, _, hr, _, hi, ht, hdb⟩ :=
    postMetrics_created_full env fails now db db2 body m i t sid h
  have hsidrow : (metricRow body db1.nextMetricId sid now
      (finalError body (autoErrorMessage errs)).1
      (finalError body (autoErrorMessage errs)).2).server_id = sid := rfl
  have htsrow : (metricRow body db1.nextMetricId sid now
      (finalError body (autoErrorMessage errs)).1
      (finalError body (autoErrorMessage errs)).2).timestamp = now := rfl
  have hidrow : (metricRow body db1.nextMetricId sid now
      (finalError body (autoErrorMessage errs)).1
      (finalError body (autoErrorMessage errs)).2).id = db1.nextMetricId := rfl
  generalize metricRow body db1.nextMetricId sid now
      (finalError body (autoErrorMessage errs)).1
      (finalError body (autoErrorMessage errs)).2 = row at hdb hsidrow htsrow hidrow
  have hcur : db2.current_metrics.filter (fun cm => cm.server_id == sid) =
      [snapshotOf row] := by
    rw [hdb, ← hsidrow]
    exact current_after_insert db1 row
  constructor
  · refine ⟨row, ?_, by rw [hidrow, hi], hsidrow, htsrow, by rw [htsrow, ht], hcur⟩
    rw [hdb, insertHealthMetric_health_metrics]
    exact List.mem_append_right _ (List.mem_singleton.mpr rfl)
  · intro appNow fl hfresh hfl
    obtain ⟨hrows, honline⟩ := fleetServers_rows env appNow db2 fl hfl
    constructor
    · obtain ⟨s, hs, hsid⟩ := resolveServer_ok_mem env fails db db1 _ sid k hr
      have hs2 : s ∈ db2.servers := by
        rw [hdb, insertHealthMetric_servers]; exact hs
      obtain ⟨q, hq, hqid⟩ := mem_serversQuery_of_server env db2 s hs2
      rw [← hrows] at hq
      obtain ⟨r, hr2, rfl⟩ := List.mem_map.mp hq
      exact ⟨r, hr2, by rw [← hsid]; exact hqid⟩
    · intro r hr2 hrid
      have hq : r.toServersQueryRow ∈ serversQuery env db2 := by
        rw [← hrows]
        exact List.mem_map_of_mem _ hr2
      have hnew : snapshotOf row ∈ db2.current_metrics := by
        have : snapshotOf row ∈
            db2.current_metrics.filter (fun cm => cm.server_id == sid) := by
          rw [hcur]; exact List.mem_singleton.mpr rfl
        exact (List.mem_filter.mp this).1
      have hlast : r.last_update = some now := by
        rcases serversQuery_last_update env db2 _ hq with ⟨_, hnone⟩ | ⟨cm, hcm, hcid, hts⟩
        · exact absurd (show (snapshotOf row).server_id = r.id from
            hsidrow.trans hrid.symm) (hnone _ hnew)
        · have hin : cm ∈ db2.current_metrics.filter (fun cm => cm.server_id == sid) :=
            List.mem_filter.mpr ⟨hcm, beq_iff_eq.mpr (hcid.trans hrid)⟩
          rw [hcur] at hin
          rw [hts, List.mem_singleton.mp hin]
          exact congrArg some htsrow
      refine ⟨hlast, ?_⟩
      rw [honline r hr2, hlast]
      simp only [isOnline]
      congr 1
      rw [decide_eq_true_eq]
      omega

/-- C17 at the body with CPU = 50 stored into the empty store at time 1000 and read at
application time 2000. -/
theorem snapshot_reflects_witness :
    ∃ db2 fl, postMetrics exampleEnv (fun _ => false) 1000 Store.empty (sampleBody 50 50 40) =
        (.created msgMetricsSaved 1 1000 1, db2) ∧
      fleetServers exampleEnv 2000 db2 = .ok fl ∧
      ∀ r ∈ fl, r.id = 1 → r.last_update = some 1000 ∧ r.is_online = .bool true := by
  obtain ⟨db2, hpost⟩ : ∃ db2,
      postMetrics exampleEnv (fun _ => false) 1000 Store.empty (sampleBody 50 50 40) =
        (.created msgMetricsSaved 1 1000 1, db2) := ⟨_, rfl⟩
  obtain ⟨fl, hfl⟩ : ∃ fl, fleetServers exampleEnv 2000 db2 = .ok fl := by
    have h2 : postMetrics exampleEnv (fun _ => false) 1000 Store.empty (sampleBody 50 50 40) =
        (_, _) := rfl
    rw [h2] at hpost
    cases hpost
    exact ⟨_, rfl⟩
  have h := snapshot_reflects_stored_sample exampleEnv (fun _ => false) 1000 Store.empty db2
    (sampleBody 50 50 40) msgMetricsSaved 1 1000 1 hpost
  exact ⟨db2, fl, hpost, hfl, (h.2 2000 fl (by decide) hfl).2⟩

/-! ## Display name of a new server (C18) -/

theorem splitChars_ne_nil (sep : Char) : ∀ cs : List Char, splitChars sep cs ≠ []
  | [] => by simp [splitChars]
  | c :: cs => by
    unfold splitChars
    split
    · simp
    · split <;> simp

theorem splitChars_no_sep (sep : Char) :
    ∀ (cs : List Char), ∀ seg ∈ splitChars sep cs, sep ∉ seg
  | [], seg, h => by
    simp only [splitChars, List.mem_singleton] at h
    subst h
    exact List.not_mem_nil _
  | c :: cs, seg, h => by
    have ih := splitChars_no_sep sep cs
    unfold splitChars at h
    split at h
    · rcases List.mem_cons.mp h with h | h
      · subst h; exact List.not_mem_nil _
      · exact ih seg h
    · rename_i hne
      split at h
      · rename_i hnil
        exact absurd hnil (splitChars_ne_nil sep cs)
      · rename_i first rest hsplit
        rcases List.mem_cons.mp h with h | h
        · subst h
          intro hmem
          rcases List.mem_cons.mp hmem with hm | hm
          · exact hne hm.symm
          · exact ih first (by rw [hsplit]; exact List.mem_cons_self _ _) hm
        · exact ih seg (by rw [hsplit]; exact List.mem_cons_of_mem _ h)

theorem splitChars_of_no_sep (sep : Char) :
    ∀ cs : List Char, sep ∉ cs → splitChars sep cs = [cs]
  | [], _ => rfl
  | c :: cs, h => by
    have hc : ¬ c = sep := fun hc => h (by rw [hc]; exact List.mem_cons_self _ _)
    have ih := splitChars_of_no_sep sep cs fun hm => h (List.mem_cons_of_mem _ hm)
    unfold splitChars
    rw [if_neg hc, ih]

theorem getLastD_mem {α : Type} (l : List α) (d : α) (h : l ≠ []) : l.getLastD d ∈ l := by
  cases l with
  | nil => exact absurd rfl h
  | cons a l =>
    rw [List.getLastD_cons]
    exact List.getLastD_mem_cons l a

theorem lastSegment_no_dot (s : String) : '.' ∉ (lastSegment s).data := by
  unfold lastSegment
  exact splitChars_no_sep '.' s.data _ (getLastD_mem _ _ (splitChars_ne_nil '.' s.data))

theorem lastSegment_of_no_dot (s : String) (h : '.' ∉ s.data) : lastSegment s = s := by
  unfold lastSegment
  rw [splitChars_of_no_sep '.' s.data h]
  rfl

theorem resolveServer_unseen (env : JSEnv) (fails : Nat → Bool) (db : Store) (s : String)
    (hunseen : ∀ row ∈ db.servers, row.ip_address ≠ s)
    (hf0 : fails 0 = false) (hf1 : fails 1 = false) :
    resolveServer env fails db (.str s) =
      (.ok db.nextServerId, db.insertServer s ("server-" ++ lastSegment s), 2) := by
  have hfilter : db.servers.filter (fun row => row.ip_address == pgText env (.str s)) = [] := by
    rw [List.filter_eq_nil_iff]
    intro row hrow
    simp [pgText, hunseen row hrow]
  unfold resolveServer
  rw [hfilter]
  simp [hf0, hf1, defaultHostname, pgText]

theorem postMetrics_servers (env : JSEnv) (fails : Nat → Bool) (now : Int) (db : Store)
    (body : Payload) (hv : validateMetrics body = []) :
    (postMetrics env fails now db body).2.servers =
      (resolveServer env fails db body.server_ip).2.1.servers := by
  unfold postMetrics
  simp only [hv, List.length_nil, gt_iff_lt, lt_self_iff_false, if_false]
  rcases resolveServer env fails db body.server_ip with ⟨r, db1, k⟩
  cases r with
  | error e => rfl
  | ok sid =>
    simp only
    cases thresholdErrors env body with
    | error e => rfl
    | ok errs =>
      simp only
      split <;> rfl

theorem postStorage_servers (env : JSEnv) (fails : Nat → Bool) (now : Int) (db : Store)
    (body : StoragePayload) (hv : body.server_ip.truthy = true) :
    (postStorage env fails now db body).2.servers =
      (resolveServer env fails db body.server_ip).2.1.servers := by
  unfold postStorage
  simp only [hv, Bool.not_true, Bool.false_eq_true, if_false]
  rcases resolveServer env fails db body.server_ip with ⟨r, db1, k⟩
  cases r with
  | error e => rfl
  | ok sid =>
    simp only
    split <;> rfl

/-- C18: for an address that is a non-empty string no row of `servers` carries, and a
store that accepts the lookup and the insert, both ingestors create one server row, with
the display name `server-` followed by the last dot-separated segment of the address.
That segment holds no dot, it is the whole address when the address has no dot, and for
`10.0.0.42` the name is `server-42`. -/
theorem new_server_named_after_last_segment (env : JSEnv) (fails : Nat → Bool) (now : Int)
    (db : Store) (body : Payload) (sbody : StoragePayload) (s : String)
    (hne : s ≠ "") (hunseen : ∀ row ∈ db.servers, row.ip_address ≠ s)
    (hf0 : fails 0 = false) (hf1 : fails 1 = false)
    (hv : validateMetrics body = []) (hbody : body.server_ip = .str s)
    (hsbody : sbody.server_ip = .str s) :
    (postMetrics env fails now db body).2.servers =
        db.servers ++ [newServerRow db s ("server-" ++ lastSegment s)] ∧
      (postStorage env fails now db sbody).2.servers =
        db.servers ++ [newServerRow db s ("server-" ++ lastSegment s)] ∧
      '.' ∉ (lastSegment s).data ∧
      ('.' ∉ s.data → lastSegment s = s) ∧
      "server-" ++ lastSegment "10.0.0.42" = "server-42" := by
  have hres := resolveServer_unseen env fails db s hunseen hf0 hf1
  refine ⟨?_, ?_, lastSegment_no_dot s, lastSegment_of_no_dot s, by decide⟩
  · rw [postMetrics_servers env fails now db body hv, hbody, hres]
    rfl
  · have ht : sbody.server_ip.truthy = true := by
      rw [hsbody]
      simp [JSVal.truthy, hne]
    rw [postStorage_servers env fails now db sbody ht, hsbody, hres]
    rfl

/-- C18 at the address `192.168.1.10` on the empty store. -/
theorem new_server_named_witness :
    (postMetrics exampleEnv (fun _ => false) 0 Store.empty (sampleBody 50 50 40)).2.servers =
        [newServerRow Store.empty "192.168.1.10" "server-10"] ∧
      (postStorage exampleEnv (fun _ => false) 0 Store.empty
        (storageBodyFor "192.168.1.10")).2.servers =
        [newServerRow Store.empty "192.168.1.10" "server-10"] := by
  have h := new_server_named_after_last_segment exampleEnv (fun _ => false) 0 Store.empty
    (sampleBody 50 50 40) (storageBodyFor "192.168.1.10") "192.168.1.10" (by decide)
    (fun row hrow => by cases hrow) rfl rfl (by decide) rfl rfl
  have hl : lastSegment "192.168.1.10" = "10" := by decide
  rw [hl] at h
  exact ⟨h.1, h.2.1⟩

/-! ## Stored storage report (C19) -/

theorem resolveServer_storage_health (env : JSEnv) (fails : Nat → Bool) (db : Store)
    (ip : JSVal) : (resolveServer env fails db ip).2.1.storage_health = db.storage_health := by
  unfold resolveServer
  split
  · rfl
  · split
    · split
      · rfl
      · split <;> rfl
    · rfl

/-- What a 201 answer of `POST /api/storage` means: the address was given, the server was
resolved, and the row built from the body was appended. -/
theorem postStorage_created (env : JSEnv) (fails : Nat → Bool) (now : Int) (db db2 : Store)
    (body : StoragePayload) (resp : Response)
    (h : postStorage env fails now db body = (resp, db2)) (hs : resp.status = 201) :
    Given body.server_ip ∧
      ∃ (sid rid : Nat), db2.storage_health =
        db.storage_health ++ [storageRow env body rid sid now] := by
  unfold postStorage at h
  by_cases ht : body.server_ip.truthy = true
  · simp only [ht, Bool.not_true, Bool.false_eq_true, if_false] at h
    refine ⟨(truthy_iff_given _).mp ht, ?_⟩
    have hsh := resolveServer_storage_health env fails db body.server_ip
    rcases hr : resolveServer env fails db body.server_ip with ⟨r, db1, k⟩
    rw [hr] at h hsh
    cases r with
    | error e =>
      simp only at h
      cases h
      cases hs
    | ok sid =>
      simp only at h
      by_cases hf : fails k = true
      · simp only [hf, if_true] at h
        cases h
        cases hs
      · simp only [hf] at h
        cases h
        refine ⟨sid, db1.nextStorageId, ?_⟩
        show db1.storage_health ++ _ = _
        rw [show db1.storage_health = db.storage_health from hsh]
  · simp only [ht, Bool.not_false, if_true] at h
    cases h
    cases hs

theorem or_of_given (v d : JSVal) (h : Given v) : v.or d = v := by
  unfold JSVal.or
  rw [if_pos ((truthy_iff_given v).mpr h)]

theorem or_of_not_given (v d : JSVal) (h : ¬ Given v) : v.or d = d := by
  unfold JSVal.or
  rw [if_neg fun ht => h ((truthy_iff_given v).mp ht)]

theorem not_given_of_absent (v : JSVal) (h : Absent v) : ¬ Given v := by
  rcases h with rfl | rfl <;> decide

theorem stringifyOrNull_absent (env : JSEnv) (v : JSVal) (h : Absent v) :
    stringifyOrNull env v = .null := by
  rcases h with rfl | rfl <;> rfl

theorem notFalse_eq_false_iff (v : JSVal) : v.notFalse = false ↔ v = .bool false := by
  unfold JSVal.notFalse
  rw [decide_eq_false_iff_not, not_not]

/-- C19: an accepted storage report (the handler answered 201) appends one row in which
each alert count is the value of the body when one is given and 0 otherwise (so a
submitted number, 0 included, is stored as it is), each of the four status flags is false
exactly when the body sets it to `false`, and every absent structured field is null. -/
theorem storage_report_defaults (env : JSEnv) (fails : Nat → Bool) (now : Int)
    (db db2 : Store) (body : StoragePayload) (resp : Response)
    (h : postStorage env fails now db body = (resp, db2)) (hs : resp.status = 201) :
    ∃ row : StorageHealthRow, db2.storage_health = db.storage_health ++ [row] ∧
      (row.total_alerts = if Given body.total_alerts then body.total_alerts else .num 0) ∧
      (row.critical_alerts =
        if Given body.critical_alerts then body.critical_alerts else .num 0) ∧
      (row.warning_alerts =
        if Given body.warning_alerts then body.warning_alerts else .num 0) ∧
      (∀ q : ℚ, body.total_alerts = .num q → row.total_alerts = .num q) ∧
      (∀ q : ℚ, body.critical_alerts = .num q → row.critical_alerts = .num q) ∧
      (∀ q : ℚ, body.warning_alerts = .num q → row.warning_alerts = .num q) ∧
      (row.raid_status = false ↔ body.raid_status = .bool false) ∧
      (row.smart_status = false ↔ body.smart_status = .bool false) ∧
      (row.filesystem_status = false ↔ body.filesystem_status = .bool false) ∧
      (row.network_status = false ↔ body.network_status = .bool false) ∧
      (Absent body.critical_disk_mount → row.critical_disk_mount = .null) ∧
      (Absent body.critical_disk_usage → row.critical_disk_usage = .null) ∧
      (Absent body.disks_over_threshold → row.disks_over_threshold = .null) ∧
      (Absent body.top_folders → row.top_folders = .null) ∧
      (Absent body.iowait_percent → row.iowait_percent = .null) ∧
      (Absent body.summary → row.summary = .null) ∧
      (Absent body.full_report → row.full_report = .null) := by
  obtain ⟨_, sid, rid, hrows⟩ := postStorage_created env fails now db db2 body resp h hs
  have hcount : ∀ v : JSVal, v.or (.num 0) = if Given v then v else .num 0 := by
    intro v
    by_cases hg : Given v
    · rw [or_of_given v _ hg, if_pos hg]
    · rw [or_of_not_given v _ hg, if_neg hg]
  have hnum : ∀ (v : JSVal) (q : ℚ), v = .num q → v.or (.num 0) = .num q := by
    intro v q hv
    subst hv
    unfold JSVal.or
    by_cases hq : q = 0
    · subst hq; rfl
    · simp [JSVal.truthy, hq]
  have hnull : ∀ v : JSVal, Absent v → v.or .null = .null := fun v hv =>
    or_of_not_given v _ (not_given_of_absent v hv)
  exact ⟨storageRow env body rid sid now, hrows, hcount _, hcount _, hcount _,
    hnum _, hnum _, hnum _,
    notFalse_eq_false_iff _, notFalse_eq_false_iff _, notFalse_eq_false_iff _,
    notFalse_eq_false_iff _, hnull _, hnull _, stringifyOrNull_absent env _,
    stringifyOrNull_absent env _, hnull _, hnull _, stringifyOrNull_absent env _⟩

/-- C19 at a report for `10.0.0.9` that gives no count and sets `raid_status` to false:
the counts are stored as 0, `raid_status` as false, `smart_status` as true. -/
theorem storage_report_defaults_witness :
    ∃ row : StorageHealthRow,
      (postStorage exampleEnv (fun _ => false) 0 Store.empty raidFailedBody).2.storage_health
        = [row] ∧
      row.total_alerts = .num 0 ∧ row.raid_status = false ∧ row.smart_status = true ∧
      row.summary = .null := by
  obtain ⟨row, hrows, htotal, _, _, _, _, _, hraid, hsmart, _, _, _, _, _, _, _, hsum, _⟩ :=
    storage_report_defaults exampleEnv (fun _ => false) 0 Store.empty _ raidFailedBody _
      rfl rfl
  refine ⟨row, hrows, ?_, hraid.mpr rfl, ?_, hsum (Or.inl rfl)⟩
  · rw [htotal]; decide
  · cases hsm : row.smart_status
    · exact absurd (hsmart.mp hsm) (by decide)
    · rfl

/-! ## Uptime text (C20) -/

theorem roundHalfEven_ge (x : ℚ) (m : ℤ) (h : (m : ℚ) ≤ x) : m ≤ roundHalfEven x := by
  have hf : m ≤ ⌊x⌋ := Int.le_floor.mpr h
  unfold roundHalfEven
  simp only
  split_ifs <;> omega

theorem roundHalfEven_le (x : ℚ) : (roundHalfEven x : ℚ) ≤ x + 1 / 2 := by
  have hf : (⌊x⌋ : ℚ) ≤ x := Int.floor_le x
  unfold roundHalfEven
  simp only
  split_ifs with h1 h2 h3
  · linarith
  · push_cast; linarith
  · linarith
  · push_cast
    have : x - ⌊x⌋ = 1 / 2 := le_antisymm (not_lt.mp h2) (not_lt.mp h1)
    linarith

/-- Between a natural number `N` and `N + 1 - 1/k`, below `2^53 / k`, rounding to a double
does not leave the unit interval of `N`. -/
theorem floor_roundDouble_between (q : ℚ) (N k : ℕ) (hk : 0 < k) (hq : 0 < q)
    (hlt : q * k < 2 ^ 53) (hn : (N : ℚ) ≤ q) (hup : q + 1 / k ≤ (N : ℚ) + 1) :
    ⌊roundDouble q⌋ = (N : ℤ) := by
  have hkq : (0 : ℚ) < k := by exact_mod_cast hk
  have hk1 : (1 : ℚ) ≤ k := by exact_mod_cast hk
  unfold roundDouble
  rw [if_neg (ne_of_gt hq), abs_of_pos hq]
  set e := Int.log 2 q with he
  have hle : (2 : ℚ) ^ e ≤ q := by
    have := Int.zpow_log_le_self (b := 2) (by norm_num) hq
    simpa using this
  have hqlt : q < (2 : ℚ) ^ (53 : ℤ) := by
    have : ((2 : ℚ) ^ (53 : ℤ)) = 2 ^ 53 := by norm_num
    rw [this]
    nlinarith
  have he52 : e ≤ 52 := by
    have := (Int.lt_zpow_iff_log_lt (b := 2) (by norm_num) hq).mp (by simpa using hqlt)
    omega
  set ulp : ℚ := (2 : ℚ) ^ (e - 52) with hulp
  have hulppos : 0 < ulp := zpow_pos (by norm_num) _
  obtain ⟨j, hj⟩ : ∃ j : ℕ, ulp * (2 : ℚ) ^ j = 1 := by
    refine ⟨(52 - e).toNat, ?_⟩
    rw [hulp, ← zpow_natCast, Int.toNat_of_nonneg (by omega), ← zpow_add₀ (by norm_num)]
    have : e - 52 + (52 - e) = 0 := by ring
    rw [this, zpow_zero]
  have hgrid : (((N * 2 ^ j : ℕ) : ℤ) : ℚ) * ulp = (N : ℚ) := by
    rw [Int.cast_natCast, Nat.cast_mul, Nat.cast_pow, Nat.cast_ofNat, mul_assoc,
      mul_comm ((2 : ℚ) ^ j), hj, mul_one]
  rw [Int.floor_eq_iff]
  constructor
  · have hm : ((N * 2 ^ j : ℕ) : ℤ) ≤ roundHalfEven (q / ulp) := by
      apply roundHalfEven_ge
      rw [le_div_iff₀ hulppos, hgrid]
      exact hn
    have hm2 : (((N * 2 ^ j : ℕ) : ℤ) : ℚ) * ulp ≤ (roundHalfEven (q / ulp) : ℚ) * ulp :=
      mul_le_mul_of_nonneg_right (by exact_mod_cast hm) (le_of_lt hulppos)
    rw [hgrid] at hm2
    rw [Int.cast_natCast]
    exact hm2
  · have h1 := roundHalfEven_le (q / ulp)
    have h2 : (roundHalfEven (q / ulp) : ℚ) * ulp ≤ q + ulp / 2 := by
      have := mul_le_mul_of_nonneg_right h1 (le_of_lt hulppos)
      rw [add_mul, div_mul_cancel₀ _ (ne_of_gt hulppos)] at this
      linarith
    have h3 : ulp / 2 < 1 / k := by
      have hu : ulp = (2 : ℚ) ^ e / 2 ^ 52 := by
        rw [hulp, zpow_sub₀ (by norm_num)]
        norm_num
      rw [hu, div_div, div_lt_div_iff₀ (by norm_num) hkq]
      nlinarith
    rw [Int.cast_natCast]
    linarith

theorem floor_roundDouble_div (s k : ℕ) (hk : 0 < k) (hs : s < 2 ^ 53) :
    ⌊roundDouble ((s : ℚ) / (k : ℚ))⌋ = ((s / k : ℕ) : ℤ) := by
  have hkq : (0 : ℚ) < k := by exact_mod_cast hk
  by_cases h0 : s = 0
  · subst h0
    simp [roundDouble]
  have hspos : (0 : ℚ) < s := by exact_mod_cast Nat.pos_of_ne_zero h0
  have hmod := Nat.div_add_mod s k
  have hr : s % k < k := Nat.mod_lt s hk
  have h1 : ((k * (s / k) + s % k : ℕ) : ℚ) = s := by rw [hmod]
  have h2 : ((s % k : ℕ) : ℚ) + 1 ≤ k := by exact_mod_cast hr
  rw [Nat.cast_add, Nat.cast_mul] at h1
  apply floor_roundDouble_between _ _ k hk (div_pos hspos hkq)
  · rw [div_mul_cancel₀ _ (ne_of_gt hkq)]
    exact_mod_cast hs
  · exact Nat.cast_div_le
  · rw [← add_div, div_le_iff₀ hkq]
    nlinarith

theorem roundDouble_large :
    roundDouble ((2175469529052182272 : ℚ) / 86400) = 25179045475141 := by
  have hq : (0 : ℚ) < 2175469529052182272 / 86400 := by norm_num
  have hlog : Int.log 2 ((2175469529052182272 : ℚ) / 86400) = 44 := by
    apply le_antisymm
    · have := (Int.lt_zpow_iff_log_lt (b := 2) (by norm_num) hq (x := 45)).mp (by norm_num)
      omega
    · exact (Int.zpow_le_iff_le_log (b := 2) (by norm_num) hq).mp (by norm_num)
  have hfloor : ⌊(2175469529052182272 : ℚ) / 86400 / 2 ^ (44 - 52 : ℤ)⌋ = 6445835641636095 := by
    rw [Int.floor_eq_iff]
    norm_num
  unfold roundDouble
  rw [if_neg (ne_of_gt hq), abs_of_pos hq, hlog]
  unfold roundHalfEven
  simp only [hfloor]
  norm_num

theorem floor_divConst_nat (s k : ℕ) (hk : 0 < k) (hs : s < 2 ^ 53) :
    ((JSNum.fin (s : ℚ)).divConst (k : ℚ)).floor = .fin (((s / k : ℕ) : ℤ) : ℚ) := by
  simp only [JSNum.divConst, JSNum.floor]
  rw [floor_roundDouble_div s k hk hs]

theorem remConst_nat (s k : ℕ) :
    (JSNum.fin (s : ℚ)).remConst (k : ℚ) = .fin ((s % k : ℕ) : ℚ) := by
  simp only [JSNum.remConst]
  rw [if_pos (Nat.cast_nonneg s), Rat.floor_natCast_div_natCast]
  congr 1
  have h3 : ((s : ℤ) / (k : ℤ)) = ((s / k : ℕ) : ℤ) := by norm_cast
  rw [h3]
  have h := Nat.div_add_mod s k
  have h2 : ((k * (s / k) + s % k : ℕ) : ℚ) = (s : ℚ) := by rw [h]
  rw [Nat.cast_add, Nat.cast_mul] at h2
  rw [Int.cast_natCast]
  linarith

theorem gt_zero_nat (n : ℕ) : (JSNum.fin (((n : ℕ) : ℤ) : ℚ)).gt 0 = decide (0 < n) := by
  simp only [JSNum.gt]
  rw [decide_eq_decide]
  norm_cast

theorem toText_nat (env : JSEnv) (n : ℕ) :
    (JSNum.fin (((n : ℕ) : ℤ) : ℚ)).toText env =
      if n < 2 ^ 53 then Nat.repr n else env.numberToString n := by
  simp only [JSNum.toText, Rat.intCast_den, Rat.intCast_num, Int.natAbs_ofNat, true_and]
  by_cases h : n < 2 ^ 53
  · rw [if_pos h, if_pos h, if_neg (by omega)]
    simp
  · rw [if_neg h, if_neg h]
    norm_cast

theorem toText_small (env : JSEnv) (n b : ℕ) (hn : n < b) (hb : b ≤ 2 ^ 53) :
    (JSNum.fin (((n : ℕ) : ℤ) : ℚ)).toText env = Nat.repr n := by
  rw [toText_nat, if_pos (lt_of_lt_of_le hn hb)]

theorem formatUptime_nat (env : JSEnv) (t : ℕ) (ht : t < 2 ^ 53) :
    formatUptime env (.num t) = .ok (uptimeText t) := by
  have e1 : (86400 : ℚ) = ((86400 : ℕ) : ℚ) := by norm_num
  have e2 : (3600 : ℚ) = ((3600 : ℕ) : ℚ) := by norm_num
  have e3 : (60 : ℚ) = ((60 : ℕ) : ℚ) := by norm_num
  have hD : t / 86400 < 2 ^ 53 := lt_of_le_of_lt (Nat.div_le_self _ _) ht
  have hH : t % 86400 / 3600 < 24 := by omega
  have hM : t % 3600 / 60 < 60 := by omega
  have h1 : t % 86400 < 2 ^ 53 := lt_of_le_of_lt (Nat.mod_le _ _) ht
  have h2 : t % 3600 < 2 ^ 53 := lt_of_le_of_lt (Nat.mod_le _ _) ht
  unfold formatUptime uptimeText
  simp only [JSVal.toNumber, bind, Except.bind, pure, Except.pure]
  rw [e1, e2, e3, remConst_nat, remConst_nat, floor_divConst_nat t _ (by norm_num) ht,
    floor_divConst_nat _ _ (by norm_num) h1, floor_divConst_nat _ _ (by norm_num) h2,
    gt_zero_nat, gt_zero_nat, toText_small env _ _ hD (le_refl _),
    toText_small env _ 24 hH (by norm_num), toText_small env _ 60 hM (by norm_num)]
  by_cases hD0 : 0 < t / 86400
  · simp only [hD0, decide_True, if_true]
  · by_cases hH0 : 0 < t % 86400 / 3600
    · simp only [hD0, hH0, decide_True, decide_False, if_true, if_false,
        Bool.false_eq_true]
    · simp only [hD0, hH0, decide_False, if_false, Bool.false_eq_true]

theorem formatUptime_render (env : JSEnv) (q : ℚ) :
    formatUptime env (.num q) = .ok (uptimeRender env (uptimeUnits (.fin q))) := by
  unfold formatUptime uptimeRender uptimeUnits
  simp only [JSVal.toNumber, bind, Except.bind, pure, Except.pure]
  split
  · rfl
  · split <;> rfl

theorem uptimeUnits_nat (s : ℕ) (hs : s < 2 ^ 53) :
    uptimeUnits (.fin (s : ℚ)) =
      (.fin ((s / 86400 : ℕ) : ℚ), .fin ((s % 86400 / 3600 : ℕ) : ℚ),
        .fin ((s % 3600 / 60 : ℕ) : ℚ)) := by
  have e1 : (86400 : ℚ) = ((86400 : ℕ) : ℚ) := by norm_num
  have e2 : (3600 : ℚ) = ((3600 : ℕ) : ℚ) := by norm_num
  have e3 : (60 : ℚ) = ((60 : ℕ) : ℚ) := by norm_num
  have h1 : s % 86400 < 2 ^ 53 := lt_of_le_of_lt (Nat.mod_le _ _) hs
  have h2 : s % 3600 < 2 ^ 53 := lt_of_le_of_lt (Nat.mod_le _ _) hs
  unfold uptimeUnits
  rw [e1, e2, e3, remConst_nat, remConst_nat, floor_divConst_nat s _ (by norm_num) hs,
    floor_divConst_nat _ _ (by norm_num) h1, floor_divConst_nat _ _ (by norm_num) h2]
  simp only [Int.cast_natCast]

/-- At this number of seconds, an exact double above `2^53`, the rounded quotient by 86400
is the next integer above the exact quotient. -/
theorem floor_divConst_large :
    ((JSNum.fin 2175469529052182272).divConst 86400).floor = .fin 25179045475141 := by
  simp only [JSNum.divConst, JSNum.floor]
  rw [roundDouble_large]
  congr 1

theorem uptimeUnits_large :
    uptimeUnits (.fin 2175469529052182272) = (.fin 25179045475141, .fin 23, .fin 57) := by
  have e0 : (2175469529052182272 : ℚ) = ((2175469529052182272 : ℕ) : ℚ) := by norm_num
  have e2 : (3600 : ℚ) = ((3600 : ℕ) : ℚ) := by norm_num
  have e3 : (60 : ℚ) = ((60 : ℕ) : ℚ) := by norm_num
  have e1 : (86400 : ℚ) = ((86400 : ℕ) : ℚ) := by norm_num
  unfold uptimeUnits
  rw [floor_divConst_large]
  rw [e0, e1, e2, e3, remConst_nat, remConst_nat,
    floor_divConst_nat _ _ (by norm_num) (by norm_num),
    floor_divConst_nat _ _ (by norm_num) (by norm_num)]
  norm_num

/-- C20, as amended: for every non-negative integer number of seconds `s` below `2^53`,
`formatUptime` returns the text `Dd Hh Mm` with `D = s / 86400`, `H = (s mod 86400) / 3600`
and `M = (s mod 3600) / 60` (integer divisions), without the days when `D = 0` and without
days and hours when both are 0; for example `3d 4h 12m`, `4h 12m` and `12m`. -/
theorem formatUptime_units (env : JSEnv) (s : ℕ) (hs : s < 2 ^ 53) :
    formatUptime env (.num s) = .ok (uptimeText s) ∧
      formatUptime env (.num (274320 : ℕ)) = .ok "3d 4h 12m" ∧
      formatUptime env (.num (15120 : ℕ)) = .ok "4h 12m" ∧
      formatUptime env (.num (720 : ℕ)) = .ok "12m" := by
  refine ⟨formatUptime_nat env s hs, ?_, ?_, ?_⟩
  · rw [formatUptime_nat env _ (by norm_num)]; rfl
  · rw [formatUptime_nat env _ (by norm_num)]; rfl
  · rw [formatUptime_nat env _ (by norm_num)]; rfl

/-- C20 as amended, at 93784 seconds: one day, two hours, three minutes. -/
theorem formatUptime_units_witness :
    93784 < 2 ^ 53 ∧ formatUptime exampleEnv (.num (93784 : ℕ)) = .ok "1d 2h 3m" := by
  have h := (formatUptime_units exampleEnv 93784 (by norm_num)).1
  refine ⟨by norm_num, ?_⟩
  rw [h]
  rfl

/-- C20 at 2175469529052182272 seconds, a number the JSON body can carry exactly: the
quotient by 86400 is `25179045475140.998…`, its double is `25179045475141`, and
`formatUptime` prints one day more than `floor(s / 86400)`. -/
theorem formatUptime_large_uptime :
    formatUptime exampleEnv (.num 2175469529052182272) = .ok "25179045475141d 23h 57m" ∧
      2175469529052182272 / 86400 = 25179045475140 ∧
      uptimeText 2175469529052182272 = "25179045475140d 23h 57m" := by
  refine ⟨?_, by norm_num, by decide⟩
  rw [formatUptime_render, uptimeUnits_large]
  have hD : (JSNum.fin 25179045475141).toText exampleEnv = "25179045475141" := by
    have h := toText_small exampleEnv 25179045475141 _ (by norm_num) (le_refl (2 ^ 53))
    norm_num at h
    exact h
  have hH : (JSNum.fin 23).toText exampleEnv = "23" := by
    have h := toText_small exampleEnv 23 _ (by norm_num) (le_refl (2 ^ 53))
    norm_num at h
    exact h
  have hM : (JSNum.fin 57).toText exampleEnv = "57" := by
    have h := toText_small exampleEnv 57 _ (by norm_num) (le_refl (2 ^ 53))
    norm_num at h
    exact h
  have hgt : (JSNum.fin 25179045475141).gt 0 = true := by
    simp [JSNum.gt]
  unfold uptimeRender
  simp only [hgt, if_true, hD, hH, hM]
  rfl

/-! ## Outcomes of the ingestion handlers -/

/-- The three ways registry resolution ends: an exception with the store untouched, an
existing row found, or a new row inserted for a string address no row carries. -/
theorem resolveServer_cases (env : JSEnv) (fails : Nat → Bool) (db : Store) (ip : JSVal) :
    (∃ e k, resolveServer env fails db ip = (.error e, db, k)) ∨
    (fails 0 = false ∧ ∃ row rest,
      db.servers.filter (fun s => s.ip_address == pgText env ip) = row :: rest ∧
      resolveServer env fails db ip = (.ok row.id, db, 1)) ∨
    (fails 0 = false ∧ fails 1 = false ∧ ∃ s, ip = .str s ∧
      (∀ row ∈ db.servers, row.ip_address ≠ s) ∧
      resolveServer env fails db ip =
        (.ok db.nextServerId, db.insertServer s ("server-" ++ lastSegment s), 2)) := by
  unfold resolveServer
  by_cases h0 : fails 0 = true
  · left
    exact ⟨.queryError, 1, by simp [h0]⟩
  · have h0f : fails 0 = false := by simpa using h0
    cases hfilter : db.servers.filter (fun s => s.ip_address == pgText env ip) with
    | cons row rest =>
      right; left
      exact ⟨h0f, row, rest, rfl, by simp [h0f]⟩
    | nil =>
      cases ip with
      | str s =>
        by_cases h1 : fails 1 = true
        · left
          exact ⟨.queryError, 2, by simp [h0f, h1, defaultHostname]⟩
        · have h1f : fails 1 = false := by simpa using h1
          right; right
          refine ⟨h0f, h1f, s, rfl, ?_, by simp [h0f, h1f, defaultHostname, pgText]⟩
          intro row hrow heq
          have : row ∈ db.servers.filter (fun s' => s'.ip_address == pgText env (.str s)) :=
            List.mem_filter.mpr ⟨hrow, by simp [pgText, heq]⟩
          rw [hfilter] at this
          cases this
      | _ =>
        left
        exact ⟨.typeError, 1, by simp [h0f, defaultHostname]⟩

/-- The three ways `POST /api/metrics` ends. -/
theorem postMetrics_cases (env : JSEnv) (fails : Nat → Bool) (now : Int) (db : Store)
    (body : Payload) :
    (validateMetrics body ≠ [] ∧
      postMetrics env fails now db body = (.invalid msgInvalid (validateMetrics body), db)) ∨
    (validateMetrics body = [] ∧ ∃ r db1 k,
      resolveServer env fails db body.server_ip = (r, db1, k) ∧
      postMetrics env fails now db body = (internalError msgMetricsFailed, db1)) ∨
    (validateMetrics body = [] ∧ ∃ sid db1 k errs,
      resolveServer env fails db body.server_ip = (.ok sid, db1, k) ∧ fails k = false ∧
      thresholdErrors env body = .ok errs ∧
      postMetrics env fails now db body =
        (.created msgMetricsSaved db1.nextMetricId now sid,
          db1.insertHealthMetric (metricRow body db1.nextMetricId sid now
            (finalError body (autoErrorMessage errs)).1
            (finalError body (autoErrorMessage errs)).2))) := by
  by_cases hv : validateMetrics body = []
  · right
    have hlen : ¬ (validateMetrics body).length > 0 := by rw [hv]; simp
    rcases hr : resolveServer env fails db body.server_ip with ⟨r, db1, k⟩
    cases r with
    | error e =>
      refine Or.inl ⟨hv, .error e, db1, k, rfl, ?_⟩
      unfold postMetrics
      simp only [hlen, if_false, hr]
    | ok sid =>
      cases ht : thresholdErrors env body with
      | error e =>
        refine Or.inl ⟨hv, .ok sid, db1, k, rfl, ?_⟩
        unfold postMetrics
        simp only [hlen, if_false, hr, ht]
      | ok errs =>
        by_cases hf : fails k = true
        · refine Or.inl ⟨hv, .ok sid, db1, k, rfl, ?_⟩
          unfold postMetrics
          simp only [hlen, if_false, hr, ht, hf, if_true]
        · have hff : fails k = false := by simpa using hf
          refine Or.inr ⟨hv, sid, db1, k, errs, rfl, hff, rfl, ?_⟩
          unfold postMetrics
          simp only [hlen, if_false, hr, ht, hff]
          rfl
  · left
    have hlen : (validateMetrics body).length > 0 := List.length_pos.mpr hv
    refine ⟨hv, ?_⟩
    unfold postMetrics
    simp only [hlen, if_true]

/-- The three ways `POST /api/storage` ends. -/
theorem postStorage_cases (env : JSEnv) (fails : Nat → Bool) (now : Int) (db : Store)
    (body : StoragePayload) :
    (body.server_ip.truthy = false ∧
      postStorage env fails now db body = (.invalid msgInvalid [msgIpRequired], db)) ∨
    (body.server_ip.truthy = true ∧ ∃ r db1 k,
      resolveServer env fails db body.server_ip = (r, db1, k) ∧
      postStorage env fails now db body = (internalError msgStorageFailed, db1)) ∨
    (body.server_ip.truthy = true ∧ ∃ sid db1 k,
      resolveServer env fails db body.server_ip = (.ok sid, db1, k) ∧ fails k = false ∧
      postStorage env fails now db body =
        (.created msgStorageSaved db1.nextStorageId now sid,
          db1.insertStorageHealth (storageRow env body db1.nextStorageId sid now))) := by
  by_cases hv : body.server_ip.truthy = true
  · right
    rcases hr : resolveServer env fails db body.server_ip with ⟨r, db1, k⟩
    cases r with
    | error e =>
      refine Or.inl ⟨hv, .error e, db1, k, rfl, ?_⟩
      unfold postStorage
      simp only [hv, Bool.not_true, Bool.false_eq_true, if_false, hr]
    | ok sid =>
      by_cases hf : fails k = true
      · refine Or.inl ⟨hv, .ok sid, db1, k, rfl, ?_⟩
        unfold postStorage
        simp only [hv, Bool.not_true, Bool.false_eq_true, if_false, hr, hf, if_true]
      · have hff : fails k = false := by simpa using hf
        refine Or.inr ⟨hv, sid, db1, k, rfl, hff, ?_⟩
        unfold postStorage
        simp only [hv, Bool.not_true, Bool.false_eq_true, if_false, hr, hff]
        rfl
  · left
    have hvf : body.server_ip.truthy = false := by simpa using hv
    refine ⟨hvf, ?_⟩
    unfold postStorage
    simp [hvf]

theorem resolveServer_ok_cases (env : JSEnv) (fails : Nat → Bool) (db db1 : Store) (ip : JSVal)
    (sid k : Nat) (h : resolveServer env fails db ip = (.ok sid, db1, k)) :
    (fails 0 = false ∧ db1 = db ∧ k = 1 ∧ ∃ row rest,
      db.servers.filter (fun s => s.ip_address == pgText env ip) = row :: rest ∧
      sid = row.id) ∨
    (fails 0 = false ∧ fails 1 = false ∧ k = 2 ∧ ∃ s, ip = .str s ∧
      (∀ row ∈ db.servers, row.ip_address ≠ s) ∧ sid = db.nextServerId ∧
      db1 = db.insertServer s ("server-" ++ lastSegment s)) := by
  rcases resolveServer_cases env fails db ip with ⟨e, k2, he⟩ | ⟨h0, row, rest, hf, hr⟩ |
    ⟨h0, h1, s, hs, hun, hr⟩
  · rw [he] at h
    cases h
  · rw [hr] at h
    simp only [Prod.mk.injEq, Except.ok.injEq] at h
    obtain ⟨h1, h2, h3⟩ := h
    exact Or.inl ⟨h0, h2.symm, h3.symm, row, rest, hf, h1.symm⟩
  · rw [hr] at h
    simp only [Prod.mk.injEq, Except.ok.injEq] at h
    obtain ⟨h2, h3, h4⟩ := h
    exact Or.inr ⟨h0, h1, h4.symm, s, hs, hun, h2.symm, h3.symm⟩

theorem resolveServer_store_cases (env : JSEnv) (fails : Nat → Bool) (db db1 : Store)
    (ip : JSVal) (r : Except JSError Nat) (k : Nat)
    (h : resolveServer env fails db ip = (r, db1, k)) :
    db1 = db ∨ ∃ s, ip = .str s ∧ (∀ row ∈ db.servers, row.ip_address ≠ s) ∧
      db1 = db.insertServer s ("server-" ++ lastSegment s) := by
  rcases resolveServer_cases env fails db ip with ⟨e, k2, he⟩ | ⟨h0, row, rest, hf, hr⟩ |
    ⟨h0, h1, s, hs, hun, hr⟩
  · rw [he] at h
    exact Or.inl (Prod.mk.inj (Prod.mk.inj h).2).1.symm
  · rw [hr] at h
    exact Or.inl (Prod.mk.inj (Prod.mk.inj h).2).1.symm
  · rw [hr] at h
    exact Or.inr ⟨s, hs, hun, (Prod.mk.inj (Prod.mk.inj h).2).1.symm⟩

theorem untouched_of_resolve (env : JSEnv) (fails : Nat → Bool) (db db1 : Store)
    (ip : JSVal) (r : Except JSError Nat) (k : Nat)
    (h : resolveServer env fails db ip = (r, db1, k)) :
    SamplesUntouched db db1 ∧ AtMostServerAdded db db1 := by
  rcases resolveServer_store_cases env fails db db1 ip r k h with rfl | ⟨s, _, hun, rfl⟩
  · exact ⟨⟨rfl, rfl, rfl, rfl⟩, Or.inl rfl⟩
  · exact ⟨⟨rfl, rfl, rfl, rfl⟩, Or.inr ⟨s, hun, rfl⟩⟩

/-- When the `try` block of an ingestion route ends in a failure, the answer is 500 with
the fixed message, no sample, report or snapshot row is written, and `servers` is as
before or holds the one row the registry step created; a 201 is answered only when no
query of the request was rejected. -/
theorem rejected_query_writes_no_sample (env : JSEnv) (fails : Nat → Bool) (now : Int)
    (db db2 sdb2 : Store) (body : Payload) (sbody : StoragePayload) (resp sresp : Response)
    (h : postMetrics env fails now db body = (resp, db2))
    (hs : postStorage env fails now db sbody = (sresp, sdb2)) :
    (resp.status = 500 →
      resp = internalError msgMetricsFailed ∧ SamplesUntouched db db2 ∧
        AtMostServerAdded db db2) ∧
    (resp.status = 201 →
      fails 0 = false ∧ fails 1 = false ∧ (db2.servers ≠ db.servers → fails 2 = false)) ∧
    (sresp.status = 500 →
      sresp = internalError msgStorageFailed ∧ SamplesUntouched db sdb2 ∧
        AtMostServerAdded db sdb2) ∧
    (sresp.status = 201 →
      fails 0 = false ∧ fails 1 = false ∧ (sdb2.servers ≠ db.servers → fails 2 = false)) := by
  refine ⟨?_, ?_, ?_, ?_⟩
  · intro h500
    rcases postMetrics_cases env fails now db body with ⟨_, hp⟩ | ⟨_, r, db1, k, hr, hp⟩ |
      ⟨_, sid, db1, k, errs, hr, _, _, hp⟩
    · rw [hp] at h; cases h; cases h500
    · rw [hp] at h
      cases h
      exact ⟨rfl, untouched_of_resolve env fails db _ _ r k hr⟩
    · rw [hp] at h; cases h; cases h500
  · intro h201
    rcases postMetrics_cases env fails now db body with ⟨_, hp⟩ | ⟨_, r, db1, k, hr, hp⟩ |
      ⟨_, sid, db1, k, errs, hr, hf, _, hp⟩
    · rw [hp] at h; cases h; cases h201
    · rw [hp] at h; cases h; cases h201
    · rw [hp] at h
      cases h
      rcases resolveServer_ok_cases env fails db db1 _ sid k hr with
        ⟨h0, rfl, rfl, _⟩ | ⟨h0, h1, rfl, _⟩
      · exact ⟨h0, hf, fun hne => absurd rfl hne⟩
      · exact ⟨h0, h1, fun _ => hf⟩
  · intro h500
    rcases postStorage_cases env fails now db sbody with ⟨_, hp⟩ | ⟨_, r, db1, k, hr, hp⟩ |
      ⟨_, sid, db1, k, hr, _, hp⟩
    · rw [hp] at hs; cases hs; cases h500
    · rw [hp] at hs
      cases hs
      exact ⟨rfl, untouched_of_resolve env fails db _ _ r k hr⟩
    · rw [hp] at hs; cases hs; cases h500
  · intro h201
    rcases postStorage_cases env fails now db sbody with ⟨_, hp⟩ | ⟨_, r, db1, k, hr, hp⟩ |
      ⟨_, sid, db1, k, hr, hf, hp⟩
    · rw [hp] at hs; cases hs; cases h201
    · rw [hp] at hs; cases hs; cases h201
    · rw [hp] at hs
      cases hs
      rcases resolveServer_ok_cases env fails db db1 _ sid k hr with
        ⟨h0, rfl, rfl, _⟩ | ⟨h0, h1, rfl, _⟩
      · exact ⟨h0, hf, fun hne => absurd rfl hne⟩
      · exact ⟨h0, h1, fun _ => hf⟩

/-- C21, as amended: when the pool gives no client, the exception leaves the handler of
`POST /api/metrics` or `POST /api/storage`, which sends no response and writes nothing.
When a query fails, the caller receives status 500 with the fixed message, no sample,
report or snapshot row is written, and `servers` is as before or holds the one row the
registry step created. A 201 is answered only when the client was given and no query of
the request was rejected. -/
theorem failure_writes_no_sample (env : JSEnv) (connects : Bool) (fails : Nat → Bool)
    (now : Int) (db db2 sdb2 : Store) (body : Payload) (sbody : StoragePayload)
    (out sout : Outcome)
    (h : metricsRoute env connects fails now db body = (out, db2))
    (hs : storageRoute env connects fails now db sbody = (sout, sdb2)) :
    (connects = false → out = .escaped ∧ db2 = db ∧ sout = .escaped ∧ sdb2 = db) ∧
    (out = .escaped ∨ sout = .escaped → connects = false) ∧
    (∀ resp, out = .answered resp → resp.status = 500 →
      resp = internalError msgMetricsFailed ∧ SamplesUntouched db db2 ∧
        AtMostServerAdded db db2) ∧
    (∀ resp, out = .answered resp → resp.status = 201 →
      connects = true ∧ fails 0 = false ∧ fails 1 = false ∧
        (db2.servers ≠ db.servers → fails 2 = false)) ∧
    (∀ sresp, sout = .answered sresp → sresp.status = 500 →
      sresp = internalError msgStorageFailed ∧ SamplesUntouched db sdb2 ∧
        AtMostServerAdded db sdb2) ∧
    (∀ sresp, sout = .answered sresp → sresp.status = 201 →
      connects = true ∧ fails 0 = false ∧ fails 1 = false ∧
        (sdb2.servers ≠ db.servers → fails 2 = false)) := by
  cases connects with
  | false =>
    simp only [metricsRoute, storageRoute, Bool.false_eq_true, if_false,
      Prod.mk.injEq] at h hs
    obtain ⟨rfl, rfl⟩ := h
    obtain ⟨rfl, rfl⟩ := hs
    refine ⟨fun _ => ⟨rfl, rfl, rfl, rfl⟩, fun _ => rfl, ?_, ?_, ?_, ?_⟩ <;>
      intro resp hresp <;> cases hresp
  | true =>
    simp only [metricsRoute, storageRoute, if_true, Prod.mk.injEq] at h hs
    obtain ⟨rfl, rfl⟩ := h
    obtain ⟨rfl, rfl⟩ := hs
    have key := rejected_query_writes_no_sample env fails now db _ _ body sbody _ _ rfl rfl
    refine ⟨fun hc => (by cases hc), ?_, ?_, ?_, ?_, ?_⟩
    · rintro (hc | hc) <;> cases hc
    · intro resp hresp h500
      cases hresp
      exact key.1 h500
    · intro resp hresp h201
      cases hresp
      exact ⟨rfl, key.2.1 h201⟩
    · intro resp hresp h500
      cases hresp
      exact key.2.2.1 h500
    · intro resp hresp h201
      cases hresp
      exact ⟨rfl, key.2.2.2 h201⟩

/-- C21 refuted as stated: the sample for the new address `192.168.1.10` is sent to the
empty store, the pool gives a client and the store rejects the insert of the sample (the
third query). The caller receives 500, and the store holds the new server row and nothing
else: a part of the writes of the call. -/
theorem failed_insert_leaves_server_row :
    metricsRoute exampleEnv true thirdQueryFails 1000 Store.empty (sampleBody 50 50 40) =
        (.answered (internalError msgMetricsFailed),
          Store.empty.insertServer "192.168.1.10" "server-10") ∧
      (internalError msgMetricsFailed).status = 500 ∧
      (Store.empty.insertServer "192.168.1.10" "server-10").servers =
        [newServerRow Store.empty "192.168.1.10" "server-10"] ∧
      (Store.empty.insertServer "192.168.1.10" "server-10").health_metrics = [] ∧
      (Store.empty.insertServer "192.168.1.10" "server-10").current_metrics = [] ∧
      Store.empty.insertServer "192.168.1.10" "server-10" ≠ Store.empty := by
  refine ⟨rfl, rfl, rfl, rfl, rfl, ?_⟩
  intro hcon
  have := congrArg Store.nextServerId hcon
  revert this
  decide

/-- C21 as amended, on the same request: with a client, status 500, no sample or snapshot
row, one server row added; without a client, no response of the handler and the store as
before. -/
theorem failure_writes_no_sample_witness :
    (∃ db2, metricsRoute exampleEnv true thirdQueryFails 1000 Store.empty
        (sampleBody 50 50 40) = (.answered (internalError msgMetricsFailed), db2) ∧
      SamplesUntouched Store.empty db2 ∧ AtMostServerAdded Store.empty db2) ∧
      metricsRoute exampleEnv false thirdQueryFails 1000 Store.empty (sampleBody 50 50 40) =
        (.escaped, Store.empty) := by
  have h := failure_writes_no_sample exampleEnv true thirdQueryFails 1000 Store.empty _ _
    (sampleBody 50 50 40) (storageBodyFor "192.168.1.10") _ _ rfl rfl
  have h2 := failure_writes_no_sample exampleEnv false thirdQueryFails 1000 Store.empty _ _
    (sampleBody 50 50 40) (storageBodyFor "192.168.1.10") _ _ rfl rfl
  refine ⟨⟨_, rfl, (h.2.2.1 _ rfl rfl).2⟩, ?_⟩
  obtain ⟨h3, h4, _, _⟩ := h2.1 rfl
  exact Prod.ext h3 h4

/-! ## Invariants of sequential ingestion (C22, C28) -/

theorem filter_id_length_one :
    ∀ (l : List ServerRow), (l.map fun s => s.id).Nodup → ∀ s ∈ l,
      (l.filter fun x => x.id == s.id).length = 1
  | [], _, s, hs => by cases hs
  | a :: l, hnd, s, hs => by
    rw [List.map_cons, List.nodup_cons] at hnd
    obtain ⟨hnot, hnd2⟩ := hnd
    by_cases ha : a.id = s.id
    · have hnil : l.filter (fun x => x.id == s.id) = [] := by
        rw [List.filter_eq_nil_iff]
        intro x hx hxs
        apply hnot
        rw [ha, ← beq_iff_eq.mp hxs]
        exact List.mem_map_of_mem _ hx
      rw [List.filter_cons, if_pos (beq_iff_eq.mpr ha), hnil]
      rfl
    · rw [List.filter_cons, if_neg (by simpa using ha)]
      rcases List.mem_cons.mp hs with rfl | hs2
      · exact absurd rfl ha
      · exact filter_id_length_one l hnd2 s hs2

theorem eq_singleton_of_length_one {α : Type} (l : List α) (a : α) (h : l.length = 1)
    (ha : a ∈ l) : l = [a] := by
  match l, h, ha with
  | [x], _, ha => rw [List.mem_singleton.mp ha]

theorem referencesOne_of_invariant (db : Store) (h : IngestInvariant db) :
    ReferencesOneServer db := by
  obtain ⟨hpk, _, hs, hr⟩ := h
  constructor
  · intro hm hmem
    obtain ⟨s, hsm, hid⟩ := hs hm hmem
    rw [← hid]
    exact filter_id_length_one db.servers hpk s hsm
  · intro r hmem
    obtain ⟨s, hsm, hid⟩ := hr r hmem
    rw [← hid]
    exact filter_id_length_one db.servers hpk s hsm

theorem invariant_of_referencesOne (db : Store) (hpk : ServerIdsUnique db)
    (hseq : IdsFromSequence db) (href : ReferencesOneServer db) : IngestInvariant db := by
  refine ⟨hpk, hseq, ?_, ?_⟩
  · intro hm hmem
    have h1 := href.1 hm hmem
    cases hf : db.servers.filter (fun s => s.id == hm.server_id) with
    | nil => rw [hf] at h1; cases h1
    | cons s rest =>
      have : s ∈ db.servers.filter (fun s => s.id == hm.server_id) := by
        rw [hf]; exact List.mem_cons_self _ _
      exact ⟨s, (List.mem_filter.mp this).1, beq_iff_eq.mp (List.mem_filter.mp this).2⟩
  · intro r hmem
    have h1 := href.2 r hmem
    cases hf : db.servers.filter (fun s => s.id == r.server_id) with
    | nil => rw [hf] at h1; cases h1
    | cons s rest =>
      have : s ∈ db.servers.filter (fun s => s.id == r.server_id) := by
        rw [hf]; exact List.mem_cons_self _ _
      exact ⟨s, (List.mem_filter.mp this).1, beq_iff_eq.mp (List.mem_filter.mp this).2⟩

theorem invariant_insertServer (db : Store) (ip hostname : String) (h : IngestInvariant db) :
    IngestInvariant (db.insertServer ip hostname) := by
  obtain ⟨hpk, hseq, hs, hr⟩ := h
  refine ⟨?_, ?_, ?_, ?_⟩
  · unfold ServerIdsUnique Store.insertServer
    simp only [List.map_append, List.map_cons, List.map_nil]
    rw [List.nodup_append]
    refine ⟨hpk, List.nodup_singleton _, ?_⟩
    intro i hi hi2
    rw [List.mem_singleton] at hi2
    obtain ⟨s, hsm, rfl⟩ := List.mem_map.mp hi
    have := hseq s hsm
    omega
  · intro s hsm
    simp only [Store.insertServer, List.mem_append, List.mem_singleton] at hsm ⊢
    rcases hsm with hsm | rfl
    · have := hseq s hsm
      omega
    · simp
  · intro hm hmem
    obtain ⟨s, hsm, hid⟩ := hs hm hmem
    exact ⟨s, List.mem_append_left _ hsm, hid⟩
  · intro r hmem
    obtain ⟨s, hsm, hid⟩ := hr r hmem
    exact ⟨s, List.mem_append_left _ hsm, hid⟩

theorem invariant_insertHealthMetric (db : Store) (row : HealthMetricRow)
    (h : IngestInvariant db) (hrow : ∃ s ∈ db.servers, s.id = row.server_id) :
    IngestInvariant (db.insertHealthMetric row) := by
  obtain ⟨hpk, hseq, hs, hr⟩ := h
  refine ⟨hpk, hseq, ?_, hr⟩
  intro hm hmem
  rw [insertHealthMetric_health_metrics] at hmem
  rcases List.mem_append.mp hmem with hmem | hmem
  · exact hs hm hmem
  · rw [List.mem_singleton.mp hmem]
    exact hrow

theorem invariant_insertStorageHealth (db : Store) (row : StorageHealthRow)
    (h : IngestInvariant db) (hrow : ∃ s ∈ db.servers, s.id = row.server_id) :
    IngestInvariant (db.insertStorageHealth row) := by
  obtain ⟨hpk, hseq, hs, hr⟩ := h
  refine ⟨hpk, hseq, hs, ?_⟩
  intro r hmem
  have hsh : (db.insertStorageHealth row).storage_health = db.storage_health ++ [row] := rfl
  rw [hsh] at hmem
  rcases List.mem_append.mp hmem with hmem | hmem
  · exact hr r hmem
  · rw [List.mem_singleton.mp hmem]
    exact hrow

theorem invariant_resolve (env : JSEnv) (fails : Nat → Bool) (db db1 : Store) (ip : JSVal)
    (r : Except JSError Nat) (k : Nat) (h : IngestInvariant db)
    (hr : resolveServer env fails db ip = (r, db1, k)) : IngestInvariant db1 := by
  rcases resolveServer_store_cases env fails db db1 ip r k hr with rfl | ⟨s, _, _, rfl⟩
  · exact h
  · exact invariant_insertServer db _ _ h

theorem invariant_step (env : JSEnv) (db : Store) (c : IngestCall) (h : IngestInvariant db) :
    IngestInvariant (c.run env db).2 := by
  cases c with
  | metrics fails now body =>
    show IngestInvariant (postMetrics env fails now db body).2
    rcases postMetrics_cases env fails now db body with ⟨_, hp⟩ | ⟨_, r, db1, k, hr, hp⟩ |
      ⟨_, sid, db1, k, errs, hr, _, _, hp⟩
    · rw [hp]; exact h
    · rw [hp]; exact invariant_resolve env fails db db1 _ r k h hr
    · rw [hp]
      exact invariant_insertHealthMetric db1 _
        (invariant_resolve env fails db db1 _ _ k h hr)
        (resolveServer_ok_mem env fails db db1 _ sid k hr)
  | storage fails now body =>
    show IngestInvariant (postStorage env fails now db body).2
    rcases postStorage_cases env fails now db body with ⟨_, hp⟩ | ⟨_, r, db1, k, hr, hp⟩ |
      ⟨_, sid, db1, k, hr, _, hp⟩
    · rw [hp]; exact h
    · rw [hp]; exact invariant_resolve env fails db db1 _ r k h hr
    · rw [hp]
      exact invariant_insertStorageHealth db1 _
        (invariant_resolve env fails db db1 _ _ k h hr)
        (resolveServer_ok_mem env fails db db1 _ sid k hr)

theorem invariant_runCalls (env : JSEnv) :
    ∀ (calls : List IngestCall) (db : Store), IngestInvariant db →
      IngestInvariant (runCalls env db calls)
  | [], _, h => h
  | c :: calls, db, h => by
    show IngestInvariant (runCalls env (c.run env db).2 calls)
    exact invariant_runCalls env calls _ (invariant_step env db c h)

/-- The server a resolved request refers to carries the address of the request. -/
theorem resolveServer_address (env : JSEnv) (fails : Nat → Bool) (db db1 : Store)
    (ip : JSVal) (sid k : Nat) (h : resolveServer env fails db ip = (.ok sid, db1, k)) :
    ∃ s ∈ db1.servers, s.id = sid ∧ s.ip_address = pgText env ip := by
  rcases resolveServer_ok_cases env fails db db1 ip sid k h with
    ⟨_, rfl, _, row, rest, hf, rfl⟩ | ⟨_, _, _, s, rfl, _, rfl, rfl⟩
  · have hmem : row ∈ db1.servers.filter (fun s => s.ip_address == pgText env ip) := by
      rw [hf]; exact List.mem_cons_self _ _
    exact ⟨row, (List.mem_filter.mp hmem).1, rfl, beq_iff_eq.mp (List.mem_filter.mp hmem).2⟩
  · exact ⟨_, List.mem_append_right _ (List.mem_singleton.mpr rfl), rfl, rfl⟩

theorem one_server_with_id (db : Store) (h : IngestInvariant db) (s : ServerRow)
    (hs : s ∈ db.servers) : db.servers.filter (fun x => x.id == s.id) = [s] :=
  eq_singleton_of_length_one _ s (filter_id_length_one db.servers h.1 s hs)
    (List.mem_filter.mpr ⟨hs, beq_iff_eq.mpr rfl⟩)

/-- C22: starting from a store whose samples and reports each reference exactly one server
(ids unique and handed out by the sequence), after any sequence of ingestion requests
every sample and report still references exactly one server; and the row an accepted
request stores references the one server that carries the address of the request. -/
theorem referential_integrity_preserved (env : JSEnv) (db : Store) (calls : List IngestCall)
    (hpk : ServerIdsUnique db) (hseq : IdsFromSequence db) (href : ReferencesOneServer db) :
    ReferencesOneServer (runCalls env db calls) ∧
    (∀ fails now body m i t sid db2,
      postMetrics env fails now db body = (.created m i t sid, db2) →
        ∃ row srv, db2.health_metrics = db.health_metrics ++ [row] ∧ row.server_id = sid ∧
          db2.servers.filter (fun x => x.id == sid) = [srv] ∧
          srv.ip_address = pgText env body.server_ip) ∧
    (∀ fails now sbody m i t sid db2,
      postStorage env fails now db sbody = (.created m i t sid, db2) →
        ∃ row srv, db2.storage_health = db.storage_health ++ [row] ∧ row.server_id = sid ∧
          db2.servers.filter (fun x => x.id == sid) = [srv] ∧
          srv.ip_address = pgText env sbody.server_ip) := by
  have hinv := invariant_of_referencesOne db hpk hseq href
  refine ⟨referencesOne_of_invariant _ (invariant_runCalls env calls db hinv), ?_, ?_⟩
  · intro fails now body m i t sid db2 h
    rcases postMetrics_cases env fails now db body with ⟨_, hp⟩ | ⟨_, r, db1, k, hr, hp⟩ |
      ⟨_, sid2, db1, k, errs, hr, _, _, hp⟩
    · rw [hp] at h; cases h
    · rw [hp] at h; cases h
    · rw [hp] at h
      simp only [Prod.mk.injEq, Response.created.injEq] at h
      obtain ⟨⟨_, _, _, hsid⟩, hdb⟩ := h
      subst hsid hdb
      obtain ⟨srv, hsrv, hid, hip⟩ := resolveServer_address env fails db db1 _ sid2 k hr
      have hinv1 := invariant_resolve env fails db db1 _ _ k hinv hr
      have hhm := resolveServer_health_metrics env fails db body.server_ip
      rw [hr] at hhm
      refine ⟨metricRow body db1.nextMetricId sid2 now
          (finalError body (autoErrorMessage errs)).1
          (finalError body (autoErrorMessage errs)).2, srv, ?_, rfl, ?_, hip⟩
      · rw [insertHealthMetric_health_metrics]
        exact congrArg (· ++ _) hhm
      · rw [insertHealthMetric_servers, ← hid]
        exact one_server_with_id db1 hinv1 srv hsrv
  · intro fails now sbody m i t sid db2 h
    rcases postStorage_cases env fails now db sbody with ⟨_, hp⟩ | ⟨_, r, db1, k, hr, hp⟩ |
      ⟨_, sid2, db1, k, hr, _, hp⟩
    · rw [hp] at h; cases h
    · rw [hp] at h; cases h
    · rw [hp] at h
      simp only [Prod.mk.injEq, Response.created.injEq] at h
      obtain ⟨⟨_, _, _, hsid⟩, hdb⟩ := h
      subst hsid hdb
      obtain ⟨srv, hsrv, hid, hip⟩ := resolveServer_address env fails db db1 _ sid2 k hr
      have hinv1 := invariant_resolve env fails db db1 _ _ k hinv hr
      have hsh := resolveServer_storage_health env fails db sbody.server_ip
      rw [hr] at hsh
      refine ⟨storageRow env sbody db1.nextStorageId sid2 now, srv, ?_, rfl, ?_, hip⟩
      · show db1.storage_health ++ _ = _
        exact congrArg (· ++ _) hsh
      · show db1.servers.filter _ = _
        rw [← hid]
        exact one_server_with_id db1 hinv1 srv hsrv

/-- C22 on the empty store and two requests for `10.0.0.7`: one sample, one report, both
referencing the one server. -/
theorem referential_integrity_witness :
    ServerIdsUnique Store.empty ∧ IdsFromSequence Store.empty ∧
      ReferencesOneServer Store.empty ∧
      ReferencesOneServer (runCalls exampleEnv Store.empty twoCallsSameAddress) ∧
      (runCalls exampleEnv Store.empty twoCallsSameAddress).health_metrics.map
        (fun hm => hm.server_id) = [1] ∧
      (runCalls exampleEnv Store.empty twoCallsSameAddress).storage_health.map
        (fun r => r.server_id) = [1] := by
  have h1 : ServerIdsUnique Store.empty := List.nodup_nil
  have h2 : IdsFromSequence Store.empty := fun s hs => by cases hs
  have h3 : ReferencesOneServer Store.empty :=
    ⟨fun hm hmem => (by cases hmem), fun r hmem => (by cases hmem)⟩
  exact ⟨h1, h2, h3,
    (referential_integrity_preserved exampleEnv Store.empty twoCallsSameAddress h1 h2 h3).1,
    by rfl, by rfl⟩

/-- What a request does to `servers`, and which server an accepted request names. -/
theorem run_servers_cases (env : JSEnv) (db : Store) (c : IngestCall) :
    ((c.run env db).2.servers = db.servers ∨
      ∃ s, c.address = .str s ∧ (∀ row ∈ db.servers, row.ip_address ≠ s) ∧
        (c.run env db).2.servers = db.servers ++
          [newServerRow db s ("server-" ++ lastSegment s)]) ∧
    (∀ sid, (c.run env db).1.serverId = some sid →
      ∃ db1 k fails, resolveServer env fails db c.address = (.ok sid, db1, k)) := by
  have key : ∀ (fails : Nat → Bool) (ip : JSVal) (out : Response × Store),
      (out = (out.1, db) ∧ out.1.serverId = none) ∨
      (∃ r db1 k, resolveServer env fails db ip = (r, db1, k) ∧ out.2.servers = db1.servers ∧
        (out.1.serverId = none ∨ ∃ sid, r = .ok sid ∧ out.1.serverId = some sid)) →
      (out.2.servers = db.servers ∨
        ∃ s, ip = .str s ∧ (∀ row ∈ db.servers, row.ip_address ≠ s) ∧
          out.2.servers = db.servers ++ [newServerRow db s ("server-" ++ lastSegment s)]) ∧
      (∀ sid, out.1.serverId = some sid →
        ∃ db1 k fails, resolveServer env fails db ip = (.ok sid, db1, k)) := by
    intro fails ip out hout
    rcases hout with ⟨h1, h2⟩ | ⟨r, db1, k, hr, hs, hid⟩
    · refine ⟨Or.inl (by rw [h1]), ?_⟩
      intro sid hsid
      rw [h2] at hsid
      cases hsid
    · constructor
      · rw [hs]
        rcases resolveServer_store_cases env fails db db1 ip r k hr with rfl | ⟨s, hs2, hun, rfl⟩
        · exact Or.inl rfl
        · exact Or.inr ⟨s, hs2, hun, rfl⟩
      · intro sid hsid
        rcases hid with hnone | ⟨sid2, rfl, hsome⟩
        · rw [hnone] at hsid
          cases hsid
        · rw [hsome] at hsid
          cases hsid
          exact ⟨db1, k, fails, hr⟩
  cases c with
  | metrics fails now body =>
    apply key fails body.server_ip (postMetrics env fails now db body)
    rcases postMetrics_cases env fails now db body with ⟨_, hp⟩ | ⟨_, r, db1, k, hr, hp⟩ |
      ⟨_, sid, db1, k, errs, hr, _, _, hp⟩
    · rw [hp]; exact Or.inl ⟨rfl, rfl⟩
    · rw [hp]; exact Or.inr ⟨r, db1, k, hr, rfl, Or.inl rfl⟩
    · rw [hp]; exact Or.inr ⟨_, db1, k, hr, rfl, Or.inr ⟨sid, rfl, rfl⟩⟩
  | storage fails now body =>
    apply key fails body.server_ip (postStorage env fails now db body)
    rcases postStorage_cases env fails now db body with ⟨_, hp⟩ | ⟨_, r, db1, k, hr, hp⟩ |
      ⟨_, sid, db1, k, hr, _, hp⟩
    · rw [hp]; exact Or.inl ⟨rfl, rfl⟩
    · rw [hp]; exact Or.inr ⟨r, db1, k, hr, rfl, Or.inl rfl⟩
    · rw [hp]; exact Or.inr ⟨_, db1, k, hr, rfl, Or.inr ⟨sid, rfl, rfl⟩⟩

theorem addresses_step (env : JSEnv) (db : Store) (c : IngestCall) (h : AddressesUnique db) :
    AddressesUnique (c.run env db).2 := by
  rcases (run_servers_cases env db c).1 with hsame | ⟨s, _, hun, hnew⟩
  · unfold AddressesUnique
    rw [hsame]
    exact h
  · unfold AddressesUnique
    rw [hnew, List.map_append, List.nodup_append]
    refine ⟨h, List.nodup_singleton _, ?_⟩
    intro a ha ha2
    rw [List.map_cons, List.map_nil, List.mem_singleton] at ha2
    obtain ⟨row, hrow, rfl⟩ := List.mem_map.mp ha
    exact hun row hrow ha2

theorem addresses_runCalls (env : JSEnv) :
    ∀ (calls : List IngestCall) (db : Store), AddressesUnique db →
      AddressesUnique (runCalls env db calls)
  | [], _, h => h
  | c :: calls, db, h => by
    show AddressesUnique (runCalls env (c.run env db).2 calls)
    exact addresses_runCalls env calls _ (addresses_step env db c h)

/-- C28: starting from a store in which no two servers share an address, after any
sequence of ingestion requests handled one after the other no two servers share an
address; a request whose address is already registered adds no row to `servers` and,
when it is accepted, returns the id of the registered server. -/
theorem address_uniqueness_preserved (env : JSEnv) (db : Store) (calls : List IngestCall)
    (h : AddressesUnique db) :
    AddressesUnique (runCalls env db calls) ∧
    ∀ (c : IngestCall) (row : ServerRow), row ∈ db.servers →
      row.ip_address = pgText env c.address →
        (c.run env db).2.servers = db.servers ∧
        ∀ sid, (c.run env db).1.serverId = some sid → sid = row.id := by
  refine ⟨addresses_runCalls env calls db h, ?_⟩
  intro c row hrow hip
  obtain ⟨hservers, hsid⟩ := run_servers_cases env db c
  constructor
  · rcases hservers with hsame | ⟨s, hs, hun, _⟩
    · exact hsame
    · rw [hs] at hip
      exact absurd hip (hun row hrow)
  · intro sid hs
    obtain ⟨db1, k, fails, hr⟩ := hsid sid hs
    rcases resolveServer_ok_cases env fails db db1 _ sid k hr with
      ⟨_, _, _, row2, rest, hf, rfl⟩ | ⟨_, _, _, s, hs2, hun, _, _⟩
    · have hmem : row2 ∈ db.servers.filter
          (fun x => x.ip_address == pgText env c.address) := by
        rw [hf]; exact List.mem_cons_self _ _
      obtain ⟨hm1, hm2⟩ := List.mem_filter.mp hmem
      have heq : row2.ip_address = row.ip_address := by
        rw [beq_iff_eq.mp hm2, hip]
      rw [List.inj_on_of_nodup_map h hm1 hrow heq]
    · rw [hs2] at hip
      exact absurd hip (hun row hrow)

/-- C28 on the empty store and two requests for `10.0.0.7`: one server row, and the second
request returns the id the first one created. -/
theorem address_uniqueness_witness :
    AddressesUnique Store.empty ∧
      AddressesUnique (runCalls exampleEnv Store.empty twoCallsSameAddress) ∧
      (runCalls exampleEnv Store.empty twoCallsSameAddress).servers.map
        (fun s => (s.id, s.ip_address)) = [(1, "10.0.0.7")] := by
  have h1 : AddressesUnique Store.empty := List.nodup_nil
  exact ⟨h1, (address_uniqueness_preserved exampleEnv Store.empty twoCallsSameAddress h1).1,
    by rfl⟩

/-! ## Query text and clocks (C24, C25) -/

theorem getHistory_text (env : JSEnv) (engine : SqlEngine) (dbNow : Int) (db : Store)
    (serverId s : String) (h : decimalValue s.data = none) :
    getHistory env engine (fun _ => false) dbNow db serverId (.str s) =
      historyAnswer (engine.runHistory (historySql s) serverId dbNow db) := by
  have hne : (JSVal.str s = JSVal.undefined) = False := by simp
  unfold getHistory
  simp only [hne, if_false, JSVal.toTemplateText, h, Bool.false_eq_true]
  cases engine.runHistory (historySql s) serverId dbNow db <;> rfl

/-- C24, at `hours=abc` and at a value of `hours` that closes the interval literal: the
text is spliced into the statement as it is, and the statement built from it is what the
store receives; no check of `hours` stands between the request and the statement. -/
theorem hours_text_spliced_unchecked (env : JSEnv) (engine : SqlEngine) (dbNow : Int)
    (db : Store) (serverId : String) :
    historySql "abc" =
        "SELECT timestamp, cpu_usage, memory_usage, disk_usage, load_average, network_rx, " ++
        "network_tx, is_error, error_message FROM health_metrics WHERE server_id = $1 " ++
        "AND timestamp > NOW() - INTERVAL \x27abc hours\x27 ORDER BY timestamp ASC" ∧
      historySql injectedHours =
        "SELECT timestamp, cpu_usage, memory_usage, disk_usage, load_average, network_rx, " ++
        "network_tx, is_error, error_message FROM health_metrics WHERE server_id = $1 " ++
        "AND timestamp > NOW() - INTERVAL \x271 hour\x27 OR server_id > 0 -- hours\x27 " ++
        "ORDER BY timestamp ASC" ∧
      getHistory env engine (fun _ => false) dbNow db serverId (.str "abc") =
        historyAnswer (engine.runHistory (historySql "abc") serverId dbNow db) ∧
      getHistory env engine (fun _ => false) dbNow db serverId (.str injectedHours) =
        historyAnswer (engine.runHistory (historySql injectedHours) serverId dbNow db) :=
  ⟨rfl, rfl, getHistory_text env engine dbNow db serverId "abc" (by decide),
    getHistory_text env engine dbNow db serverId injectedHours (by decide)⟩


theorem fleetRow_clock (env : JSEnv) (a1 a2 : Int) (x : ServersQueryRow) (r1 : FleetRow)
    (h : fleetRow env a1 x = .ok r1) :
    fleetRow env a2 x = .ok { r1 with is_online := isOnline a2 r1.last_update } := by
  unfold fleetRow at h ⊢
  split at h
  · rename_i hu
    rw [if_pos hu]
    split at h
    · rename_i text ht
      cases h
      simp only [ht]
    · cases h
  · rename_i hu
    rw [if_neg hu]
    cases h
    rfl

theorem mapRows_clock (env : JSEnv) (a1 a2 : Int) :
    ∀ (l : List ServersQueryRow) (out : List FleetRow),
      mapRows (fleetRow env a1) l = .ok out →
        mapRows (fleetRow env a2) l =
          .ok (out.map fun r => { r with is_online := isOnline a2 r.last_update })
  | [], out, h => by
    cases h
    rfl
  | x :: rest, out, h => by
    unfold mapRows at h ⊢
    cases hf : fleetRow env a1 x with
    | error e => rw [hf] at h; cases h
    | ok b =>
      rw [hf] at h
      cases hr : mapRows (fleetRow env a1) rest with
      | error e => rw [hr] at h; cases h
      | ok bs =>
        rw [hr] at h
        cases h
        rw [fleetRow_clock env a1 a2 x b hf, mapRows_clock env a1 a2 rest bs hr]
        rfl

/-- The application clock reaches the dashboard response through `is_online` only: at
another application time, with the same store and store time, the handler answers 200
again, and the response differs at most in the `is_online` of the fleet rows. -/
theorem getDashboard_clock (env : JSEnv) (fails : Nat → Bool) (a1 a2 dbNow : Int)
    (db : Store) (data : DashboardData)
    (h : getDashboard env fails a1 dbNow db = .ok data) :
    getDashboard env fails a2 dbNow db =
      .ok { data with
        servers := data.servers.map fun r =>
          { r with is_online := isOnline a2 r.last_update } } := by
  unfold getDashboard at h ⊢
  split at h
  · cases h
  · rename_i h0
    rw [if_neg h0]
    split at h
    · cases h
    · rename_i h1
      rw [if_neg h1]
      split at h
      · cases h
      · rename_i h2
        rw [if_neg h2]
        split at h
        · cases h
        · rename_i h3
          rw [if_neg h3]
          simp only at h ⊢
          split at h
          · cases h
          · rename_i rows hrows
            cases h
            rw [mapRows_clock env a1 a2 _ rows hrows]

/-- C25, on a store with two servers read at store time 2000: at application time 2000
the fleet list shows the first server online, at application time 100000000 it shows the
same server offline, while the statistics of both responses are the same and count one
server online. The online flag of the fleet list follows the application clock. -/
theorem fleet_online_flag_reads_app_clock :
    ∃ d1 d2,
      getDashboard exampleEnv (fun _ => false) 2000 2000 twoServerStore = .ok d1 ∧
      getDashboard exampleEnv (fun _ => false) 100000000 2000 twoServerStore = .ok d2 ∧
      d1 ≠ d2 ∧
      d1.servers.map (fun r => r.is_online) = [.bool true, .null] ∧
      d2.servers.map (fun r => r.is_online) = [.bool false, .null] ∧
      d1.stats = d2.stats ∧ d1.stats.servers_online = 1 :=
  ⟨_, _, rfl, rfl, by decide, by decide, by decide, by decide, by decide⟩


/-! ## Online count and performance set (C26) -/

theorem fleet_online_has_fresh_metrics (env : JSEnv) (appNow : Int) (db : Store)
    (fl : List FleetRow) (hfl : fleetServers env appNow db = .ok fl) (r : FleetRow)
    (hr : r ∈ fl) (ht : r.is_online.truthy = true) :
    ∃ cm ∈ db.current_metrics, cm.server_id = r.id ∧
      appNow - cm.timestamp < 25 * 3600 * 1000 := by
  obtain ⟨hmap, honline⟩ := fleetServers_rows env appNow db fl hfl
  rw [honline r hr] at ht
  obtain ⟨t, hu, hlt⟩ := (isOnline_truthy appNow r.last_update).mp ht
  have hq : r.toServersQueryRow ∈ serversQuery env db := by
    rw [← hmap]
    exact List.mem_map.mpr ⟨r, hr, rfl⟩
  rcases serversQuery_last_update env db _ hq with ⟨hnone, _⟩ | ⟨cm, hcm, hid, hts⟩
  · rw [hnone] at hu
    cases hu
  · refine ⟨cm, hcm, hid, ?_⟩
    rw [hu] at hts
    cases hts
    exact hlt

theorem fleet_server_map (fl : List FleetRow) :
    fl.map FleetRow.server =
      (fl.map fun r => r.toServersQueryRow).map ServersQueryRow.server := by
  rw [List.map_map]
  rfl

/-- C26: a server whose storage snapshot is within the last 25 hours and whose metrics
snapshot is missing or older is among the servers counted in `stats.servers_online`, its
row of the fleet list has an `is_online` that is not `true`, and the row is not among the
rows over which the page averages CPU, memory and disk; when the application and the store
read the same time, the fleet list has at most `stats.servers_online` rows with `is_online`
true. -/
theorem storage_only_server_counted_not_averaged (env : JSEnv) (fails : Nat → Bool)
    (appNow dbNow : Int) (db : Store) (data : DashboardData) (hpk : ServerIdsUnique db)
    (hsnap : SnapshotPerServer db)
    (h : getDashboard env fails appNow dbNow db = .ok data) :
    data.stats.servers_online =
        (db.servers.filter fun s => FreshSnapshot dbNow db s).length ∧
      (∀ s ∈ db.servers,
        (∃ csh ∈ db.current_storage_health, csh.server_id = s.id ∧
          dbNow - csh.timestamp < 25 * 3600 * 1000) →
        (∀ cm ∈ db.current_metrics, cm.server_id = s.id →
          ¬ appNow - cm.timestamp < 25 * 3600 * 1000) →
          s ∈ (db.servers.filter fun s => FreshSnapshot dbNow db s) ∧
          (∃ r ∈ data.servers, r.id = s.id) ∧
          ∀ r ∈ data.servers, r.id = s.id →
            r.is_online ≠ .bool true ∧ r.is_online.truthy = false ∧
              r ∉ performanceServers data.servers) ∧
      (appNow = dbNow →
        (data.servers.filter fun r => decide (r.is_online = .bool true)).length ≤
            data.stats.servers_online ∧
          (performanceServers data.servers).length ≤ data.stats.servers_online) := by
  obtain ⟨hfl, _, _, hstats⟩ := getDashboard_ok env fails appNow dbNow db data h
  rw [statsQuery_counts dbNow db hpk] at hstats
  have hrow := (List.cons.inj hstats).1
  have honline : data.stats.servers_online =
      (db.servers.filter fun s => FreshSnapshot dbNow db s).length := by
    rw [← hrow]
  obtain ⟨hmap, _⟩ := fleetServers_rows env appNow db data.servers hfl
  refine ⟨honline, ?_, ?_⟩
  · intro s hs hstorage hmetrics
    have hfalse : ∀ r ∈ data.servers, r.id = s.id → r.is_online.truthy = false := by
      intro r hr hid
      by_contra hc
      have ht : r.is_online.truthy = true := by simpa using hc
      obtain ⟨cm, hcm, hcid, hlt⟩ :=
        fleet_online_has_fresh_metrics env appNow db data.servers hfl r hr ht
      exact hmetrics cm hcm (hcid.trans hid) hlt
    refine ⟨List.mem_filter.mpr ⟨hs, ?_⟩, ?_, ?_⟩
    · exact decide_eq_true (Or.inr hstorage)
    · obtain ⟨q, hq, hqid⟩ := mem_serversQuery_of_server env db s hs
      rw [← hmap] at hq
      obtain ⟨r, hr, rfl⟩ := List.mem_map.mp hq
      exact ⟨r, hr, hqid⟩
    · intro r hr hid
      have hf := hfalse r hr hid
      refine ⟨?_, hf, ?_⟩
      · intro heq
        rw [heq] at hf
        cases hf
      · intro hmem
        have := (List.mem_filter.mp hmem).2
        rw [hf] at this
        cases this
  · intro hclock
    subst hclock
    have hperf : (performanceServers data.servers).length ≤
        (db.servers.filter fun s => FreshSnapshot appNow db s).length := by
      unfold performanceServers
      rw [← List.countP_eq_length_filter, ← List.countP_eq_length_filter]
      have hperm := serversQuery_servers env db hsnap
      rw [← hmap, ← fleet_server_map] at hperm
      rw [← hperm.countP_eq, List.countP_map]
      apply List.countP_mono_left
      intro r hr ht
      obtain ⟨cm, hcm, hcid, hlt⟩ :=
        fleet_online_has_fresh_metrics env appNow db data.servers hfl r hr ht
      exact decide_eq_true (Or.inl ⟨cm, hcm, hcid, hlt⟩)
    rw [honline]
    refine ⟨le_trans ?_ hperf, hperf⟩
    unfold performanceServers
    rw [← List.countP_eq_length_filter, ← List.countP_eq_length_filter]
    apply List.countP_mono_left
    intro r _ ht
    have : r.is_online = .bool true := by simpa using ht
    rw [this]
    rfl

/-- C26 on the store with two reports, read at time 2000 on both clocks: the second server
has a storage snapshot only; one fleet row is online, two servers are counted online. -/
theorem storage_only_server_witness :
    ∃ data, getDashboard exampleEnv (fun _ => false) 2000 2000 twoReportStore = .ok data ∧
      data.stats.servers_online = 2 ∧
      (performanceServers data.servers).length = 1 ∧
      (performanceServers data.servers).length ≤ data.stats.servers_online := by
  obtain ⟨data, hdata⟩ : ∃ data,
      getDashboard exampleEnv (fun _ => false) 2000 2000 twoReportStore = .ok data := ⟨_, rfl⟩
  have h := storage_only_server_counted_not_averaged exampleEnv (fun _ => false) 2000 2000
    twoReportStore data (by unfold ServerIdsUnique; decide)
    (by unfold SnapshotPerServer; decide) hdata
  refine ⟨data, hdata, ?_, ?_, (h.2.2 rfl).2⟩
  · rw [h.1]; decide
  · cases hdata
    decide


/-! ## Units of the uptime text (C29) -/

/-- C29, as amended: for a non-negative integer number of seconds `s` below `2^53` the units
of `formatUptime` are natural numbers `D`, `H`, `M` with `H < 24`, `M < 60` and
`D*86400 + H*3600 + M*60 ≤ s < D*86400 + H*3600 + M*60 + 60`, and the text is built from
them; `formatUptime` of 0 is `0m`, yet a fleet row whose uptime is 0 or absent gets
`uptime_formatted = null`. -/
theorem uptime_units_reconstruct (env : JSEnv) (appNow : Int) (server : ServersQueryRow)
    (s : ℕ) (hs : s < 2 ^ 53) :
    (∃ D H M : ℕ,
      uptimeUnits (.fin (s : ℚ)) = (.fin (D : ℚ), .fin (H : ℚ), .fin (M : ℚ)) ∧
        H < 24 ∧ M < 60 ∧ D * 86400 + H * 3600 + M * 60 ≤ s ∧
        s < D * 86400 + H * 3600 + M * 60 + 60) ∧
      formatUptime env (.num s) = .ok (uptimeRender env (uptimeUnits (.fin (s : ℚ)))) ∧
      formatUptime env (.num 0) = .ok "0m" ∧
      fleetRow env appNow { server with uptime := .num 0 } =
        .ok { toServersQueryRow := { server with uptime := .num 0 },
              is_online := isOnline appNow server.last_update, uptime_formatted := .null } ∧
      fleetRow env appNow { server with uptime := .null } =
        .ok { toServersQueryRow := { server with uptime := .null },
              is_online := isOnline appNow server.last_update, uptime_formatted := .null } := by
  refine ⟨⟨s / 86400, s % 86400 / 3600, s % 3600 / 60, uptimeUnits_nat s hs, ?_, ?_, ?_, ?_⟩,
    formatUptime_render env s, ?_, ?_, ?_⟩
  · omega
  · omega
  · omega
  · omega
  · have h := formatUptime_nat env 0 (by norm_num)
    rw [Nat.cast_zero] at h
    rw [h]
    rfl
  · unfold fleetRow
    rw [if_neg (by simp [JSVal.truthy])]
  · unfold fleetRow
    rw [if_neg (by simp [JSVal.truthy])]

/-- C29 as amended, at 93784 seconds: the units 1, 2 and 3. -/
theorem uptime_units_witness :
    93784 < 2 ^ 53 ∧
      ∃ D H M : ℕ,
        uptimeUnits (.fin ((93784 : ℕ) : ℚ)) = (.fin (D : ℚ), .fin (H : ℚ), .fin (M : ℚ)) ∧
          H < 24 ∧ M < 60 ∧ D * 86400 + H * 3600 + M * 60 ≤ 93784 ∧
          93784 < D * 86400 + H * 3600 + M * 60 + 60 :=
  ⟨by norm_num,
    (uptime_units_reconstruct exampleEnv 0
      (serversSelect (newServerRow Store.empty "10.0.0.7" "server-7", none)) 93784
      (by norm_num)).1⟩

/-- C29 at 2175469529052182272 seconds, a number the JSON body can carry exactly: the units
of `formatUptime` are 25179045475141 days, 23 hours and 57 minutes, which together exceed
the number of seconds. -/
theorem uptime_units_large_uptime :
    uptimeUnits (.fin 2175469529052182272) = (.fin 25179045475141, .fin 23, .fin 57) ∧
      ¬ (25179045475141 * 86400 + 23 * 3600 + 57 * 60 ≤ 2175469529052182272) :=
  ⟨uptimeUnits_large, by norm_num⟩

/-! ## Recent errors and their count (C30) -/

theorem innerJoin_map_fst {α β : Type} (r : List β) (cond : α → β → Bool) :
    ∀ l : List α, (∀ a ∈ l, (r.filter (cond a)).length = 1) →
      (innerJoin l r cond).map Prod.fst = l
  | [], _ => rfl
  | a :: l, h => by
    have ih := innerJoin_map_fst r cond l fun x hx => h x (List.mem_cons_of_mem _ hx)
    have ha := h a (List.mem_cons_self _ _)
    unfold innerJoin at ih ⊢
    rw [List.flatMap_cons, List.map_append, ih]
    match hf : r.filter (cond a), ha with
    | [b], _ => rfl

theorem sample_matches_one_server (db : Store) (hpk : ServerIdsUnique db)
    (href : SamplesReferenceServers db) :
    ∀ hm ∈ db.health_metrics,
      (db.servers.filter fun s => hm.server_id == s.id).length = 1 := by
  intro hm hmem
  obtain ⟨s, hs, hid⟩ := href hm hmem
  have h := filter_id_length_one db.servers hpk s hs
  have hfun : (fun x : ServerRow => hm.server_id == x.id) = fun x => x.id == s.id := by
    funext x
    rw [← hid]
    exact Bool.beq_comm
  rw [hfun]
  exact h

theorem errorsSorted_length (dbNow : Int) (db : Store) (hpk : ServerIdsUnique db)
    (href : SamplesReferenceServers db) :
    (errorsSorted dbNow db).length = (db.health_metrics.filter (recentError dbNow)).length := by
  unfold errorsSorted
  rw [(List.perm_insertionSort _ _).length_eq, List.length_map,
    ← List.countP_eq_length_filter, ← List.countP_eq_length_filter]
  have hfst := innerJoin_map_fst db.servers (fun (hm : HealthMetricRow) (s : ServerRow) =>
    hm.server_id == s.id) db.health_metrics (sample_matches_one_server db hpk href)
  conv_rhs => rw [← hfst]
  rw [List.countP_map]
  rfl

/-- C30: when no two servers share an id and every sample references a registered server,
the number of entries of `recent_errors` in a dashboard response is
`min 50 stats.errors_last_hour`, both being taken from the error samples of the last 25
hours of store time; so `recent_errors` is empty exactly when `errors_last_hour` is 0. -/
theorem recent_errors_length_is_capped_count (env : JSEnv) (fails : Nat → Bool)
    (appNow dbNow : Int) (db : Store) (data : DashboardData) (hpk : ServerIdsUnique db)
    (href : SamplesReferenceServers db)
    (h : getDashboard env fails appNow dbNow db = .ok data) :
    data.stats.errors_last_hour =
        (db.health_metrics.filter fun hm => recentError dbNow hm).length ∧
      data.recent_errors.length = min 50 data.stats.errors_last_hour ∧
      (data.recent_errors = [] ↔ data.stats.errors_last_hour = 0) := by
  obtain ⟨_, herr, _, hstats⟩ := getDashboard_ok env fails appNow dbNow db data h
  rw [statsQuery_counts dbNow db hpk] at hstats
  have hrow := (List.cons.inj hstats).1
  have hcount : data.stats.errors_last_hour =
      (db.health_metrics.filter fun hm => recentError dbNow hm).length := by
    rw [← hrow]
  have hlen : data.recent_errors.length = min 50 data.stats.errors_last_hour := by
    rw [herr, errorsQuery_eq, List.length_take, errorsSorted_length dbNow db hpk href, hcount]
  refine ⟨hcount, hlen, ?_⟩
  rw [← List.length_eq_zero, hlen]
  omega

/-- C30 on the store with two servers, read at store time 2000: one recent error sample,
one entry in `recent_errors`. -/
theorem recent_errors_length_witness :
    ∃ data, getDashboard exampleEnv (fun _ => false) 2000 2000 twoServerStore = .ok data ∧
      data.stats.errors_last_hour = 1 ∧
      data.recent_errors.length = min 50 data.stats.errors_last_hour := by
  obtain ⟨data, hdata⟩ : ∃ data,
      getDashboard exampleEnv (fun _ => false) 2000 2000 twoServerStore = .ok data := ⟨_, rfl⟩
  have h := recent_errors_length_is_capped_count exampleEnv (fun _ => false) 2000 2000
    twoServerStore data (by unfold ServerIdsUnique; decide)
    (by unfold SamplesReferenceServers; decide) hdata
  refine ⟨data, hdata, ?_, h.2.1⟩
  rw [h.1]
  decide


/-! ## List of servers (C27) -/

theorem foldl_max_spec : ∀ (ts : List Int) (t : Int),
    t ≤ ts.foldl max t ∧ (∀ x ∈ ts, x ≤ ts.foldl max t) ∧
      (ts.foldl max t = t ∨ ts.foldl max t ∈ ts)
  | [], t => ⟨le_refl t, fun x hx => (by cases hx), Or.inl rfl⟩
  | x :: ts, t => by
    obtain ⟨h1, h2, h3⟩ := foldl_max_spec ts (max t x)
    rw [List.foldl_cons]
    refine ⟨le_trans (le_max_left t x) h1, ?_, ?_⟩
    · intro y hy
      rcases List.mem_cons.mp hy with rfl | hy
      · exact le_trans (le_max_right t y) h1
      · exact h2 y hy
    · rcases h3 with h3 | h3
      · rcases max_choice t x with hc | hc
        · exact Or.inl (h3.trans hc)
        · right
          rw [h3, hc]
          exact List.mem_cons_self _ _
      · exact Or.inr (List.mem_cons_of_mem _ h3)

theorem maxOf_spec (l : List Int) :
    (maxOf l = none ↔ l = []) ∧
      ∀ t, maxOf l = some t → t ∈ l ∧ ∀ x ∈ l, x ≤ t := by
  cases l with
  | nil => exact ⟨⟨fun _ => rfl, fun _ => rfl⟩, fun t h => by cases h⟩
  | cons a ts =>
    refine ⟨⟨fun h => (by cases h), fun h => (by cases h)⟩, ?_⟩
    intro t h
    obtain ⟨h1, h2, h3⟩ := foldl_max_spec ts a
    simp only [maxOf, Option.some.injEq] at h
    subst h
    constructor
    · rcases h3 with h3 | h3
      · rw [h3]
        exact List.mem_cons_self _ _
      · exact List.mem_cons_of_mem _ h3
    · intro x hx
      rcases List.mem_cons.mp hx with rfl | hx
      · exact h1
      · exact h2 x hx

theorem leftJoin_cons {α β : Type} (a : α) (l : List α) (r : List β) (cond : α → β → Bool) :
    leftJoin (a :: l) r cond = leftJoin [a] r cond ++ leftJoin l r cond := by
  unfold leftJoin
  rw [List.flatMap_cons, List.flatMap_cons, List.flatMap_nil, List.append_nil]

theorem leftJoin_single_fst {α β : Type} (a : α) (r : List β) (cond : α → β → Bool) :
    ∀ p ∈ leftJoin [a] r cond, p.1 = a := by
  intro p hp
  have := leftJoin_fst_mem [a] r cond p hp
  exact List.mem_singleton.mp this

/-- Under unique ids, the rows of the join that carry the id of a server are the rows of
that server. -/
theorem leftJoin_filter_id {β : Type} (r : List β) (cond : ServerRow → β → Bool) :
    ∀ (l : List ServerRow), (l.map fun s => s.id).Nodup → ∀ s ∈ l,
      (leftJoin l r cond).filter (fun p => p.1.id == s.id) = leftJoin [s] r cond
  | [], _, s, hs => by cases hs
  | a :: l, hnd, s, hs => by
    rw [List.map_cons, List.nodup_cons] at hnd
    obtain ⟨hnot, hnd2⟩ := hnd
    rw [leftJoin_cons, List.filter_append]
    by_cases ha : a.id = s.id
    · have hsa : s = a := by
        rcases List.mem_cons.mp hs with h | h
        · exact h
        · exfalso
          apply hnot
          rw [ha]
          exact List.mem_map.mpr ⟨s, h, rfl⟩
      subst hsa
      have h1 : (leftJoin [s] r cond).filter (fun p => p.1.id == s.id) =
          leftJoin [s] r cond := by
        rw [List.filter_eq_self]
        intro p hp
        rw [leftJoin_single_fst s r cond p hp]
        exact beq_iff_eq.mpr rfl
      have h2 : (leftJoin l r cond).filter (fun p => p.1.id == s.id) = [] := by
        rw [List.filter_eq_nil_iff]
        intro p hp hc
        apply hnot
        rw [← beq_iff_eq.mp hc]
        exact List.mem_map.mpr ⟨p.1, leftJoin_fst_mem l r cond p hp, rfl⟩
      rw [h1, h2, List.append_nil]
    · have hsl : s ∈ l := by
        rcases List.mem_cons.mp hs with h | h
        · exact absurd (by rw [h]) ha
        · exact h
      have h1 : (leftJoin [a] r cond).filter (fun p => p.1.id == s.id) = [] := by
        rw [List.filter_eq_nil_iff]
        intro p hp hc
        rw [leftJoin_single_fst a r cond p hp] at hc
        exact ha (beq_iff_eq.mp hc)
      rw [h1, List.nil_append]
      exact leftJoin_filter_id r cond l hnd2 s hsl

theorem filterMap_map_some {α β : Type} (s : α) :
    ∀ l : List β, (l.map fun b => (s, some b)).filterMap (fun p => p.2) = l
  | [] => rfl
  | b :: l => by
    have ih := filterMap_map_some s l
    simp only [List.map_cons, List.filterMap_cons, ih]

theorem samplesOf_eq (db : Store) (s : ServerRow) :
    db.health_metrics.filter (fun hm => s.id == hm.server_id) = samplesOf db s.id := by
  unfold samplesOf
  apply List.filter_congr
  intro hm _
  by_cases h : hm.server_id = s.id
  · simp [h]
  · have h2 : ¬ s.id = hm.server_id := fun e => h e.symm
    simp [h, h2]

theorem serverListSelect_block (db : Store) (s : ServerRow) :
    serverListSelect
        (leftJoin [s] db.health_metrics fun s hm => s.id == hm.server_id) =
      some (withCounts db s) := by
  unfold leftJoin withCounts
  rw [List.flatMap_cons, List.flatMap_nil, List.append_nil, samplesOf_eq]
  cases hf : samplesOf db s.id with
  | nil => rfl
  | cons b bs =>
    have hfm := filterMap_map_some s bs
    simp only [List.map_cons, serverListSelect, List.filterMap_cons, hfm]

theorem mem_join_ids (db : Store) (i : Nat) :
    i ∈ (leftJoin db.servers db.health_metrics fun s hm => s.id == hm.server_id).map
        (fun p => p.1.id) ↔ i ∈ db.servers.map fun s => s.id := by
  simp only [List.mem_map]
  constructor
  · rintro ⟨p, hp, rfl⟩
    exact ⟨p.1, leftJoin_fst_mem _ _ _ _ hp, rfl⟩
  · rintro ⟨s, hs, rfl⟩
    obtain ⟨o, ho⟩ := leftJoin_exists db.servers db.health_metrics
      (fun s hm => s.id == hm.server_id) s hs
    exact ⟨(s, o), ho, rfl⟩

/-- Under unique ids the list of servers is, up to order, every server with its
aggregates. -/
theorem serverListQuery_perm (env : JSEnv) (db : Store) (hpk : ServerIdsUnique db) :
    (serverListQuery env db).Perm (db.servers.map (withCounts db)) := by
  unfold serverListQuery groupByKey
  refine (List.perm_insertionSort _ _).trans ?_
  rw [List.filterMap_map]
  have hkeys : ((leftJoin db.servers db.health_metrics
      fun s hm => s.id == hm.server_id).map fun p => p.1.id).dedup.Perm
      (db.servers.map fun s => s.id) := by
    rw [List.perm_ext_iff_of_nodup (List.nodup_dedup _) hpk]
    intro i
    rw [List.mem_dedup]
    exact mem_join_ids db i
  refine (hkeys.filterMap _).trans ?_
  rw [List.filterMap_map]
  have hcongr : db.servers.filterMap
      ((serverListSelect ∘ fun k =>
        (leftJoin db.servers db.health_metrics fun s hm => s.id == hm.server_id).filter
          fun a => a.1.id == k) ∘ fun s => s.id) =
      db.servers.filterMap (some ∘ withCounts db) := by
    apply List.filterMap_congr
    intro s hs
    simp only [Function.comp]
    rw [leftJoin_filter_id db.health_metrics _ db.servers hpk s hs]
    exact serverListSelect_block db s
  rw [hcongr, List.filterMap_eq_map]

theorem serverListQuery_sorted (env : JSEnv) (db : Store) (h : AddressOrderTotal env) :
    (serverListQuery env db).Pairwise
      fun a b => env.addressLe a.ip_address b.ip_address = true := by
  unfold serverListQuery
  haveI : IsTotal ServerListRow (fun a b => env.addressLe a.ip_address b.ip_address = true) :=
    ⟨fun a b => h.1 a.ip_address b.ip_address⟩
  haveI : IsTrans ServerListRow (fun a b => env.addressLe a.ip_address b.ip_address = true) :=
    ⟨fun a b c hab hbc => h.2 _ _ _ hab hbc⟩
  exact List.sorted_insertionSort _ _


/-- C27: when no two servers share an id, the address order is a total order and the query
does not fail, `GET /api/dashboard/servers` answers with every server exactly once, by
address, `total_metrics` being the number of samples of the server and `total_errors` the
number of those with `is_error = true`, so `total_errors ≤ total_metrics`; a server without
sample has both counts 0 and no `last_metric`, and a `last_metric` is the newest timestamp
among the samples of the server. -/
theorem list_servers_counts (env : JSEnv) (fails : Nat → Bool) (db : Store)
    (hpk : ServerIdsUnique db) (hord : AddressOrderTotal env) (hf : fails 0 = false) :
    ∃ rows, getServers env fails db = .ok rows ∧
      (rows.map fun r => r.toServerRow).Perm db.servers ∧
      rows.Pairwise (fun a b => env.addressLe a.ip_address b.ip_address = true) ∧
      ∀ r ∈ rows,
        r.total_metrics = (samplesOf db r.id).length ∧
        r.total_errors = ((samplesOf db r.id).filter fun hm => hm.is_error).length ∧
        r.total_errors ≤ r.total_metrics ∧
        (samplesOf db r.id = [] →
          r.total_metrics = 0 ∧ r.total_errors = 0 ∧ r.last_metric = none) ∧
        ∀ t, r.last_metric = some t →
          (∃ hm ∈ samplesOf db r.id, hm.timestamp = t) ∧
            ∀ hm ∈ samplesOf db r.id, hm.timestamp ≤ t := by
  have hperm := serverListQuery_perm env db hpk
  refine ⟨serverListQuery env db, ?_, ?_, serverListQuery_sorted env db hord, ?_⟩
  · unfold getServers
    rw [hf]
    rfl
  · refine (hperm.map _).trans ?_
    rw [List.map_map]
    have : ((fun r : ServerListRow => r.toServerRow) ∘ withCounts db) = id := by
      funext s
      rfl
    rw [this, List.map_id]
  · intro r hr
    obtain ⟨s, _, rfl⟩ := List.mem_map.mp (hperm.mem_iff.mp hr)
    refine ⟨rfl, rfl, List.length_filter_le _ _, ?_, ?_⟩
    · intro hnil
      simp only [withCounts] at hnil ⊢
      rw [hnil]
      exact ⟨rfl, rfl, rfl⟩
    · intro t ht
      obtain ⟨hmem, hmax⟩ := (maxOf_spec _).2 t ht
      constructor
      · obtain ⟨hm, hhm, heq⟩ := List.mem_map.mp hmem
        exact ⟨hm, hhm, heq⟩
      · intro hm hhm
        exact hmax _ (List.mem_map.mpr ⟨hm, hhm, rfl⟩)

/-- C27 on the store with two servers: the first server has one sample, an error, taken at
time 1000; the second has none. -/
theorem list_servers_counts_witness :
    ∃ rows, getServers exampleEnv (fun _ => false) twoServerStore = .ok rows ∧
      rows.map (fun r => (r.id, r.total_metrics, r.total_errors, r.last_metric)) =
        [(1, 1, 1, some 1000), (2, 0, 0, none)] := by
  obtain ⟨rows, hrows, _⟩ := list_servers_counts exampleEnv (fun _ => false) twoServerStore
    (by unfold ServerIdsUnique; decide) exampleEnv_order rfl
  refine ⟨rows, hrows, ?_⟩
  have h : getServers exampleEnv (fun _ => false) twoServerStore =
      .ok (serverListQuery exampleEnv twoServerStore) := rfl
  rw [h] at hrows
  cases hrows
  decide


/-! ## Concurrent first writes (C23) -/

/-- The steps of a request handled alone are the handler `postMetrics`. -/
theorem alone_eq_postMetrics (env : JSEnv) (now : Int) (fails : Nat → Bool) (db : Store)
    (body : Payload) :
    MetricsRun.alone env now fails 3 0 (MetricsRun.start body) db =
      (.answered (postMetrics env fails now db body).1, (postMetrics env fails now db body).2) := by
  unfold postMetrics MetricsRun.start resolveServer
  by_cases hv : (validateMetrics body).length > 0
  · simp only [hv, if_true]
    rfl
  · simp only [hv, if_false]
    cases h0 : fails 0
    · cases hf : db.servers.filter (fun s => s.ip_address == pgText env body.server_ip) with
      | nil =>
        cases hh : defaultHostname body.server_ip with
        | error e =>
          simp only [MetricsRun.alone, MetricsRun.step, h0, hf, hh, Bool.false_eq_true,
            if_false]
        | ok hostname =>
          cases h1 : fails 1
          · cases ht : thresholdErrors env body with
            | error e =>
              simp only [MetricsRun.alone, MetricsRun.step, MetricsRun.classify, h0, hf, hh,
                h1, ht, Bool.false_eq_true, if_false]
            | ok errors =>
              cases h2 : fails 2 <;>
              simp only [MetricsRun.alone, MetricsRun.step, MetricsRun.classify, h0, hf, hh,
                h1, ht, h2, Bool.false_eq_true, if_false, if_true]
          · simp only [MetricsRun.alone, MetricsRun.step, h0, hf, hh, h1,
              Bool.false_eq_true, if_false, if_true]
      | cons row rest =>
        cases ht : thresholdErrors env body with
        | error e =>
          simp only [MetricsRun.alone, MetricsRun.step, MetricsRun.classify, h0, hf, ht,
            Bool.false_eq_true, if_false]
        | ok errors =>
          cases h1 : fails 1 <;>
          simp only [MetricsRun.alone, MetricsRun.step, MetricsRun.classify, h0, hf, ht, h1,
            Bool.false_eq_true, if_false, if_true]
    · simp only [MetricsRun.alone, MetricsRun.step, h0, if_true]


theorem step_keeps_addresses (env : JSEnv) (now : Int) (db : Store) (run : MetricsRun)
    (h : AddressesUnique db) :
    AddressesUnique (run.step env now (uniqueAddress env db run) db).2 := by
  cases run with
  | lookup body =>
    simp only [MetricsRun.step, uniqueAddress, Bool.false_eq_true, if_false]
    split
    · split <;> exact h
    · exact h
  | create body hostname =>
    simp only [MetricsRun.step, uniqueAddress]
    by_cases hany : (db.servers.any fun s => s.ip_address == pgText env body.server_ip) = true
    · rw [if_pos hany]
      exact h
    · rw [if_neg hany]
      unfold AddressesUnique Store.insertServer at *
      simp only [List.map_append, List.map_cons, List.map_nil]
      rw [List.nodup_append]
      refine ⟨h, List.nodup_singleton _, ?_⟩
      intro a ha hb
      rw [List.mem_singleton] at hb
      subst hb
      obtain ⟨s, hs, hsa⟩ := List.mem_map.mp ha
      apply hany
      rw [List.any_eq_true]
      exact ⟨s, hs, beq_iff_eq.mpr hsa⟩
  | store body serverId final =>
    simp only [MetricsRun.step, uniqueAddress, Bool.false_eq_true, if_false]
    unfold AddressesUnique at *
    rw [insertHealthMetric_servers]
    exact h
  | answered r => exact h

/-- C23 at two requests with the same new address `10.0.0.7` over an empty store, both
looking the server up before either inserts it: a store without constraint ends with two
rows of `servers` for the address and both requests answered 201; a store with a
uniqueness constraint on the address ends with one row, the second request answered 500
and its sample not stored. -/
theorem concurrent_first_writes_race :
    ((runInFlight exampleEnv 1000 noConstraint bothLookupsFirst twoFirstWrites).db.servers.map
        fun s => (s.id, s.ip_address)) = [(1, "10.0.0.7"), (2, "10.0.0.7")] ∧
      ((runInFlight exampleEnv 1000 noConstraint bothLookupsFirst
        twoFirstWrites).first.response.map Response.status) = some 201 ∧
      ((runInFlight exampleEnv 1000 noConstraint bothLookupsFirst
        twoFirstWrites).second.response.map Response.status) = some 201 ∧
      ((runInFlight exampleEnv 1000 (uniqueAddress exampleEnv) bothLookupsFirst
        twoFirstWrites).db.servers.map fun s => (s.id, s.ip_address)) = [(1, "10.0.0.7")] ∧
      ((runInFlight exampleEnv 1000 (uniqueAddress exampleEnv) bothLookupsFirst
        twoFirstWrites).first.response.map Response.status) = some 201 ∧
      (runInFlight exampleEnv 1000 (uniqueAddress exampleEnv) bothLookupsFirst
        twoFirstWrites).second.response = some (internalError msgMetricsFailed) ∧
      (runInFlight exampleEnv 1000 (uniqueAddress exampleEnv) bothLookupsFirst
        twoFirstWrites).db.health_metrics.length = 1 := by
  refine ⟨?_, ?_, ?_, ?_, ?_, ?_, ?_⟩ <;> decide

/-- C23 as amended: over a store that enforces a uniqueness constraint on the address, in
whatever order the queries of two requests in flight are resumed, no two rows of `servers`
share an address afterwards. -/
theorem unique_constraint_keeps_one_row (env : JSEnv) (now : Int) (schedule : List Bool)
    (st : InFlight) (h : AddressesUnique st.db) :
    AddressesUnique (runInFlight env now (uniqueAddress env) schedule st).db := by
  unfold runInFlight
  induction schedule generalizing st with
  | nil => exact h
  | cons b rest ih =>
    rw [List.foldl_cons]
    apply ih
    unfold InFlight.step
    cases b
    · simp only [Bool.false_eq_true, if_false]
      exact step_keeps_addresses env now st.db st.first h
    · simp only [if_true]
      exact step_keeps_addresses env now st.db st.second h

/-- C23 as amended, on the two requests for `10.0.0.7` with both lookups first: one row. -/
theorem unique_constraint_witness :
    AddressesUnique twoFirstWrites.db ∧
      AddressesUnique (runInFlight exampleEnv 1000 (uniqueAddress exampleEnv)
        bothLookupsFirst twoFirstWrites).db :=
  ⟨List.nodup_nil,
    unique_constraint_keeps_one_row exampleEnv 1000 bothLookupsFirst twoFirstWrites
      List.nodup_nil⟩

end HealthCheck
